import Mathlib

/-!
Relay firmware: broker client and command interpreter.

A shallow embedding of `MQTTRelay.cpp` / `MQTTConfig.h` / `MQTTRelay.h`.

Conventions of the embedding.

* Every method of `MQTTRelay` becomes a function on the record `MQTTRelay`, which holds the
  members of the C++ object together with the board it drives (EEPROM, GPIO).
* What the platform returns during one call (the clock, the outcome of a flash write, the
  broker's answer, the random number) is an explicit argument of type `Platform`.
  The clock does not advance inside one call.
* `unsigned long` is 32 bits wide on the ESP8266 and the ESP32: clock values are reduced
  modulo `2^32` and differences are computed modulo `2^32`.
* The libraries the firmware links against (PubSubClient, ArduinoJson, EEPROM) are not part
  of the repository.  They are represented by small interface models; the JSON parser is a
  parameter.  Logging is left out.
* A `char` is a Lean character; a `const char*` that may be null is an `Option String`.
-/

/-! ## Constants of `MQTTConfig.h` -/

def MQTT_BROKER_HOST : String := "192.168.0.109"
def MQTT_BROKER_PORT : Int := 8883
def MQTT_KEEPALIVE : Nat := 60
def MQTT_QOS : Nat := 1
def UPLINK_TOPIC_PREFIX : String := "ControlDevice/Uplink/"
def DOWNLINK_TOPIC_PREFIX : String := "ControlDevice/Downlink/"
def STATUS_TOPIC_PREFIX : String := "ControlDevice/Status/"
def MQTT_RECONNECT_DELAY : Nat := 5000
def MQTT_MAX_RECONNECT_ATTEMPTS : Int := 10
def HEARTBEAT_INTERVAL : Nat := 30000
def MQTT_EEPROM_ADDR : Nat := 200
def MQTT_EEPROM_SIZE : Nat := 100
def DEVICE_UUID : String := "AUTO_GENERATED"
def DEVICE_NAME : String := "AUTO_GENERATED"

/-! ## Machine arithmetic -/

/-- Number of values of an `unsigned long` (32 bits on both targets). -/
def ULONG_RANGE : Nat := 4294967296

/-- Difference `a - b` of two `unsigned long` values. -/
def ulongSub (a b : Nat) : Nat := (a % ULONG_RANGE + ULONG_RANGE - b % ULONG_RANGE) % ULONG_RANGE

/-! ## Platform inputs -/

/-- Values the platform hands to the firmware during one call. -/
structure Platform where
  /-- clock in milliseconds; `millis()` returns it as an `unsigned long` -/
  now : Nat
  /-- result of `EEPROM.commit()` -/
  commitOk : Bool
  /-- whether the broker accepts a connection request -/
  accept : Bool
  /-- value returned by `random(0xffff)` -/
  rnd : Nat
  deriving DecidableEq, Repr

/-- Arduino `millis()`. -/
def millis (env : Platform) : Nat := env.now % ULONG_RANGE

/-! ## JSON documents (ArduinoJson) -/

/-- Values stored in or read from a document by the firmware. -/
inductive JsonValue where
  | null
  | bool (b : Bool)
  | num (n : Int)
  | str (s : String)
  /-- an array; each element as its `const char*` view (`none` when it is not a string) -/
  | arr (items : List (Option String))
  deriving DecidableEq, Repr

/-- A `JsonDocument`: the members of the root object, in insertion order.  A document whose
root is not an object has no members. -/
structure JsonDocument where
  members : List (String × JsonValue)
  deriving DecidableEq, Repr

namespace JsonDocument

/-- A fresh `JsonDocument doc;`. -/
def empty : JsonDocument := ⟨[]⟩

/-- Member lookup `doc[key]` (read). -/
def get (doc : JsonDocument) (key : String) : Option JsonValue :=
  (doc.members.find? (fun kv => kv.1 == key)).map (fun kv => kv.2)

/-- Assignment `doc[key] = v`: replaces the member or appends it. -/
def set (doc : JsonDocument) (key : String) (v : JsonValue) : JsonDocument :=
  if doc.members.any (fun kv => kv.1 == key) then
    ⟨doc.members.map (fun kv => if kv.1 == key then (key, v) else kv)⟩
  else
    ⟨doc.members ++ [(key, v)]⟩

/-- Conversion `const char* p = doc[key]`: the string, or null (`none`) when the member is
missing or is not a string. -/
def cstr (doc : JsonDocument) (key : String) : Option String :=
  match doc.get key with
  | some (JsonValue.str s) => some s
  | _ => none

end JsonDocument

/-- The type of ArduinoJson's `deserializeJson`, applied to the received text: `none` when it
reports a `DeserializationError`. -/
abbrev Deserializer := String → Option JsonDocument

/-! ## The MQTT client (PubSubClient) -/

/-- Last-will registration carried by a connection request. -/
structure LastWill where
  topic : String
  payload : JsonDocument
  retained : Bool
  deriving DecidableEq, Repr

/-- Requests the client hands to the transport, as seen by the broker. -/
inductive Packet where
  | connect (clientId : String) (host : List Char) (port : Nat) (will : Option LastWill)
  | subscribe (topic : String) (qos : Nat)
  | publish (topic : String) (payload : JsonDocument) (retained : Bool)
  | disconnect
  deriving DecidableEq, Repr

/-- State of a `PubSubClient`. -/
structure PubSubClient where
  /-- built over `wifiClientSecure` (true) or `wifiClient` (false) -/
  secure : Bool
  /-- port given to `setServer` (the host is kept by pointer into the configuration) -/
  port : Nat
  /-- whether `setCallback` has installed the message callback -/
  callbackSet : Bool
  keepAlive : Nat
  /-- result of `connected()` -/
  connected : Bool
  /-- requests issued so far, oldest first -/
  sent : List Packet
  deriving DecidableEq, Repr

namespace PubSubClient

/-- Constructor `PubSubClient(client)`. -/
def new (secure : Bool) : PubSubClient :=
  { secure := secure, port := 0, callbackSet := false, keepAlive := 15, connected := false, sent := [] }

/-- Method `setServer(domain, port)`; the port is a `uint16_t`. -/
def setServer (port : Int) (c : PubSubClient) : PubSubClient :=
  { c with port := (port % 65536).toNat }

def setCallback (c : PubSubClient) : PubSubClient := { c with callbackSet := true }

def setKeepAlive (k : Nat) (c : PubSubClient) : PubSubClient := { c with keepAlive := k }

/-- Method `connect(id)`: the one-argument overload, which registers no will.  The request is
issued and the broker's answer `accept` decides the session state. -/
def connect (accept : Bool) (id : String) (host : List Char) (c : PubSubClient) :
    Bool × PubSubClient :=
  if c.connected then (true, c)
  else (accept, { c with connected := accept, sent := c.sent ++ [Packet.connect id host c.port none] })

/-- Method `subscribe(topic, qos)`. -/
def subscribe (topic : String) (qos : Nat) (c : PubSubClient) : PubSubClient :=
  if c.connected then { c with sent := c.sent ++ [Packet.subscribe topic qos] } else c

/-- Method `publish(topic, payload, retained)`. -/
def publish (topic : String) (payload : JsonDocument) (retained : Bool) (c : PubSubClient) :
    PubSubClient :=
  if c.connected then { c with sent := c.sent ++ [Packet.publish topic payload retained] } else c

/-- Method `disconnect()`. -/
def disconnect (c : PubSubClient) : PubSubClient :=
  { c with connected := false, sent := c.sent ++ [Packet.disconnect] }

/-- The transport part of `loop()`: a session whose link went down is no longer connected. -/
def poll (linkUp : Bool) (c : PubSubClient) : PubSubClient :=
  { c with connected := c.connected && linkUp }

end PubSubClient

/-! ## The persistent store (EEPROM emulation)

The flash-backed `EEPROM` object of the ESP cores: `begin(size)` opens the region
`[0, size)` in RAM, `get` and `put` copy an object from or to that region and do nothing
when the object does not lie inside it, `commit()` writes the region to flash and reports
whether that worked, `end()` closes the region. -/

/-- State of the `EEPROM` object: the flash sector, which survives a restart, and the RAM
copy of the region opened by `begin`.  An erased flash byte reads 255. -/
structure EEPROMClass where
  flash : List Nat
  data : List Nat
  /-- size of the open region; 0 when closed -/
  size : Nat
  deriving DecidableEq, Repr

namespace EEPROMClass

/-- Method `begin(size)`: opens the region `[0, size)` and loads it from flash. -/
def begin (size : Nat) (e : EEPROMClass) : EEPROMClass :=
  { e with data := (List.range size).map (fun i => e.flash.getD i 255), size := size }

/-- Bytes read by `get(address, t)` for an object of `len` bytes: `none` when the access does
not lie inside the open region (the library then leaves `t` untouched). -/
def read (address len : Nat) (e : EEPROMClass) : Option (List Nat) :=
  if address + len > e.size then none
  else some ((e.data.drop address).take len)

/-- Method `put(address, t)` for an object whose bytes are `bytes`: dropped when the access
does not lie inside the open region. -/
def write (address : Nat) (bytes : List Nat) (e : EEPROMClass) : EEPROMClass :=
  if address + bytes.length > e.size then e
  else { e with data := e.data.take address ++ bytes ++ e.data.drop (address + bytes.length) }

/-- Method `commit()`: writes the region back to flash; `ok` is the outcome of the flash
write. -/
def commit (ok : Bool) (e : EEPROMClass) : Bool × EEPROMClass :=
  if ok then (true, { e with flash := e.data ++ e.flash.drop e.data.length })
  else (false, e)

/-- Method `end()`: closes the region. -/
def close (e : EEPROMClass) : EEPROMClass := { e with data := [], size := 0 }

end EEPROMClass

/-- Levels of a digital output. -/
inductive PinLevel where
  | LOW
  | HIGH
  deriving DecidableEq, Repr

/-- Calls made to the GPIO driver. -/
inductive GpioCall where
  | pinModeOutput (pin : Nat)
  | pinModeInputPullup (pin : Nat)
  | digitalWrite (pin : Nat) (level : PinLevel)
  deriving DecidableEq, Repr

/-- The board: what outlives the `MQTTRelay` object. -/
structure Board where
  EEPROM : EEPROMClass
  /-- GPIO calls made so far, oldest first -/
  gpio : List GpioCall
  deriving DecidableEq, Repr

/-! ## `struct MQTTConfig` -/

/-- The configuration record; the three character arrays have 64, 32 and 64 elements. -/
structure MQTTConfig where
  brokerHost : List Char
  brokerPort : Int
  deviceUUID : List Char
  deviceName : List Char
  useSSL : Bool
  initialized : Bool
  deriving DecidableEq, Repr

/-- Value of `sizeof(MQTTConfig)`: 64 + 4 + 32 + 64 + 1 + 1, rounded up to the alignment of
`int`. -/
def SIZEOF_MQTTConfig : Nat := 168

/-- The NUL character. -/
def NUL : Char := Char.ofNat 0

/-- C `strncpy(dst, src, n)`: copies `src` and fills up with NUL to `n` characters; the rest
of `dst` is kept. -/
def strncpy (dst : List Char) (src : String) (n : Nat) : List Char :=
  (src.toList ++ List.replicate n NUL).take n ++ dst.drop n

/-- The C string held in a character array: the characters before the first NUL. -/
def cString (a : List Char) : List Char := a.takeWhile (fun c => c != NUL)

/-- Fits a list to exactly `n` elements. -/
def fitTo {α : Type} (n : Nat) (pad : α) (l : List α) : List α :=
  (l ++ List.replicate n pad).take n

/-- Little-endian bytes of a 32-bit `int`. -/
def int32Bytes (v : Int) : List Nat :=
  let u := (v % 4294967296).toNat
  [u % 256, u / 256 % 256, u / 65536 % 256, u / 16777216 % 256]

/-- The 32-bit `int` stored in four little-endian bytes. -/
def int32OfBytes (b : List Nat) : Int :=
  let u := b.getD 0 0 + 256 * b.getD 1 0 + 65536 * b.getD 2 0 + 16777216 * b.getD 3 0
  if u < 2147483648 then (u : Int) else (u : Int) - 4294967296

def boolByte (b : Bool) : Nat := if b then 1 else 0

def boolOfByte (n : Nat) : Bool := n != 0

namespace MQTTConfig

/-- Memory image of the record (the two trailing padding bytes are written as 0). -/
def toBytes (c : MQTTConfig) : List Nat :=
  (fitTo 64 NUL c.brokerHost).map (fun ch => ch.toNat % 256)
    ++ int32Bytes c.brokerPort
    ++ (fitTo 32 NUL c.deviceUUID).map (fun ch => ch.toNat % 256)
    ++ (fitTo 64 NUL c.deviceName).map (fun ch => ch.toNat % 256)
    ++ [boolByte c.useSSL, boolByte c.initialized, 0, 0]

/-- The record held in a memory image. -/
def ofBytes (b : List Nat) : MQTTConfig :=
  { brokerHost := ((b.take 64).map Char.ofNat)
    brokerPort := int32OfBytes ((b.drop 64).take 4)
    deviceUUID := (((b.drop 68).take 32).map Char.ofNat)
    deviceName := (((b.drop 100).take 64).map Char.ofNat)
    useSSL := boolOfByte (b.getD 164 0)
    initialized := boolOfByte (b.getD 165 0) }

end MQTTConfig

/-! ## `class MQTTRelay` -/

/-- Members of the `MQTTRelay` object, and the board it drives. -/
structure MQTTRelay where
  reconnectAttempts : Int
  autoReconnect : Bool
  relayState : Bool
  relayPin : Nat
  deviceUUID : String
  deviceName : String
  uplinkTopic : String
  downlinkTopic : String
  statusTopic : String
  config : MQTTConfig
  lastHeartbeat : Nat
  lastReconnectAttempt : Nat
  /-- `none` is the null pointer -/
  mqttClient : Option PubSubClient
  board : Board
  deriving DecidableEq, Repr

/-- One scheduler pass as seen by `MQTTRelay::loop`: the platform values, whether the
transport is still up when `mqttClient->loop()` runs, and the messages (topic, payload) that
`mqttClient->loop()` hands to the callback. -/
structure Tick where
  env : Platform
  linkUp : Bool
  inbound : List (String × List Char)
  deriving DecidableEq, Repr

namespace MQTTRelay

/-- Constructor.  `uninit` is the content of the member `config` before the constructor body
runs. -/
def new (relayPin : Nat) (deviceUUID deviceName : String) (uninit : MQTTConfig) (board : Board) :
    MQTTRelay :=
  { relayPin := relayPin
    relayState := false
    deviceUUID := deviceUUID
    deviceName := deviceName
    mqttClient := none
    lastReconnectAttempt := 0
    lastHeartbeat := 0
    reconnectAttempts := 0
    autoReconnect := true
    uplinkTopic := UPLINK_TOPIC_PREFIX ++ deviceUUID
    downlinkTopic := DOWNLINK_TOPIC_PREFIX ++ deviceUUID
    statusTopic := STATUS_TOPIC_PREFIX ++ deviceUUID
    config :=
      { brokerHost := strncpy uninit.brokerHost MQTT_BROKER_HOST (64 - 1)
        brokerPort := MQTT_BROKER_PORT
        deviceUUID := strncpy uninit.deviceUUID deviceUUID (32 - 1)
        deviceName := strncpy uninit.deviceName deviceName (64 - 1)
        useSSL := true
        initialized := false }
    board := board }

/-- Method `isConnected()`: `mqttClient && mqttClient->connected()`. -/
def isConnected (d : MQTTRelay) : Bool :=
  match d.mqttClient with
  | some c => c.connected
  | none => false

/-- Requests issued to the broker so far (none before the client exists). -/
def sent (d : MQTTRelay) : List Packet :=
  match d.mqttClient with
  | some c => c.sent
  | none => []

/-- Applies a client method through the pointer `mqttClient`. -/
def onClient (f : PubSubClient → PubSubClient) (d : MQTTRelay) : MQTTRelay :=
  match d.mqttClient with
  | some c => { d with mqttClient := some (f c) }
  | none => d

/-- Method `getCurrentTimestamp()`: `String(millis())`. -/
def getCurrentTimestamp (env : Platform) : String := toString (millis env)

/-- The text `relayState ? "on" : "off"`. -/
def onOff (b : Bool) : String := if b then "on" else "off"

/-- Method `saveConfig()`. -/
def saveConfig (env : Platform) (d : MQTTRelay) : Bool × MQTTRelay :=
  let config := { d.config with initialized := true }
  let e := d.board.EEPROM.begin MQTT_EEPROM_SIZE
  let e := e.write MQTT_EEPROM_ADDR config.toBytes
  let (success, e) := e.commit env.commitOk
  let e := e.close
  (success, { d with config := config, board := { d.board with EEPROM := e } })

/-- Method `loadConfig()`. -/
def loadConfig (env : Platform) (d : MQTTRelay) : Bool × MQTTRelay :=
  let e := d.board.EEPROM.begin MQTT_EEPROM_SIZE
  let config :=
    match e.read MQTT_EEPROM_ADDR SIZEOF_MQTTConfig with
    | some bytes => MQTTConfig.ofBytes bytes
    | none => d.config
  let e := e.close
  let d := { d with config := config, board := { d.board with EEPROM := e } }
  if !d.config.initialized then
    let d := { d with config := { d.config with initialized := true } }
    (false, (saveConfig env d).2)
  else
    (true, d)

/-- Method `loadRelayState()`. -/
def loadRelayState (d : MQTTRelay) : Bool × MQTTRelay :=
  let e := d.board.EEPROM.begin MQTT_EEPROM_SIZE
  let relayState :=
    match e.read (MQTT_EEPROM_ADDR + SIZEOF_MQTTConfig) 1 with
    | some bytes => boolOfByte (bytes.getD 0 0)
    | none => d.relayState
  let e := e.close
  (true, { d with relayState := relayState, board := { d.board with EEPROM := e } })

/-- Method `saveRelayState()`. -/
def saveRelayState (env : Platform) (d : MQTTRelay) : Bool × MQTTRelay :=
  let e := d.board.EEPROM.begin MQTT_EEPROM_SIZE
  let e := e.write (MQTT_EEPROM_ADDR + SIZEOF_MQTTConfig) [boolByte d.relayState]
  let (success, e) := e.commit env.commitOk
  let e := e.close
  (success, { d with board := { d.board with EEPROM := e } })

/-- Call `digitalWrite(relayPin, relayState ? LOW : HIGH)`. -/
def driveRelay (d : MQTTRelay) : MQTTRelay :=
  { d with board := { d.board with
      gpio := d.board.gpio ++
        [GpioCall.digitalWrite d.relayPin (if d.relayState then PinLevel.LOW else PinLevel.HIGH)] } }

/-- Method `setRelayState(state, saveToEEPROM)`. -/
def setRelayState (env : Platform) (state : Bool) (saveToEEPROM : Bool) (d : MQTTRelay) :
    Bool × MQTTRelay :=
  if d.relayState = state then (true, d)
  else
    let d := { d with relayState := state }
    let d := driveRelay d
    let d := if saveToEEPROM then (saveRelayState env d).2 else d
    (true, d)

/-- Document built by `sendHeartbeat()`. -/
def heartbeatDoc (env : Platform) (d : MQTTRelay) : JsonDocument :=
  ((((JsonDocument.empty.set "device_uuid" (JsonValue.str d.deviceUUID)).set
    "message" (JsonValue.str "heartbeat")).set
    "state" (JsonValue.str (onOff d.relayState))).set
    "uptime" (JsonValue.num (millis env))).set
    "timestamp" (JsonValue.str (getCurrentTimestamp env))

/-- Method `sendHeartbeat()`. -/
def sendHeartbeat (env : Platform) (d : MQTTRelay) : MQTTRelay :=
  if !d.isConnected then d
  else d.onClient (PubSubClient.publish d.uplinkTopic (heartbeatDoc env d) false)

/-- Document built by `sendStatus(status, retained)` and by `setupLastWill()`. -/
def statusDoc (env : Platform) (status : String) (d : MQTTRelay) : JsonDocument :=
  ((JsonDocument.empty.set "device_uuid" (JsonValue.str d.deviceUUID)).set
    "status" (JsonValue.str status)).set
    "timestamp" (JsonValue.str (getCurrentTimestamp env))

/-- Method `sendStatus(status, retained)`. -/
def sendStatus (env : Platform) (status : String) (retained : Bool) (d : MQTTRelay) : MQTTRelay :=
  if !d.isConnected then d
  else d.onClient (PubSubClient.publish d.statusTopic (statusDoc env status d) retained)

/-- Document built by `sendAck(command, success, state)`; `state = none` is the null default. -/
def ackDoc (env : Platform) (command : String) (success : Bool) (state : Option String)
    (d : MQTTRelay) : JsonDocument :=
  let doc := (((JsonDocument.empty.set "device_uuid" (JsonValue.str d.deviceUUID)).set
    "command" (JsonValue.str "ack")).set
    "original_command" (JsonValue.str command)).set
    "success" (JsonValue.bool success)
  let doc := match state with
    | some s => doc.set "state" (JsonValue.str s)
    | none => doc
  doc.set "timestamp" (JsonValue.str (getCurrentTimestamp env))

/-- Method `sendAck(command, success, state)`. -/
def sendAck (env : Platform) (command : String) (success : Bool) (state : Option String)
    (d : MQTTRelay) : MQTTRelay :=
  if !d.isConnected then d
  else d.onClient (PubSubClient.publish d.uplinkTopic (ackDoc env command success state d) false)

/-- Document built by `sendHello()`. -/
def helloDoc (env : Platform) (d : MQTTRelay) : JsonDocument :=
  ((((JsonDocument.empty.set "device_uuid" (JsonValue.str d.deviceUUID)).set
    "message" (JsonValue.str "hello")).set
    "device_name" (JsonValue.str d.deviceName)).set
    "state" (JsonValue.str (onOff d.relayState))).set
    "timestamp" (JsonValue.str (getCurrentTimestamp env))

/-- Method `sendHello()`. -/
def sendHello (env : Platform) (d : MQTTRelay) : MQTTRelay :=
  if !d.isConnected then d
  else d.onClient (PubSubClient.publish d.uplinkTopic (helloDoc env d) false)

/-- Method `setupLastWill()`: the offline document is built and serialized into a local
string, and nothing is done with it. -/
def setupLastWill (env : Platform) (d : MQTTRelay) : MQTTRelay :=
  let _payload := statusDoc env "offline" d
  d

/-- Method `begin()`. -/
def begin (env : Platform) (d : MQTTRelay) : Bool × MQTTRelay :=
  let d := { d with board := { d.board with gpio := d.board.gpio ++ [GpioCall.pinModeOutput d.relayPin] } }
  let d := (loadConfig env d).2
  let d := (loadRelayState d).2
  let d := driveRelay d
  let c := PubSubClient.new d.config.useSSL
  let c := c.setServer d.config.brokerPort
  let c := c.setCallback
  let c := c.setKeepAlive MQTT_KEEPALIVE
  let d := { d with mqttClient := some c }
  let d := setupLastWill env d
  (true, d)

/-- The text `String(n, HEX)`. -/
def hexString (n : Nat) : String := String.mk (Nat.toDigits 16 n)

/-- Method `connect()`. -/
def connect (env : Platform) (d : MQTTRelay) : Bool × MQTTRelay :=
  match d.mqttClient with
  | none => (false, d)
  | some c =>
    if c.connected then (true, d)
    else
      let clientId := "ESP32-" ++ d.deviceUUID ++ "-" ++ hexString (env.rnd % 65535)
      let (connected, c) := c.connect env.accept clientId (cString d.config.brokerHost)
      let d := { d with mqttClient := some c }
      if connected then
        let d := d.onClient (PubSubClient.subscribe d.downlinkTopic MQTT_QOS)
        let d := sendHello env d
        let d := sendStatus env "online" true d
        (true, { d with reconnectAttempts := 0 })
      else
        (false, { d with reconnectAttempts := d.reconnectAttempts + 1 })

/-- Method `setBrokerConfig(host, port, useSSL)`. -/
def setBrokerConfig (env : Platform) (host : String) (port : Int) (useSSL : Bool)
    (d : MQTTRelay) : MQTTRelay :=
  let d := { d with config := { d.config with
    brokerHost := strncpy d.config.brokerHost host (64 - 1)
    brokerPort := port
    useSSL := useSSL } }
  (saveConfig env d).2

/-- Method `disconnect()`. -/
def disconnect (env : Platform) (d : MQTTRelay) : MQTTRelay :=
  if d.isConnected then (sendStatus env "offline" true d).onClient PubSubClient.disconnect
  else d

/-- Method `processCommand(command)`. -/
def processCommand (env : Platform) (command : JsonDocument) (d : MQTTRelay) : MQTTRelay :=
  match command.cstr "command" with
  | none =>
    if command.cstr "message" = some "hello from server" then d
    else d
  | some cmd =>
    if cmd = "set_state" then
      match command.cstr "state" with
      | none => sendAck env cmd false none d
      | some state =>
        let newState : Option Bool :=
          if state = "on" then some true
          else if state = "off" then some false
          else none
        match newState with
        | none => sendAck env cmd false none d
        | some b =>
          let r := setRelayState env b true d
          if r.1 then sendAck env cmd true (some state) r.2
          else sendAck env cmd false none r.2
    else if cmd = "get_state" then
      sendAck env cmd true (some (onOff d.relayState)) d
    else
      sendAck env cmd false none d

/-- The `String message` that `handleMessage` builds from the payload, character by
character. -/
def payloadText (payload : List Char) : String :=
  payload.foldl (fun (m : String) ch => m.push ch) ""

/-- Method `handleMessage(topic, payload, length)`. -/
def handleMessage (deserializeJson : Deserializer) (env : Platform) (_topic : String)
    (payload : List Char) (d : MQTTRelay) : MQTTRelay :=
  let message := payloadText payload
  match deserializeJson message with
  | none => d
  | some doc => processCommand env doc d

/-- Method `handleReconnection()`. -/
def handleReconnection (env : Platform) (d : MQTTRelay) : MQTTRelay :=
  let now := millis env
  if ulongSub now d.lastReconnectAttempt < MQTT_RECONNECT_DELAY then d
  else if d.reconnectAttempts ≥ MQTT_MAX_RECONNECT_ATTEMPTS then { d with autoReconnect := false }
  else (connect env { d with lastReconnectAttempt := now }).2

/-- The call `mqttClient->loop()`: the transport is polled and, while the session is up, the
received messages go through `mqttCallback` to `handleMessage` of this object (the static
`instance` pointer set by the constructor). -/
def clientLoop (deserializeJson : Deserializer) (t : Tick) (d : MQTTRelay) : MQTTRelay :=
  let d := d.onClient (PubSubClient.poll t.linkUp)
  if d.isConnected then
    t.inbound.foldl (fun d m => handleMessage deserializeJson t.env m.1 m.2 d) d
  else d

/-- Method `loop()`. -/
def loop (deserializeJson : Deserializer) (t : Tick) (d : MQTTRelay) : MQTTRelay :=
  match d.mqttClient with
  | none => d
  | some _ =>
    let d := clientLoop deserializeJson t d
    let d := if !d.isConnected && d.autoReconnect then handleReconnection t.env d else d
    let now := millis t.env
    if d.isConnected && ulongSub now d.lastHeartbeat > HEARTBEAT_INTERVAL then
      { sendHeartbeat t.env d with lastHeartbeat := now }
    else d

/-- Successive passes of `loop()`, oldest first. -/
def run (deserializeJson : Deserializer) (ts : List Tick) (d : MQTTRelay) : MQTTRelay :=
  ts.foldl (fun d t => loop deserializeJson t d) d

/-- Successive calls of `processCommand`, each with the platform values of its call. -/
def processCommands (cs : List (Platform × JsonDocument)) (d : MQTTRelay) : MQTTRelay :=
  cs.foldl (fun d c => processCommand c.1 c.2 d) d

/-- Start-up as done by `initializeMQTTRelay()` in `main.cpp`: construct, `begin()`, and one
`connect()` when `begin()` reports success. -/
def initializeMQTTRelay (envBegin envConnect : Platform) (relayPin : Nat)
    (deviceUUID deviceName : String) (uninit : MQTTConfig) (board : Board) : MQTTRelay :=
  let d := MQTTRelay.new relayPin deviceUUID deviceName uninit board
  let r := begin envBegin d
  if r.1 then (connect envConnect r.2).2 else r.2

end MQTTRelay

/-! ## Observers used in the statements -/

/-- Whether a request is a connection request. -/
def Packet.isConnect : Packet → Bool
  | Packet.connect _ _ _ _ => true
  | _ => false

/-- Whether a request publishes something. -/
def Packet.isPublish : Packet → Bool
  | Packet.publish _ _ _ => true
  | _ => false

/-- The will registered by a request, if any. -/
def Packet.will : Packet → Option LastWill
  | Packet.connect _ _ _ w => w
  | _ => none

/-- Whether a request publishes a heartbeat document. -/
def Packet.isHeartbeat : Packet → Bool
  | Packet.publish _ doc _ => doc.get "message" == some (JsonValue.str "heartbeat")
  | _ => false

namespace MQTTRelay

/-- Effect of one request that the client accepts: it is added to the requests issued. -/
def emit (p : Packet) (d : MQTTRelay) : MQTTRelay :=
  d.onClient (fun c => { c with sent := c.sent ++ [p] })

/-- Number of connection requests issued so far. -/
def attempts (d : MQTTRelay) : Nat := d.sent.countP Packet.isConnect

/-- Number of heartbeats published so far. -/
def heartbeats (d : MQTTRelay) : Nat := d.sent.countP Packet.isHeartbeat

/-- Whether the pass `t` of `loop()` publishes a heartbeat. -/
def emitsHeartbeat (deserializeJson : Deserializer) (t : Tick) (d : MQTTRelay) : Bool :=
  decide (heartbeats d < heartbeats (loop deserializeJson t d))

/-- Clock values of the passes of `loop()` that publish a heartbeat, oldest first. -/
def heartbeatTimes (deserializeJson : Deserializer) : List Tick → MQTTRelay → List Nat
  | [], _ => []
  | t :: ts, d =>
    (if emitsHeartbeat deserializeJson t d then [t.env.now] else [])
      ++ heartbeatTimes deserializeJson ts (loop deserializeJson t d)

/-- The topics as the constructor sets them: prefix followed by the device id. -/
def TopicsSet (d : MQTTRelay) : Prop :=
  d.uplinkTopic = UPLINK_TOPIC_PREFIX ++ d.deviceUUID ∧
  d.downlinkTopic = DOWNLINK_TOPIC_PREFIX ++ d.deviceUUID ∧
  d.statusTopic = STATUS_TOPIC_PREFIX ++ d.deviceUUID

instance (d : MQTTRelay) : Decidable (TopicsSet d) := by
  unfold TopicsSet; infer_instance

/-- The members that reconnection and heartbeat logic read, and the identity of the device. -/
def control (d : MQTTRelay) :
    Int × Bool × Nat × Nat × String × String × String × String × Bool × Bool :=
  (d.reconnectAttempts, d.autoReconnect, d.lastReconnectAttempt, d.lastHeartbeat, d.deviceUUID,
    d.uplinkTopic, d.downlinkTopic, d.statusTopic, d.isConnected, d.mqttClient.isSome)

/-- The relay state that the state text of a `set_state` command asks for, as decided by the
two `strcmp` tests of `processCommand`. -/
def stateOfText (st : String) : Option Bool :=
  if st = "on" then some true else if st = "off" then some false else none

end MQTTRelay

/-- Commands of the protocol that the interpreter accepts: `set_state` with state "on" or
"off", and `get_state`. -/
def JsonDocument.Accepted (c : JsonDocument) : Prop :=
  (c.cstr "command" = some "set_state" ∧
      (c.cstr "state" = some "on" ∨ c.cstr "state" = some "off")) ∨
    c.cstr "command" = some "get_state"

instance (c : JsonDocument) : Decidable c.Accepted := by
  unfold JsonDocument.Accepted; infer_instance

/-- Whether a command is named `set_state`. -/
def JsonDocument.isSetState (c : JsonDocument) : Bool :=
  c.cstr "command" == some "set_state"

/-! ## Concrete inputs used to exercise the definitions -/

/-- A board with erased flash. -/
def sampleBoard : Board := { EEPROM := { flash := [], data := [], size := 0 }, gpio := [] }

/-- Some content of the configuration member before construction. -/
def sampleUninit : MQTTConfig :=
  { brokerHost := List.replicate 64 'x', brokerPort := 7, deviceUUID := List.replicate 32 'x',
    deviceName := List.replicate 64 'x', useSSL := false, initialized := false }

/-- Platform values: clock 1000 ms, flash writes succeed, the broker accepts. -/
def sampleEnv : Platform := { now := 1000, commitOk := true, accept := true, rnd := 4660 }

/-- The object after `begin()`, not yet connected. -/
def sampleBegun : MQTTRelay :=
  (MQTTRelay.begin sampleEnv
    (MQTTRelay.new 2 "WASA-AABBCCDDEEFF" "WASA_Relay_DDEEFF" sampleUninit sampleBoard)).2

/-- The object after start-up with an accepted connection. -/
def sampleConnected : MQTTRelay :=
  MQTTRelay.initializeMQTTRelay sampleEnv sampleEnv 2 "WASA-AABBCCDDEEFF" "WASA_Relay_DDEEFF"
    sampleUninit sampleBoard

/-- The inbound command `set_state` with the given state text. -/
def setStateCmd (state : String) : JsonDocument :=
  ⟨[("command", JsonValue.str "set_state"), ("state", JsonValue.str state)]⟩

/-- The inbound command `get_state`. -/
def getStateCmd : JsonDocument := ⟨[("command", JsonValue.str "get_state")]⟩

/-- A parser for exercising `handleMessage`: it knows the server's handshake text and one
command text, and reports an error on anything else. -/
def sampleParser : Deserializer := fun text =>
  if text = "\x7b\"message\":\"hello from server\"\x7d" then
    some ⟨[("message", JsonValue.str "hello from server")]⟩
  else if text = "\x7b\"command\":\"get_state\"\x7d" then some getStateCmd
  else none

/-- Platform values with a failing flash write. -/
def sampleEnvCommitFails : Platform := { now := 2000, commitOk := false, accept := true, rnd := 7 }

/-- Platform values with a refusing broker. -/
def sampleEnvRefused : Platform := { now := 1000, commitOk := true, accept := false, rnd := 4660 }

namespace MQTTRelay

/-- What the reconnection and heartbeat logic of `loop()` reads and what the statements
observe: attempt counter, auto-reconnect flag, the two time stamps, session state, presence
of the client, number of connection requests, number of heartbeats. -/
def observed (d : MQTTRelay) : Int × Bool × Nat × Nat × Bool × Bool × Nat × Nat :=
  (d.reconnectAttempts, d.autoReconnect, d.lastReconnectAttempt, d.lastHeartbeat, d.isConnected,
    d.mqttClient.isSome, d.attempts, d.heartbeats)

/-- Session state that `loop()` sees after `mqttClient->loop()` in the pass `t`. -/
def sessionUp (t : Tick) (d : MQTTRelay) : Bool := d.isConnected && t.linkUp

/-- Whether the reconnect delay has elapsed in the pass `t`:
`now - lastReconnectAttempt >= MQTT_RECONNECT_DELAY` in `unsigned long` arithmetic. -/
def delayElapsed (t : Tick) (d : MQTTRelay) : Bool :=
  decide (MQTT_RECONNECT_DELAY ≤ ulongSub (millis t.env) d.lastReconnectAttempt)

end MQTTRelay

namespace MQTTRelay

/-- Whether the pass `t` reaches the attempt-cap test of `handleReconnection`: the session
is down, auto-reconnect is on and the delay has elapsed. -/
def reconnectDue (t : Tick) (d : MQTTRelay) : Bool :=
  !sessionUp t d && d.autoReconnect && delayElapsed t d

/-- Whether the pass `t` is due for a reconnection and below the attempt cap. -/
def reconnectTried (t : Tick) (d : MQTTRelay) : Bool :=
  reconnectDue t d && decide (d.reconnectAttempts < MQTT_MAX_RECONNECT_ATTEMPTS)

/-- Session state when the pass `t` reaches the heartbeat test. -/
def sessionAtHeartbeat (t : Tick) (d : MQTTRelay) : Bool :=
  if reconnectTried t d then t.env.accept else sessionUp t d

/-- Whether the heartbeat test of the pass `t` succeeds:
`mqttClient->connected() && (now - lastHeartbeat > HEARTBEAT_INTERVAL)`. -/
def heartbeatDue (t : Tick) (d : MQTTRelay) : Bool :=
  sessionAtHeartbeat t d && decide (HEARTBEAT_INTERVAL < ulongSub (millis t.env) d.lastHeartbeat)

end MQTTRelay

/-- A pass of `loop()` at clock `now`, with the link up, no inbound message and a broker that
answers `accept`. -/
def sampleTick (now : Nat) (accept : Bool) : Tick :=
  { env := { now := now, commitOk := true, accept := accept, rnd := 1 }, linkUp := true,
    inbound := [] }

/-! ## Broker host of the connection requests (claim C11) -/

/-- Host named by a connection request. -/
def Packet.host : Packet → Option (List Char)
  | Packet.connect _ host _ _ => some host
  | _ => none

/-- Calls on the `MQTTRelay` object after construction. -/
inductive RelayCall where
  | begin (env : Platform)
  | setBrokerConfig (env : Platform) (host : String) (port : Int) (useSSL : Bool)
  | connect (env : Platform)
  | loop (t : Tick)
  deriving DecidableEq, Repr

namespace MQTTRelay

/-- Hosts of the connection requests issued so far, oldest first. -/
def connectHosts (d : MQTTRelay) : List (List Char) := d.sent.filterMap Packet.host

/-- One call on the object. -/
def call (deserializeJson : Deserializer) (c : RelayCall) (d : MQTTRelay) : MQTTRelay :=
  match c with
  | RelayCall.begin env => (begin env d).2
  | RelayCall.setBrokerConfig env host port useSSL => setBrokerConfig env host port useSSL d
  | RelayCall.connect env => (connect env d).2
  | RelayCall.loop t => loop deserializeJson t d

/-- Successive calls on the object, oldest first. -/
def calls (deserializeJson : Deserializer) (cs : List RelayCall) (d : MQTTRelay) : MQTTRelay :=
  cs.foldl (fun d c => call deserializeJson c d) d

/-- The configuration is kept and every connection request issued in between names the
configured host. -/
def HostStep (d d' : MQTTRelay) : Prop :=
  d'.config.brokerHost = d.config.brokerHost ∧
    ∃ l, d'.connectHosts = d.connectHosts ++ l ∧ ∀ h ∈ l, h = cString d.config.brokerHost

end MQTTRelay

/-- Whether a call hands a non-empty host text to `setBrokerConfig` (other calls pass). -/
def RelayCall.hostGiven : RelayCall → Bool
  | RelayCall.setBrokerConfig _ host _ _ => cString host.toList != []
  | _ => true

/-! ## The provisioning portal (`OTADash`), ESP8266 build

Members and methods that the statements below are about.  What the portal does to the
outside (radio, HTTP responses, callbacks, flash commits, restart) is recorded in order in
the member `log`.  The two `static` locals of `handleNetworkFailure` are members of the
record. -/

def OTA_DASH_EEPROM_SIZE : Nat := 50
def OTA_DASH_EEPROM_ADDR : Int := 0
def OTA_DASH_RECONNECT_DELAY : Nat := 5000
def OTA_DASH_MAX_RECONNECT_ATTEMPTS : Int := 3

inductive NetworkMode where
  | ACCESS_POINT
  | STATION
  | AUTO
  | DUAL
  deriving DecidableEq, Repr

/-- Value of `sizeof(NetworkCredentials)`: 20 + 20 + 10. -/
def SIZEOF_NetworkCredentials : Nat := 50

/-- The record `struct NetworkCredentials` as its memory image of 50 characters:
`ssid` at offset 0, `password` at offset 20, `setuped` at offset 40. -/
structure NetworkCredentials where
  image : List Char
  deriving DecidableEq, Repr

namespace NetworkCredentials

/-- The C string that starts at an offset of the record (read up to the first NUL, at most
to the end of the record). -/
def textAt (offset : Nat) (c : NetworkCredentials) : List Char := cString (c.image.drop offset)

/-- The text read from the member `ssid`. -/
def ssid (c : NetworkCredentials) : List Char := c.textAt 0

/-- The text read from the member `password`. -/
def password (c : NetworkCredentials) : List Char := c.textAt 20

/-- The text read from the member `setuped`. -/
def setuped (c : NetworkCredentials) : List Char := c.textAt 40

/-- C `strcpy(member, src)` for the member at `offset`: the text of `src` and a NUL are
written from `offset` on, without regard to the size of the member.  What would land beyond
the 50 characters of the record is not held by the model. -/
def strcpyAt (offset : Nat) (src : String) (c : NetworkCredentials) : NetworkCredentials :=
  let text := cString src.toList ++ [NUL]
  let image := fitTo SIZEOF_NetworkCredentials NUL c.image
  ⟨(image.take offset ++ text ++ image.drop (offset + text.length)).take
    SIZEOF_NetworkCredentials⟩

/-- Memory image as bytes, as `EEPROM.put` copies it. -/
def toBytes (c : NetworkCredentials) : List Nat :=
  (fitTo SIZEOF_NetworkCredentials NUL c.image).map (fun ch => ch.toNat % 256)

/-- The record held in bytes, as `EEPROM.get` copies it. -/
def ofBytes (b : List Nat) : NetworkCredentials := ⟨b.map Char.ofNat⟩

/-- A zero-initialized record (`NetworkCredentials{}`). -/
def zero : NetworkCredentials := ⟨List.replicate SIZEOF_NetworkCredentials NUL⟩

end NetworkCredentials

/-- `EEPROM.get(address, t)` with an `int` address: the bytes, or `none` when the access is
dropped. -/
def EEPROMClass.readAt (address : Int) (len : Nat) (e : EEPROMClass) : Option (List Nat) :=
  if address < 0 then none else e.read address.toNat len

/-- `EEPROM.put(address, t)` with an `int` address. -/
def EEPROMClass.writeAt (address : Int) (bytes : List Nat) (e : EEPROMClass) : EEPROMClass :=
  if address < 0 then e else e.write address.toNat bytes

/-- Radio modes given to `WiFi.mode`. -/
inductive WifiMode where
  | WIFI_AP
  | WIFI_STA
  | WIFI_AP_STA
  deriving DecidableEq, Repr

/-- What the portal does to the outside. -/
inductive PortalEvent where
  | wifiMode (m : WifiMode)
  | softAP (ssid password : String)
  | wifiBegin (ssid password : String)
  | wifiDisconnect
  | dnsStart
  | dnsProcess
  | serverBegin
  | tickerAttach
  /-- `request->send(...)`: status, content type, body, added headers -/
  | send (status : Nat) (contentType body : String) (headers : List (String × String))
  /-- call of the registered `wifiSavedCallback(ssid, password)` -/
  | wifiSaved (ssid password : String)
  /-- call of the registered `pairingCallback(jsonDoc)` -/
  | paired (doc : JsonDocument)
  /-- `EEPROM.put` followed by `EEPROM.commit()` in `writeEEPROM`, with the result -/
  | eepromWrite (ok : Bool)
  | delay (ms : Nat)
  | restart
  | textAll (msg : String)
  | scanDelete
  /-- the self-call `begin(NetworkMode::AUTO)` of the `default` branch -/
  | beginAgain
  deriving DecidableEq, Repr

/-- One network of a finished scan. -/
structure ScanEntry where
  ssid : String
  rssi : Int
  channel : Int
  encryptionType : Int
  deriving DecidableEq, Repr

/-- State of the asynchronous scan as `WiFi.scanComplete()` reports it. -/
inductive ScanState where
  | failed
  | running
  | done (networks : List ScanEntry)
  deriving DecidableEq, Repr

/-- Value of `WiFi.scanComplete()`: -2 failed, -1 running, else the number of networks. -/
def ScanState.scanComplete : ScanState → Int
  | ScanState.failed => -2
  | ScanState.running => -1
  | ScanState.done l => l.length

/-- What the platform hands to the portal during one call. -/
structure PortalEnv where
  now : Nat
  /-- result of `EEPROM.commit()` -/
  commitOk : Bool
  /-- result of `WiFi.softAP(...)` -/
  softAPOk : Bool
  /-- milliseconds after `WiFi.begin` at which the station link comes up; `none` when it
  does not come up -/
  linkAfter : Option Nat
  /-- whether `WiFi.status() == WL_CONNECTED` when `handleClient` tests it -/
  linkUp : Bool
  scan : ScanState
  deriving DecidableEq, Repr

/-- Whether `WiFi.status() == WL_CONNECTED` holds `elapsed` ms after `WiFi.begin`. -/
def PortalEnv.linkUpAfter (env : PortalEnv) (elapsed : Nat) : Bool :=
  match env.linkAfter with
  | some a => decide (a ≤ elapsed)
  | none => false

/-- Milliseconds that the calls of `delay` in a record of events take. -/
def waitedMs : List PortalEvent → Nat
  | [] => 0
  | PortalEvent.delay ms :: rest => ms + waitedMs rest
  | _ :: rest => waitedMs rest

/-- Members of the `OTADash` object used by the methods below, its statics, and the flash
store and the record of what it did. -/
structure OTADash where
  eepromAddress : Int
  maxReconnectAttempts : Int
  isWifiConnected : Bool
  serverStarted : Bool
  isOnDebugPage : Bool
  autoReconnect : Bool
  pairRequest : Bool
  pairResult : Bool
  eepromSize : Nat
  customDomain : String
  reconnectDelay : Nat
  ssid : String
  password : String
  portal_title : String
  currentMode : NetworkMode
  networkCredentials : NetworkCredentials
  /-- whether a pairing callback is registered -/
  pairingCallback : Bool
  /-- whether a save callback is registered -/
  wifiSavedCallback : Bool
  /-- `static int reconnectCount` of `handleNetworkFailure` -/
  reconnectCount : Int
  /-- `static unsigned long lastReconnectAttempt` of `handleNetworkFailure` -/
  lastReconnectAttempt : Nat
  EEPROM : EEPROMClass
  log : List PortalEvent
  deriving DecidableEq, Repr

namespace OTADash

/-- Constructor; `uninit` is the content of the member `networkCredentials`, which the
constructor leaves as it finds it. -/
def new (ssid password custom_domain portal_title : String) (uninit : NetworkCredentials)
    (eeprom : EEPROMClass) : OTADash :=
  { eepromAddress := OTA_DASH_EEPROM_ADDR
    maxReconnectAttempts := OTA_DASH_MAX_RECONNECT_ATTEMPTS
    isWifiConnected := false
    serverStarted := false
    isOnDebugPage := false
    autoReconnect := true
    pairRequest := false
    pairResult := false
    eepromSize := OTA_DASH_EEPROM_SIZE
    customDomain := custom_domain ++ ".local"
    reconnectDelay := 5000
    ssid := ssid
    password := password
    portal_title := portal_title
    currentMode := NetworkMode.AUTO
    networkCredentials := uninit
    pairingCallback := false
    wifiSavedCallback := false
    reconnectCount := 0
    lastReconnectAttempt := 0
    EEPROM := eeprom
    log := [] }

/-- Adds to the record of what the portal did. -/
def note (ev : PortalEvent) (d : OTADash) : OTADash := { d with log := d.log ++ [ev] }

def onPaired (d : OTADash) : OTADash := { d with pairingCallback := true }

def onWifiSaved (d : OTADash) : OTADash := { d with wifiSavedCallback := true }

def setEEPROMSize (size : Nat) (d : OTADash) : OTADash := { d with eepromSize := size }

def setEEPROMAddress (address : Int) (d : OTADash) : OTADash := { d with eepromAddress := address }

def setReconnectDelay (delay : Nat) (d : OTADash) : OTADash :=
  { d with reconnectDelay := delay % ULONG_RANGE }

def setReconnectAttempts (attempts : Int) (d : OTADash) : OTADash :=
  { d with maxReconnectAttempts := attempts }

def setPairResult (result : Bool) (d : OTADash) : OTADash := { d with pairResult := result }

def setPairRequest (request : Bool) (d : OTADash) : OTADash := { d with pairRequest := request }

/-- Method `readEEPROM()`. -/
def readEEPROM (d : OTADash) : Bool × OTADash :=
  let e := d.EEPROM.begin d.eepromSize
  let creds :=
    match e.readAt d.eepromAddress SIZEOF_NetworkCredentials with
    | some bytes => NetworkCredentials.ofBytes bytes
    | none => d.networkCredentials
  let d := { d with networkCredentials := creds, EEPROM := e.close }
  if d.networkCredentials.setuped ≠ "true".toList then (false, d) else (true, d)

/-- Method `writeEEPROM()`. -/
def writeEEPROM (env : PortalEnv) (d : OTADash) : Bool × OTADash :=
  let e := d.EEPROM.begin d.eepromSize
  let e := e.writeAt d.eepromAddress d.networkCredentials.toBytes
  let (success, e) := e.commit env.commitOk
  let e := e.close
  (success, note (PortalEvent.eepromWrite success) { d with EEPROM := e })

/-- Method `disconnectWifi()`. -/
def disconnectWifi (d : OTADash) : OTADash :=
  if d.currentMode = NetworkMode.STATION ∨ d.currentMode = NetworkMode.DUAL then
    note PortalEvent.wifiDisconnect d
  else d

/-- The `while` loop of `connectToWifi`: the link state is tested, then the timeout, then
`delay(500)` is called.  `elapsed` is the value of `millis() - startTime` at the test; a
call of `delay(500)` lets 500 ms pass and the other statements take no time.  `fuel` bounds
the number of rounds. -/
def connectWait (env : PortalEnv) (timeout_ms : Nat) : Nat → Nat → OTADash → Bool × OTADash
  | 0, _, d => (false, d)
  | fuel + 1, elapsed, d =>
    if env.linkUpAfter elapsed then (true, d)
    else if elapsed ≥ timeout_ms then (false, d)
    else connectWait env timeout_ms fuel (elapsed + 500) (note (PortalEvent.delay 500) d)

/-- Method `connectToWifi(ssid, password, timeout_ms)`.  The loop ends within
`timeout_ms / 500 + 1` rounds, so the bound given to `connectWait` is not reached. -/
def connectToWifi (env : PortalEnv) (ssid password : String) (timeout_ms : Nat) (d : OTADash) :
    Bool × OTADash :=
  if d.currentMode = NetworkMode.ACCESS_POINT then (false, d)
  else
    connectWait env timeout_ms (timeout_ms / 500 + 2) 0
      (note (PortalEvent.wifiBegin ssid password) d)

/-- Method `startStation()`. -/
def startStation (env : PortalEnv) (d : OTADash) : Bool × OTADash :=
  let d := note (PortalEvent.wifiMode WifiMode.WIFI_STA) d
  connectToWifi env (String.mk d.networkCredentials.ssid) (String.mk d.networkCredentials.password)
    20000 d

/-- Method `startDualMode()`. -/
def startDualMode (env : PortalEnv) (d : OTADash) : Bool × OTADash :=
  let d := note (PortalEvent.wifiMode WifiMode.WIFI_AP_STA) d
  let result := env.softAPOk
  let d := note (PortalEvent.softAP (d.ssid ++ "_AP") d.password) d
  let r := connectToWifi env d.ssid d.password 20000 d
  if !r.1 then (false, r.2) else (true && result, r.2)

/-- Method `startAccessPoint()`. -/
def startAccessPoint (env : PortalEnv) (d : OTADash) : Bool × OTADash :=
  let d := note (PortalEvent.wifiMode WifiMode.WIFI_AP) d
  (env.softAPOk, note (PortalEvent.softAP d.ssid d.password) d)

/-- Method `reconnectWifi()`. -/
def reconnectWifi (env : PortalEnv) (d : OTADash) : OTADash :=
  (connectToWifi env d.ssid d.password 5000 (disconnectWifi d)).2

/-- The part of `begin` after the `switch`: DNS responder, handlers, server start, ticker. -/
def beginServe (d : OTADash) : OTADash :=
  let d :=
    if d.currentMode = NetworkMode.ACCESS_POINT ∨ d.currentMode = NetworkMode.DUAL then
      note PortalEvent.dnsStart d
    else d
  let d := note PortalEvent.serverBegin d
  let d := { d with serverStarted := true }
  note PortalEvent.tickerAttach d

/-- The part of `begin` before the `switch`: `currentMode` is set to the requested mode and
then adjusted after a look at the stored credentials. -/
def beginMode (mode : NetworkMode) (d : OTADash) : OTADash :=
  let d := { d with currentMode := mode }
  if mode = NetworkMode.STATION ∨ mode = NetworkMode.AUTO ∨ mode = NetworkMode.DUAL then
    let r := readEEPROM d
    if !r.1 then { r.2 with currentMode := NetworkMode.ACCESS_POINT }
    else if mode = NetworkMode.AUTO then { r.2 with currentMode := NetworkMode.STATION }
    else r.2
  else d

/-- Method `begin(mode)`.  The `default` branch of the `switch` calls `begin` again; `fuel`
bounds the depth of these self-calls, and `none` means the bound was reached. -/
def begin : Nat → NetworkMode → PortalEnv → OTADash → Option OTADash
  | 0, _, _, _ => none
  | fuel + 1, mode, env, d =>
    let d := beginMode mode d
    match d.currentMode with
    | NetworkMode.ACCESS_POINT =>
      let r := startAccessPoint env d
      if !r.1 then some r.2 else some (beginServe r.2)
    | NetworkMode.STATION =>
      let r := startStation env d
      if !r.1 then some r.2 else some (beginServe r.2)
    | NetworkMode.DUAL =>
      let r := startDualMode env d
      if !r.1 then some r.2 else some (beginServe r.2)
    | NetworkMode.AUTO =>
      begin fuel NetworkMode.AUTO env
        (note PortalEvent.beginAgain { d with currentMode := NetworkMode.AUTO })

end OTADash

/-- Arduino `String::replace(find, replace)` for a `find` text of one character. -/
def replaceChar (find : Char) (replace : String) (s : String) : String :=
  String.mk (s.toList.flatMap (fun c => if c = find then replace.toList else [c]))

/-- State of the `Update` object as far as the portal reads it. -/
structure UpdateClass where
  /-- whether an update is in progress -/
  running : Bool
  /-- result of `hasError()` -/
  error : Bool
  /-- bytes written to the image so far -/
  written : List Nat
  deriving DecidableEq, Repr

/-- Method `Update.hasError()`. -/
def UpdateClass.hasError (u : UpdateClass) : Bool := u.error

namespace OTADash

/-- Method `encryptionTypeToString(encryptionType)`, with the ESP8266 values of the
`ENC_TYPE_*` constants. -/
def encryptionTypeToString (encryptionType : Int) : String :=
  if encryptionType = 5 then "WEP"
  else if encryptionType = 2 then "WPA"
  else if encryptionType = 4 then "WPA2"
  else if encryptionType = 7 then "Open"
  else if encryptionType = 8 then "Auto"
  else "Unknown"

/-- The text that the loop of `handleWifiScanResult` adds for the network with index `i`. -/
def scanEntryText (i : Nat) (e : ScanEntry) : String :=
  let ssidEscaped := replaceChar '\\' "\\\\" (replaceChar '"' "\\\"" e.ssid)
  (if i > 0 then "," else "")
    ++ ("\x7b\"ssid\":\"" ++ ssidEscaped ++ "\",")
    ++ ("\"rssi\":" ++ toString e.rssi ++ ",")
    ++ ("\"channel\":" ++ toString e.channel ++ ",")
    ++ ("\"encryption\":\"" ++ encryptionTypeToString e.encryptionType ++ "\"\x7d")

/-- The entry that `WiFi.SSID(i)`, `WiFi.RSSI(i)`, ... describe. -/
def scanEntryAt (env : PortalEnv) (i : Nat) : ScanEntry :=
  match env.scan with
  | ScanState.done l => l.getD i ⟨"", 0, 0, 0⟩
  | _ => ⟨"", 0, 0, 0⟩

/-- Method `handleWifiScanResult(scanResult)`. -/
def handleWifiScanResult (env : PortalEnv) (scanResult : Int) (d : OTADash) : OTADash :=
  if scanResult = -2 then
    note PortalEvent.scanDelete (note (PortalEvent.textAll "[]") d)
  else if scanResult = -1 then
    note PortalEvent.scanDelete d
  else if scanResult ≤ 0 then
    note (PortalEvent.textAll "[]") d
  else
    let body := (List.range scanResult.toNat).foldl
      (fun (networks : String) i => networks ++ scanEntryText i (scanEntryAt env i)) "["
    let networks := body ++ "]"
    let d := note (PortalEvent.textAll networks) d
    let d := note PortalEvent.scanDelete d
    note PortalEvent.scanDelete d

/-- Method `handlePairingResult()`. -/
def handlePairingResult (d : OTADash) : OTADash :=
  let response :=
    if d.pairResult then "\x7b\"status\":\"success\",\"message\":\"Pairing successful\"\x7d"
    else "\x7b\"status\":\"error\",\"message\":\"Pairing failed\"\x7d"
  note (PortalEvent.textAll response) { d with pairRequest := false, pairResult := false }

/-- Value of `millis()` in a call that began at clock `env.now` on the object `before`,
read on the object `after`: the clock of the call plus the delays made since. -/
def millisAfter (env : PortalEnv) (before after : OTADash) : Nat :=
  (env.now + waitedMs (after.log.drop before.log.length)) % ULONG_RANGE

/-- Method `handleNetworkFailure()`.  The first `millis()` is read when the call begins, the
second one after `reconnectWifi()` has returned. -/
def handleNetworkFailure (env : PortalEnv) (d : OTADash) : OTADash :=
  if ulongSub (env.now % ULONG_RANGE) d.lastReconnectAttempt ≥ d.reconnectDelay then
    if d.reconnectCount < d.maxReconnectAttempts then
      let d1 := reconnectWifi env d
      let d1 := { d1 with reconnectCount := d1.reconnectCount + 1 }
      { d1 with lastReconnectAttempt := millisAfter env d d1 }
    else
      { d with reconnectCount := 0 }
  else d

/-- Method `handleClient()`. -/
def handleClient (env : PortalEnv) (d : OTADash) : OTADash :=
  let d :=
    if d.currentMode = NetworkMode.ACCESS_POINT ∨ d.currentMode = NetworkMode.DUAL then
      note PortalEvent.dnsProcess d
    else d
  let d :=
    if (d.currentMode = NetworkMode.STATION ∨ d.currentMode = NetworkMode.DUAL)
        ∧ env.linkUp = false ∧ d.autoReconnect = true then
      handleNetworkFailure env d
    else d
  let scanResult := env.scan.scanComplete
  let d := if scanResult ≥ 0 then handleWifiScanResult env scanResult d else d
  if d.pairRequest then handlePairingResult d else d

/-- Method `handleClientTick()`, run by the ticker every 100 ms. -/
def handleClientTick (env : PortalEnv) (d : OTADash) : OTADash :=
  if d.serverStarted then handleClient env d else d

/-- Successive runs of the ticker, oldest first. -/
def ticks (envs : List PortalEnv) (d : OTADash) : OTADash :=
  envs.foldl (fun d env => handleClientTick env d) d

/-- The handler of `POST /save-wifi`; the arguments are the values of the parameters `ssid`
and `password`, `none` when the request does not have the parameter. -/
def saveWifi (env : PortalEnv) (ssidParam passwordParam : Option String) (d : OTADash) : OTADash :=
  match ssidParam, passwordParam with
  | some ssid, some password =>
    if ssid.isEmpty then
      note (PortalEvent.send 400 "text/plain" "SSID cannot be empty" []) d
    else if password.length < 8 then
      note (PortalEvent.send 400 "text/plain" "Password must be at least 8 characters" []) d
    else if d.wifiSavedCallback then
      let d := note (PortalEvent.wifiSaved ssid password) d
      note (PortalEvent.send 200 "text/plain" "WiFi credentials saved" []) d
    else
      let d := { d with networkCredentials := d.networkCredentials.strcpyAt 0 ssid }
      let d := { d with networkCredentials := d.networkCredentials.strcpyAt 20 password }
      let d := { d with networkCredentials := d.networkCredentials.strcpyAt 40 "true" }
      let d := (writeEEPROM env d).2
      let d := note (PortalEvent.send 200 "text/plain" "Missing Saving Callback" []) d
      note PortalEvent.restart d
  | _, _ => note (PortalEvent.send 400 "text/plain" "Missing SSID or password" []) d

/-- The handler of `POST /erase`. -/
def erase (env : PortalEnv) (d : OTADash) : OTADash :=
  let d := { d with networkCredentials := d.networkCredentials.strcpyAt 0 "" }
  let d := { d with networkCredentials := d.networkCredentials.strcpyAt 20 "" }
  let d := { d with networkCredentials := d.networkCredentials.strcpyAt 40 "false" }
  let d := (writeEEPROM env d).2
  note (PortalEvent.send 200 "text/html" "Settings erased." []) d

/-- Header added to every response of the pairing handler. -/
def corsHeader : List (String × String) := [("Access-Control-Allow-Origin", "*")]

/-- The body handler of `POST /pair` for a body received in one piece; `body` holds the
`len` characters of `data`. -/
def pair (deserializeJson : Deserializer) (body : List Char) (d : OTADash) : OTADash :=
  if body.length = 0 then
    note (PortalEvent.send 400 "application/json"
      "\x7b\"status\":\"error\",\"message\":\"Empty request body\"\x7d" corsHeader) d
  else
    match deserializeJson (String.mk body) with
    | none =>
      note (PortalEvent.send 400 "application/json"
        "\x7b\"status\":\"error\",\"message\":\"Invalid JSON format\"\x7d" corsHeader) d
    | some jsonDoc =>
      match jsonDoc.get "user_ids", jsonDoc.get "wifi_ssid", jsonDoc.get "wifi_password",
          jsonDoc.get "master_pin" with
      | some (JsonValue.arr user_ids), some (JsonValue.str wifi_ssid),
          some (JsonValue.str wifi_password), some (JsonValue.str master_pin) =>
        if user_ids.length < 1 ∨ wifi_ssid.isEmpty ∨ wifi_password.length < 8
            ∨ master_pin.length < 4 then
          note (PortalEvent.send 400 "application/json"
            "\x7b\"status\":\"error\",\"message\":\"Validation failed for one or more fields\"\x7d"
            corsHeader) d
        else if d.pairingCallback then
          let d := note (PortalEvent.paired jsonDoc) d
          note (PortalEvent.send 202 "application/json"
            "\x7b\"status\":\"success\",\"message\":\"Request Accepted: Listen On Websocket\"\x7d"
            corsHeader) d
        else
          note (PortalEvent.send 500 "application/json"
            "\x7b\"status\":\"error\",\"message\":\"Missing Pairing Functionality\"\x7d"
            corsHeader) d
      | _, _, _, _ =>
        note (PortalEvent.send 400 "application/json"
          "\x7b\"status\":\"error\",\"message\":\"Missing or invalid keys\"\x7d" corsHeader) d

/-- Method `handleUpdate(request)` (ESP8266 branch): the answer, then `delay(2000)` and the
restart. -/
def handleUpdate (update : UpdateClass) (d : OTADash) : OTADash :=
  let hasError := update.hasError
  let statusCode := if hasError then 500 else 200
  let d := note (PortalEvent.send statusCode "text/plain" (if hasError then "FAIL" else "OK")
    [("Connection", "close")]) d
  let d := note (PortalEvent.delay 2000) d
  note PortalEvent.restart d

end OTADash

/-- Clock values of the events of a record that starts at clock `t`: an event is stamped with
the clock at which it happens, and `delay(ms)` lets at least `ms` pass, `slack` more at each
delay. -/
def timeline (slack : Nat) : Nat → List PortalEvent → List (Nat × PortalEvent)
  | _, [] => []
  | t, PortalEvent.delay ms :: rest =>
    (t, PortalEvent.delay ms) :: timeline slack (t + ms + slack) rest
  | t, ev :: rest => (t, ev) :: timeline slack t rest

/-! ## `main.cpp` -/

/-- Function `generateDeviceUUID()`; `mac` is the text of `WiFi.macAddress()` and `rnd` the
platform's random number. -/
def generateDeviceUUID (mac : String) (rnd : Nat) : String :=
  if mac.length = 0 ∨ mac = "00:00:00:00:00:00" then
    "ESP-UNKNOWN-" ++ MQTTRelay.hexString (4096 + rnd % (65535 - 4096))
  else
    "WASA-" ++ String.mk ((mac.toList.filter (fun c => c != ':')).map Char.toUpper)

/-- Function `generateDeviceName(uuid)`: `uuid.substring(uuid.length() - 6)` with the
unsigned difference, which is past the end for a text shorter than 6. -/
def generateDeviceName (uuid : String) : String :=
  "WASA_Relay_" ++ (if uuid.length < 6 then "" else String.mk (uuid.toList.drop (uuid.length - 6)))

/-- What `setup()` does to the outside, in order. -/
inductive BootEvent where
  /-- call of `checkButtonPress()` -/
  | buttonChecked
  | wifiBegin (ssid password : String)
  deriving DecidableEq, Repr

/-- What the platform hands to `setup()`. -/
structure BootEnv where
  /-- what `checkButtonPress()` returns when it is called -/
  hold : Bool
  /-- whether `WiFi.status() == WL_CONNECTED` after `connectToWiFi()` -/
  wifiUp : Bool
  /-- text of `WiFi.macAddress()` -/
  mac : String
  /-- value of the board's `LED_BUILTIN` -/
  ledBuiltin : Nat
  rnd : Nat
  portal : PortalEnv
  relayBegin : Platform
  relayConnect : Platform
  /-- content of the relay's configuration member before construction -/
  uninitConfig : MQTTConfig
  /-- content of the portal's credentials member before construction -/
  uninitCredentials : NetworkCredentials
  deriving DecidableEq, Repr

/-- The globals of `main.cpp`, the board while neither object holds it, and the record of
what `setup()` did. -/
structure Firmware where
  otaDash : Option OTADash
  mqttRelay : Option MQTTRelay
  otaModeActive : Bool
  board : Board
  trace : List BootEvent
  deriving DecidableEq, Repr

namespace Firmware

/-- The globals before `setup()`. -/
def start (board : Board) : Firmware :=
  { otaDash := none, mqttRelay := none, otaModeActive := false, board := board, trace := [] }

/-- Call `pinMode(LED_BUILTIN, ...)`. -/
def pinMode (call : GpioCall) (f : Firmware) : Firmware :=
  { f with board := { f.board with gpio := f.board.gpio ++ [call] } }

/-- Function `readCredentials()`; the record is read into a local.  The access lies inside
the region that is opened, so the record is always read. -/
def readCredentials (f : Firmware) : Bool × Firmware :=
  let e := f.board.EEPROM.begin OTA_DASH_EEPROM_SIZE
  let creds : Option NetworkCredentials :=
    (e.readAt OTA_DASH_EEPROM_ADDR SIZEOF_NetworkCredentials).map NetworkCredentials.ofBytes
  let f := { f with board := { f.board with EEPROM := e.close } }
  match creds with
  | some c => (decide (c.setuped = "true".toList), f)
  | none => (false, f)

/-- Function `initializeOTAMode()`; `none` when `begin` runs out of `fuel`. -/
def initializeOTAMode (fuel : Nat) (env : BootEnv) (f : Firmware) : Option Firmware :=
  let dash := OTADash.new "Wasa_Controller" "" "wasa_controller" "Wasa_Controller Portal"
    env.uninitCredentials f.board.EEPROM
  match OTADash.begin fuel NetworkMode.ACCESS_POINT env.portal dash with
  | some dash => some { f with otaDash := some dash, otaModeActive := true }
  | none => none

/-- Function `initializeMQTTRelay()`. -/
def initializeMQTTRelay (env : BootEnv) (f : Firmware) : Firmware :=
  let deviceUUID := generateDeviceUUID env.mac env.rnd
  let deviceName := generateDeviceName deviceUUID
  { f with mqttRelay := some (MQTTRelay.initializeMQTTRelay env.relayBegin env.relayConnect
      env.ledBuiltin deviceUUID deviceName env.uninitConfig f.board) }

/-- Function `connectToWiFi()`, as `setup()` calls it (no portal object exists then). -/
def connectToWiFi (f : Firmware) : Firmware :=
  match f.otaDash with
  | some dash =>
    let creds := dash.networkCredentials
    if creds.ssid.length = 0 then f
    else { f with trace := f.trace ++
      [BootEvent.wifiBegin (String.mk creds.ssid) (String.mk creds.password)] }
  | none =>
    let e := f.board.EEPROM.begin OTA_DASH_EEPROM_SIZE
    let creds :=
      match e.readAt OTA_DASH_EEPROM_ADDR SIZEOF_NetworkCredentials with
      | some bytes => NetworkCredentials.ofBytes bytes
      | none => NetworkCredentials.zero
    let f := { f with board := { f.board with EEPROM := e.close } }
    if creds.ssid.length = 0 then f
    else { f with trace := f.trace ++
      [BootEvent.wifiBegin (String.mk creds.ssid) (String.mk creds.password)] }

/-- Function `setup()`; `none` when the portal's `begin` runs out of `fuel`. -/
def setup (fuel : Nat) (env : BootEnv) (board : Board) : Option Firmware :=
  let f := start board
  let f := pinMode (GpioCall.pinModeInputPullup env.ledBuiltin) f
  let r := readCredentials f
  let hasCredentials := r.1
  let f := r.2
  let f := if hasCredentials then { f with trace := f.trace ++ [BootEvent.buttonChecked] } else f
  let buttonPressed := if hasCredentials then env.hold else false
  if !hasCredentials || buttonPressed then
    initializeOTAMode fuel env f
  else
    let f := pinMode (GpioCall.pinModeOutput env.ledBuiltin) f
    let f := connectToWiFi f
    if env.wifiUp then some (initializeMQTTRelay env f) else some f

/-- Function `loop()` of `main.cpp`: one scheduler pass. -/
def loop (deserializeJson : Deserializer) (t : Tick) (f : Firmware) : Firmware :=
  if !f.otaModeActive then
    match f.mqttRelay with
    | some relay => { f with mqttRelay := some (relay.loop deserializeJson t) }
    | none => f
  else f

/-- Successive scheduler passes, oldest first. -/
def run (deserializeJson : Deserializer) (ts : List Tick) (f : Firmware) : Firmware :=
  ts.foldl (fun f t => loop deserializeJson t f) f

end Firmware

/-! ## Observers and concrete inputs for the portal and the start-up -/

/-- The credentials record that the flash holds at the portal's default place. -/
def storedCredentials (e : EEPROMClass) : NetworkCredentials :=
  NetworkCredentials.ofBytes
    ((List.range SIZEOF_NetworkCredentials).map (fun i => e.flash.getD i 255))

/-- Whether an event is a call of `WiFi.begin`. -/
def PortalEvent.isWifiBegin : PortalEvent → Bool
  | PortalEvent.wifiBegin _ _ => true
  | _ => false

/-- Whether an event is a commit of the credentials record. -/
def PortalEvent.isEepromWrite : PortalEvent → Bool
  | PortalEvent.eepromWrite _ => true
  | _ => false

/-- Number of station-link connect attempts made so far. -/
def OTADash.wifiBegins (d : OTADash) : Nat := d.log.countP PortalEvent.isWifiBegin

/-- The mode that `begin(mode)` dispatches on, given whether the stored credentials are
valid, in the words of the design: Auto becomes Station or AccessPoint, Station and Dual
fall back to AccessPoint without valid credentials. -/
def resolvedMode (mode : NetworkMode) (valid : Bool) : NetworkMode :=
  match mode with
  | NetworkMode.ACCESS_POINT => NetworkMode.ACCESS_POINT
  | NetworkMode.STATION => if valid then NetworkMode.STATION else NetworkMode.ACCESS_POINT
  | NetworkMode.AUTO => if valid then NetworkMode.STATION else NetworkMode.ACCESS_POINT
  | NetworkMode.DUAL => if valid then NetworkMode.DUAL else NetworkMode.ACCESS_POINT

/-- A credentials record as the portal stores it for network "HomeNet". -/
def sampleRecord : NetworkCredentials :=
  ((NetworkCredentials.zero.strcpyAt 0 "HomeNet").strcpyAt 20 "secret123").strcpyAt 40 "true"

/-- A flash store that holds `sampleRecord`. -/
def sampleStore : EEPROMClass := { flash := sampleRecord.toBytes, data := [], size := 0 }

/-- A flash store that was never written. -/
def erasedStore : EEPROMClass := { flash := [], data := [], size := 0 }

/-- Platform values for the portal: flash writes succeed, the access point starts, the
station link comes up, no scan was started. -/
def samplePortalEnv : PortalEnv :=
  { now := 0, commitOk := true, softAPOk := true, linkAfter := some 0, linkUp := true,
    scan := ScanState.failed }

/-- Platform values of a ticker run at clock `now` with the station link down. -/
def linkDownAt (now : Nat) : PortalEnv :=
  { now := now, commitOk := true, softAPOk := true, linkAfter := none, linkUp := false,
    scan := ScanState.failed }

/-- The portal object of `initializeOTAMode`, constructed over a store. -/
def samplePortal (e : EEPROMClass) : OTADash :=
  OTADash.new "Wasa_Controller" "" "wasa_controller" "Wasa_Controller Portal"
    NetworkCredentials.zero e

/-- The portal started in station mode over the store that holds `sampleRecord`. -/
def sampleStation : OTADash :=
  (OTADash.begin 1 NetworkMode.STATION samplePortalEnv (samplePortal sampleStore)).getD
    (samplePortal sampleStore)

/-- Platform values for `setup()`. -/
def sampleBootEnv (hold wifiUp : Bool) : BootEnv :=
  { hold := hold, wifiUp := wifiUp, mac := "AA:BB:CC:DD:EE:FF", ledBuiltin := 1, rnd := 4660,
    portal := samplePortalEnv, relayBegin := sampleEnv, relayConnect := sampleEnv,
    uninitConfig := sampleUninit, uninitCredentials := NetworkCredentials.zero }

/-- The text of an error answer of the pairing handler: a JSON object with `status` "error"
and the given `message`. -/
def errorBody (message : String) : String :=
  "\x7b\"status\":\"error\",\"message\":\"" ++ message ++ "\"\x7d"

/-- Whether the member `key` of a document is an array of at least `n` elements. -/
def JsonDocument.arrayOfAtLeast (doc : JsonDocument) (key : String) (n : Nat) : Bool :=
  match doc.get key with
  | some (JsonValue.arr items) => decide (n ≤ items.length)
  | _ => false

/-- Whether the member `key` of a document is a string of at least `n` characters. -/
def JsonDocument.stringOfAtLeast (doc : JsonDocument) (key : String) (n : Nat) : Bool :=
  match doc.get key with
  | some (JsonValue.str s) => decide (n ≤ s.length)
  | _ => false

/-- Whether the member `key` of a document is a string other than "". -/
def JsonDocument.nonEmptyString (doc : JsonDocument) (key : String) : Bool :=
  match doc.get key with
  | some (JsonValue.str s) => decide (s ≠ "")
  | _ => false

/-- A pairing body that the design accepts, in its words: non-empty, valid JSON, `user_ids`
an array of at least one element, `wifi_ssid` a non-empty string, `wifi_password` a string
of at least 8 characters, `master_pin` a string of at least 4 characters. -/
def acceptablePairing (deserializeJson : Deserializer) (body : List Char) : Bool :=
  decide (body ≠ []) &&
    match deserializeJson (String.mk body) with
    | none => false
    | some doc =>
      doc.arrayOfAtLeast "user_ids" 1 && doc.nonEmptyString "wifi_ssid" &&
        doc.stringOfAtLeast "wifi_password" 8 && doc.stringOfAtLeast "master_pin" 4

/-- What the pairing handler added to the record of the portal's effects. -/
def OTADash.pairEffects (deserializeJson : Deserializer) (body : List Char) (d : OTADash) :
    List PortalEvent :=
  (OTADash.pair deserializeJson body d).log.drop d.log.length

/-- Status of an answer; `none` for the other events. -/
def PortalEvent.status? : PortalEvent → Option Nat
  | PortalEvent.send status _ _ _ => some status
  | _ => none

/-- Whether an event is a call of the pairing callback. -/
def PortalEvent.isPaired : PortalEvent → Bool
  | PortalEvent.paired _ => true
  | _ => false

/-- A pairing request body. -/
def samplePairingText : String :=
  "\x7b\"user_ids\":[\"u1\"],\"wifi_ssid\":\"HomeNet\",\"wifi_password\":\"secret123\",\"master_pin\":\"1234\"\x7d"

/-- The document that `samplePairingText` denotes. -/
def samplePairingDoc : JsonDocument :=
  ⟨[("user_ids", JsonValue.arr [some "u1"]), ("wifi_ssid", JsonValue.str "HomeNet"),
    ("wifi_password", JsonValue.str "secret123"), ("master_pin", JsonValue.str "1234")]⟩

/-- A parser that knows `samplePairingText` and reports an error for every other text. -/
def samplePairingParser : Deserializer := fun text =>
  if text = samplePairingText then some samplePairingDoc else none

/-- The clock value that the first event satisfying `p` carries in a stamped record. -/
def firstTime (p : PortalEvent → Bool) (l : List (Nat × PortalEvent)) : Option Nat :=
  (l.find? (fun e => p e.2)).map (fun e => e.1)

/-- Whether an event is an answer. -/
def PortalEvent.isSend : PortalEvent → Bool
  | PortalEvent.send _ _ _ _ => true
  | _ => false

/-- Whether an event is a restart. -/
def PortalEvent.isRestart : PortalEvent → Bool
  | PortalEvent.restart => true
  | _ => false

/-! ## Device identity and the hold of the button (`main.cpp`) -/

/-- Whether a character is a hexadecimal digit. -/
def isHexDigit (c : Char) : Bool :=
  ('0' ≤ c && c ≤ '9') || ('a' ≤ c && c ≤ 'f') || ('A' ≤ c && c ≤ 'F')

/-- The text of a hardware address: its byte pairs, joined by colons. -/
def macText (pairs : List (Char × Char)) : String :=
  String.mk (List.intercalate [':'] (pairs.map (fun p => [p.1, p.2])))

/-- The digits of byte pairs, letters in upper case, without a separator. -/
def upperDigits (pairs : List (Char × Char)) : List Char :=
  pairs.flatMap (fun p => [p.1.toUpper, p.2.toUpper])

/-- One pass of the loop of `checkButtonPress()`: the value of `millis()` during the pass
and the level that `digitalRead(LED_BUILTIN)` returns in it. -/
structure ButtonSample where
  clock : Nat
  level : PinLevel
  deriving DecidableEq, Repr

/-- The `while` loop of `checkButtonPress()` over the passes that the platform provides;
`checkStart` and `buttonPressStart` are the two `uint32_t` locals.  `none` when the passes
given end before the loop does. -/
def checkButtonLoop (checkStart : Nat) : Nat → List ButtonSample → Option Bool
  | _, [] => none
  | buttonPressStart, s :: rest =>
    if ulongSub (s.clock % ULONG_RANGE) checkStart < 10000 then
      if s.level = PinLevel.LOW then
        if buttonPressStart = 0 then
          checkButtonLoop checkStart (s.clock % ULONG_RANGE) rest
        else if ulongSub (s.clock % ULONG_RANGE) buttonPressStart ≥ 3000 then
          some true
        else
          checkButtonLoop checkStart buttonPressStart rest
      else
        checkButtonLoop checkStart 0 rest
    else
      some false

/-- Function `checkButtonPress()`; `start` is the value of `millis()` at the call. -/
def checkButtonPress (start : Nat) (samples : List ButtonSample) : Option Bool :=
  checkButtonLoop (start % ULONG_RANGE) 0 samples

/-- A hold in the words of the design: some pass taken less than 10000 ms after the start
reads LOW and ends a run of consecutive LOW passes whose first pass is at least 3000 ms
earlier. -/
def HeldRun (start : Nat) (samples : List ButtonSample) : Prop :=
  ∃ pre a mid b post, samples = pre ++ a :: mid ++ b :: post ∧
    a.level = PinLevel.LOW ∧ (∀ s ∈ mid, s.level = PinLevel.LOW) ∧ b.level = PinLevel.LOW ∧
    b.clock < start + 10000 ∧ a.clock + 3000 ≤ b.clock

/-- The passes continue a run of LOW passes that began at clock `since`: they start with
consecutive LOW passes, the last of which is taken less than 10000 ms after the start and at
least 3000 ms after `since`. -/
def HeldFrom (start since : Nat) (samples : List ButtonSample) : Prop :=
  ∃ mid b post, samples = mid ++ b :: post ∧
    (∀ s ∈ mid, s.level = PinLevel.LOW) ∧ b.level = PinLevel.LOW ∧
    b.clock < start + 10000 ∧ since + 3000 ≤ b.clock

/-- Clock values as the claim takes them: non-zero `uint32_t` values that do not decrease,
none before the start. -/
def ClockOrdered (start : Nat) (samples : List ButtonSample) : Prop :=
  start < ULONG_RANGE ∧ (∀ s ∈ samples, 0 < s.clock ∧ s.clock < ULONG_RANGE ∧ start ≤ s.clock) ∧
    samples.Pairwise (fun a b => a.clock ≤ b.clock)

/-! ## The upload handler of the portal -/

/-- Calls that `handleUpload` makes on the `Update` object. -/
inductive UpdateCall where
  | begin (size : Nat)
  | write (data : List Nat)
  /-- the call `Update.end(evenIfRemaining)` -/
  | finish (evenIfRemaining : Bool)
  deriving DecidableEq, Repr

/-- Behaviour of the platform's `Update` object, as far as `handleUpload` uses it: what the
calls `begin(size)`, `write(data, len)` and `end(evenIfRemaining)` return and do to its
state. -/
structure Updater where
  begin : Nat → UpdateClass → Bool × UpdateClass
  write : List Nat → UpdateClass → Nat × UpdateClass
  finish : Bool → UpdateClass → Bool × UpdateClass

/-- The value `(ESP.getFreeSketchSpace() - 0x1000) & 0xFFFFF000` in `uint32_t`. -/
def maxSketchSpace (freeSketchSpace : Nat) : Nat :=
  ((freeSketchSpace % ULONG_RANGE + ULONG_RANGE - 4096) % ULONG_RANGE) / 4096 * 4096

/-- One chunk as the web server hands it to `handleUpload`. -/
structure Chunk where
  index : Nat
  data : List Nat
  final : Bool
  deriving DecidableEq, Repr

namespace OTADash

/-- Method `handleUpload(request, filename, index, data, len, final)`, ESP8266 branch.  The
state is that of the `Update` object, together with the calls made on it so far. -/
def handleUpload (lib : Updater) (freeSketchSpace : Nat) (c : Chunk)
    (s : UpdateClass × List UpdateCall) : UpdateClass × List UpdateCall :=
  let s :=
    if c.index = 0 then
      ((lib.begin (maxSketchSpace freeSketchSpace) s.1).2,
        s.2 ++ [UpdateCall.begin (maxSketchSpace freeSketchSpace)])
    else s
  let s :=
    if !s.1.hasError then ((lib.write c.data s.1).2, s.2 ++ [UpdateCall.write c.data])
    else s
  if c.final then ((lib.finish true s.1).2, s.2 ++ [UpdateCall.finish true])
  else s

/-- The chunks of an upload, handled in the order of arrival. -/
def handleUploads (lib : Updater) (freeSketchSpace : Nat) (cs : List Chunk)
    (s : UpdateClass × List UpdateCall) : UpdateClass × List UpdateCall :=
  cs.foldl (fun s c => handleUpload lib freeSketchSpace c s) s

end OTADash

/-- Whether a call writes to the image. -/
def UpdateCall.isWrite : UpdateCall → Bool
  | UpdateCall.write _ => true
  | _ => false

/-- A sample behaviour of the `Update` object: `begin` starts an image, or raises the error
flag when the platform refuses; `write` appends, or raises the error flag when the flash
write fails; `end` reports failure for a stream with an error and `ok.2.2` otherwise. -/
def sampleUpdater (ok : Bool × Bool × Bool) : Updater :=
  { begin := fun _ u =>
      if ok.1 then (true, { running := true, error := false, written := [] })
      else (false, { u with error := true })
    write := fun data u =>
      if ok.2.1 then (data.length, { u with written := u.written ++ data })
      else (0, { u with error := true })
    finish := fun _ u =>
      if u.error then (false, { u with running := false })
      else (ok.2.2, { u with running := false, error := !ok.2.2 }) }

/-! ## Calls on the relay object (claim C28) -/

/-- The operations of `MQTTRelay` that can be invoked on a constructed object: the public
methods and the message callback. -/
inductive RelayOp where
  | begin (env : Platform)
  | loop (t : Tick)
  | connect (env : Platform)
  | disconnect (env : Platform)
  | setBrokerConfig (env : Platform) (host : String) (port : Int) (useSSL : Bool)
  | setRelayState (env : Platform) (state saveToEEPROM : Bool)
  | sendHeartbeat (env : Platform)
  | sendStatus (env : Platform) (status : String) (retained : Bool)
  | handleMessage (env : Platform) (topic : String) (payload : List Char)
  deriving DecidableEq, Repr

namespace MQTTRelay

/-- One operation on the object. -/
def apply (deserializeJson : Deserializer) (op : RelayOp) (d : MQTTRelay) : MQTTRelay :=
  match op with
  | RelayOp.begin env => (begin env d).2
  | RelayOp.loop t => loop deserializeJson t d
  | RelayOp.connect env => (connect env d).2
  | RelayOp.disconnect env => disconnect env d
  | RelayOp.setBrokerConfig env host port useSSL => setBrokerConfig env host port useSSL d
  | RelayOp.setRelayState env state saveToEEPROM => (setRelayState env state saveToEEPROM d).2
  | RelayOp.sendHeartbeat env => sendHeartbeat env d
  | RelayOp.sendStatus env status retained => sendStatus env status retained d
  | RelayOp.handleMessage env topic payload => handleMessage deserializeJson env topic payload d

/-- Successive operations on the object, oldest first. -/
def applyAll (deserializeJson : Deserializer) (ops : List RelayOp) (d : MQTTRelay) : MQTTRelay :=
  ops.foldl (fun d op => apply deserializeJson op d) d

end MQTTRelay

/-- A pass of `loop()` at clock `now` in which the transport reports that the link is
down, with a broker that answers `accept`. -/
def sampleTickLinkDown (now : Nat) (accept : Bool) : Tick :=
  { env := { now := now, commitOk := true, accept := accept, rnd := 1 }, linkUp := false,
    inbound := [] }

/-- The relay object after the attempt cap has switched auto-reconnect off: ten refused
attempts, 5000 ms apart, and the pass that finds the cap reached. -/
def sampleCapped : MQTTRelay :=
  MQTTRelay.run sampleParser
    ((List.range 11).map (fun k => sampleTick (5000 * (k + 1)) false)) sampleBegun

/-! ## Reading a JSON string (claim C30) -/

/-- Value of a hexadecimal digit. -/
def hexValue (c : Char) : Option Nat :=
  if '0' ≤ c ∧ c ≤ '9' then some (c.toNat - '0'.toNat)
  else if 'a' ≤ c ∧ c ≤ 'f' then some (c.toNat - 'a'.toNat + 10)
  else if 'A' ≤ c ∧ c ≤ 'F' then some (c.toNat - 'A'.toNat + 10)
  else none

/-- The character that a two-character escape of a JSON string stands for. -/
def jsonEscape (c : Char) : Option Char :=
  if c = '"' then some '"'
  else if c = '\\' then some '\\'
  else if c = '/' then some '/'
  else if c = 'b' then some (Char.ofNat 8)
  else if c = 'f' then some (Char.ofNat 12)
  else if c = 'n' then some '\n'
  else if c = 'r' then some '\r'
  else if c = 't' then some '\t'
  else none

/-- Standard reading of a JSON string from the character after its opening quote: the text
it denotes and the characters that follow its closing quote; `none` when the string does not
end or holds a backslash that starts no escape. -/
def readJsonString : List Char → Option (List Char × List Char)
  | [] => none
  | c :: rest =>
    if c = '"' then some ([], rest)
    else if c = '\\' then
      match rest with
      | [] => none
      | e :: rest2 =>
        if e = 'u' then
          match rest2 with
          | h1 :: h2 :: h3 :: h4 :: rest3 =>
            match hexValue h1, hexValue h2, hexValue h3, hexValue h4 with
            | some a, some b, some c4, some d4 =>
              (readJsonString rest3).map
                (fun r => (Char.ofNat (((a * 16 + b) * 16 + c4) * 16 + d4) :: r.1, r.2))
            | _, _, _, _ => none
          | _ => none
        else
          match jsonEscape e with
          | some x => (readJsonString rest2).map (fun r => (x :: r.1, r.2))
          | none => none
    else (readJsonString rest).map (fun r => (c :: r.1, r.2))

/-- The escaping that `handleWifiScanResult` applies to an SSID: the two calls of
`String::replace`, in the order of the source. -/
def ssidEscaped (ssid : String) : String :=
  replaceChar '\\' "\\\\" (replaceChar '"' "\\\"" ssid)

/-- A scan that found one network, whose SSID holds a double quote. -/
def sampleScanQuote : ScanState :=
  ScanState.done [{ ssid := "a\"b", rssi := -50, channel := 6, encryptionType := 4 }]

/-- A scan that found one network, whose SSID holds a backslash. -/
def sampleScanBackslash : ScanState :=
  ScanState.done [{ ssid := "a\\b", rssi := -50, channel := 6, encryptionType := 4 }]

/-- The portal started in dual mode over the store that holds `sampleRecord`. -/
def sampleDual : OTADash :=
  (OTADash.begin 1 NetworkMode.DUAL samplePortalEnv (samplePortal sampleStore)).getD
    (samplePortal sampleStore)
/-! ## Basic facts about the client requests -/

namespace MQTTRelay

theorem isConnected_emit (p : Packet) (d : MQTTRelay) : (d.emit p).isConnected = d.isConnected := by
  rcases d with ⟨_, _, _, _, _, _, _, _, _, _, _, _, mc, _⟩
  cases mc <;> rfl

theorem sent_emit (p : Packet) (d : MQTTRelay) (h : d.isConnected = true) :
    (d.emit p).sent = d.sent ++ [p] := by
  rcases d with ⟨_, _, _, _, _, _, _, _, _, _, _, _, mc, _⟩
  cases mc with
  | none => simp [isConnected] at h
  | some c => rfl

theorem publish_eq_emit (topic : String) (doc : JsonDocument) (r : Bool) (d : MQTTRelay)
    (h : d.isConnected = true) :
    d.onClient (PubSubClient.publish topic doc r) = d.emit (Packet.publish topic doc r) := by
  rcases d with ⟨_, _, _, _, _, _, _, _, _, _, _, _, mc, _⟩
  cases mc with
  | none => simp [isConnected] at h
  | some c =>
    simp only [isConnected] at h
    simp [emit, onClient, PubSubClient.publish, h]

theorem sendAck_eq (env : Platform) (cmd : String) (ok : Bool) (st : Option String)
    (d : MQTTRelay) (h : d.isConnected = true) :
    sendAck env cmd ok st d = d.emit (Packet.publish d.uplinkTopic (ackDoc env cmd ok st d) false) := by
  unfold sendAck
  simp only [h, Bool.not_true, Bool.false_eq_true, if_false]
  exact publish_eq_emit _ _ _ d h

theorem ackDoc_members (env : Platform) (cmd : String) (ok : Bool) (st : Option String)
    (d : MQTTRelay) :
    ackDoc env cmd ok st d =
      ⟨[("device_uuid", JsonValue.str d.deviceUUID), ("command", JsonValue.str "ack"),
        ("original_command", JsonValue.str cmd), ("success", JsonValue.bool ok)]
        ++ (match st with
            | some s => [("state", JsonValue.str s)]
            | none => [])
        ++ [("timestamp", JsonValue.str (getCurrentTimestamp env))]⟩ := by
  cases st <;> rfl

end MQTTRelay

namespace MQTTRelay

theorem control_emit (p : Packet) (d : MQTTRelay) : (d.emit p).control = d.control := by
  rcases d with ⟨_, _, _, _, _, _, _, _, _, _, _, _, mc, _⟩
  cases mc <;> rfl

theorem relayState_emit (p : Packet) (d : MQTTRelay) : (d.emit p).relayState = d.relayState := by
  rcases d with ⟨_, _, _, _, _, _, _, _, _, _, _, _, mc, _⟩
  cases mc <;> rfl

theorem board_emit (p : Packet) (d : MQTTRelay) : (d.emit p).board = d.board := by
  rcases d with ⟨_, _, _, _, _, _, _, _, _, _, _, _, mc, _⟩
  cases mc <;> rfl

theorem sent_emit_of_disconnected (p : Packet) (d : MQTTRelay) :
    ∃ l, (d.emit p).sent = d.sent ++ l ∧ (l = [] ∨ l = [p]) := by
  rcases d with ⟨_, _, _, _, _, _, _, _, _, _, _, _, mc, _⟩
  cases mc with
  | none => exact ⟨[], by simp [emit, onClient], Or.inl rfl⟩
  | some c => exact ⟨[p], rfl, Or.inr rfl⟩

theorem setRelayState_fst (env : Platform) (b save : Bool) (d : MQTTRelay) :
    (setRelayState env b save d).1 = true := by
  unfold setRelayState
  split <;> rfl

theorem setRelayState_relayState (env : Platform) (b save : Bool) (d : MQTTRelay) :
    (setRelayState env b save d).2.relayState = b := by
  unfold setRelayState
  split
  · assumption
  · cases save <;> rfl

theorem setRelayState_mqttClient (env : Platform) (b save : Bool) (d : MQTTRelay) :
    (setRelayState env b save d).2.mqttClient = d.mqttClient := by
  unfold setRelayState
  split
  · rfl
  · cases save <;> rfl

theorem setRelayState_control (env : Platform) (b save : Bool) (d : MQTTRelay) :
    (setRelayState env b save d).2.control = d.control := by
  unfold setRelayState
  split
  · rfl
  · cases save <;> rfl

theorem setRelayState_sent (env : Platform) (b save : Bool) (d : MQTTRelay) :
    (setRelayState env b save d).2.sent = d.sent := by
  unfold sent; rw [setRelayState_mqttClient]

theorem setRelayState_deviceUUID (env : Platform) (b save : Bool) (d : MQTTRelay) :
    (setRelayState env b save d).2.deviceUUID = d.deviceUUID :=
  congrArg (fun x => x.2.2.2.2.1) (setRelayState_control env b save d)

theorem setRelayState_isConnected (env : Platform) (b save : Bool) (d : MQTTRelay) :
    (setRelayState env b save d).2.isConnected = d.isConnected := by
  unfold isConnected; rw [setRelayState_mqttClient]

theorem setRelayState_uplinkTopic (env : Platform) (b save : Bool) (d : MQTTRelay) :
    (setRelayState env b save d).2.uplinkTopic = d.uplinkTopic :=
  congrArg (fun x => x.2.2.2.2.2.1) (setRelayState_control env b save d)

theorem ackDoc_congr (env : Platform) (cmd : String) (ok : Bool) (st : Option String)
    (d d' : MQTTRelay) (h : d'.deviceUUID = d.deviceUUID) :
    ackDoc env cmd ok st d' = ackDoc env cmd ok st d := by
  rw [ackDoc_members, ackDoc_members, h]

theorem processCommand_set (env : Platform) (c : JsonDocument) (d : MQTTRelay) (st : String)
    (b : Bool) (hconn : d.isConnected = true) (hc : c.cstr "command" = some "set_state")
    (hs : c.cstr "state" = some st) (hb : stateOfText st = some b) :
    processCommand env c d =
      (setRelayState env b true d).2.emit
        (Packet.publish d.uplinkTopic (ackDoc env "set_state" true (some st) d) false) := by
  unfold processCommand
  simp only [hc, hs, if_true]
  unfold stateOfText at hb
  rw [hb]
  simp only [setRelayState_fst, if_true]
  rw [sendAck_eq _ _ _ _ _ (by rw [setRelayState_isConnected]; exact hconn),
    setRelayState_uplinkTopic, ackDoc_congr _ _ _ _ d _ (setRelayState_deviceUUID _ _ _ _)]

theorem processCommand_get (env : Platform) (c : JsonDocument) (d : MQTTRelay)
    (hconn : d.isConnected = true) (hc : c.cstr "command" = some "get_state") :
    processCommand env c d =
      d.emit (Packet.publish d.uplinkTopic
        (ackDoc env "get_state" true (some (onOff d.relayState)) d) false) := by
  unfold processCommand
  simp only [hc]
  rw [if_pos trivial]
  exact sendAck_eq _ _ _ _ _ hconn

theorem processCommand_reject (env : Platform) (c : JsonDocument) (d : MQTTRelay) (cmd : String)
    (hconn : d.isConnected = true) (hc : c.cstr "command" = some cmd)
    (hbad : (cmd = "set_state" ∧ (c.cstr "state").bind stateOfText = none) ∨
      (cmd ≠ "set_state" ∧ cmd ≠ "get_state")) :
    processCommand env c d =
      d.emit (Packet.publish d.uplinkTopic (ackDoc env cmd false none d) false) := by
  unfold processCommand
  simp only [hc]
  rcases hbad with ⟨h1, h2⟩ | ⟨h1, h2⟩
  · subst h1
    simp only [if_true]
    cases hs : c.cstr "state" with
    | none => exact sendAck_eq _ _ _ _ _ hconn
    | some st =>
      rw [hs] at h2
      simp only [Option.bind] at h2
      unfold stateOfText at h2
      simp only [h2]
      exact sendAck_eq _ _ _ _ _ hconn
  · rw [if_neg h1, if_neg h2]
    exact sendAck_eq _ _ _ _ _ hconn

end MQTTRelay

namespace MQTTRelay

/-- What one accepted command does: one acknowledgement on the uplink topic, with the
members the protocol asks for, and the relay follows a `set_state`. -/
theorem processCommand_accepted (env : Platform) (c : JsonDocument) (d : MQTTRelay)
    (hconn : d.isConnected = true) (hv : c.Accepted) :
    ∃ a : JsonDocument,
      (processCommand env c d).sent = d.sent ++ [Packet.publish d.uplinkTopic a false] ∧
      (processCommand env c d).control = d.control ∧
      a.get "command" = some (JsonValue.str "ack") ∧
      a.get "success" = some (JsonValue.bool true) ∧
      a.cstr "original_command" = c.cstr "command" ∧
      a.cstr "state" =
        (if c.cstr "command" = some "set_state" then c.cstr "state"
         else some (onOff d.relayState)) ∧
      (c.isSetState = true → c.cstr "state" = some (onOff (processCommand env c d).relayState)) ∧
      (c.isSetState = false → (processCommand env c d).relayState = d.relayState) := by
  rcases hv with ⟨hc, hs⟩ | hc
  · obtain ⟨st, b, hst, hb, hbt⟩ : ∃ st b, c.cstr "state" = some st ∧ stateOfText st = some b ∧
        st = onOff b := by
      rcases hs with hs | hs
      · exact ⟨"on", true, hs, rfl, rfl⟩
      · exact ⟨"off", false, hs, rfl, rfl⟩
    refine ⟨ackDoc env "set_state" true (some st) d, ?_, ?_, ?_, ?_, ?_, ?_, ?_, ?_⟩
    · rw [processCommand_set env c d st b hconn hc hst hb,
        sent_emit _ _ (by rw [setRelayState_isConnected]; exact hconn), setRelayState_sent]
    · rw [processCommand_set env c d st b hconn hc hst hb, control_emit, setRelayState_control]
    · rw [ackDoc_members]; rfl
    · rw [ackDoc_members]; rfl
    · rw [ackDoc_members, hc]; rfl
    · rw [ackDoc_members, hc, if_pos rfl, hst]; rfl
    · intro _
      rw [processCommand_set env c d st b hconn hc hst hb, relayState_emit,
        setRelayState_relayState, hst, hbt]
    · intro h
      simp [JsonDocument.isSetState, hc] at h
  · have hne : ¬ (c.cstr "command" = some "set_state") := by rw [hc]; decide
    refine ⟨ackDoc env "get_state" true (some (onOff d.relayState)) d, ?_, ?_, ?_, ?_, ?_, ?_, ?_, ?_⟩
    · rw [processCommand_get env c d hconn hc, sent_emit _ _ hconn]
    · rw [processCommand_get env c d hconn hc, control_emit]
    · rw [ackDoc_members]; rfl
    · rw [ackDoc_members]; rfl
    · rw [ackDoc_members, hc]; rfl
    · rw [ackDoc_members, if_neg hne]; rfl
    · intro h
      simp [JsonDocument.isSetState, hc] at h
    · intro _
      rw [processCommand_get env c d hconn hc, relayState_emit]

theorem processCommands_cons (c : Platform × JsonDocument) (cs : List (Platform × JsonDocument))
    (d : MQTTRelay) :
    processCommands (c :: cs) d = processCommands cs (processCommand c.1 c.2 d) := rfl

theorem processCommands_nil (d : MQTTRelay) : processCommands [] d = d := rfl

end MQTTRelay

namespace MQTTRelay

theorem isConnected_of_control {d d' : MQTTRelay} (h : d'.control = d.control) :
    d'.isConnected = d.isConnected :=
  congrArg (fun x => x.2.2.2.2.2.2.2.2.1) h

theorem uplinkTopic_of_control {d d' : MQTTRelay} (h : d'.control = d.control) :
    d'.uplinkTopic = d.uplinkTopic :=
  congrArg (fun x => x.2.2.2.2.2.1) h

theorem deviceUUID_of_control {d d' : MQTTRelay} (h : d'.control = d.control) :
    d'.deviceUUID = d.deviceUUID :=
  congrArg (fun x => x.2.2.2.2.1) h

/-- The sequence form of `processCommand_accepted`, by induction on the commands. -/
theorem processCommands_accepted (cs : List (Platform × JsonDocument)) :
    ∀ d : MQTTRelay, d.isConnected = true → (∀ c ∈ cs, c.2.Accepted) →
    ∃ acks : List JsonDocument,
      (processCommands cs d).sent =
        d.sent ++ acks.map (fun a => Packet.publish d.uplinkTopic a false) ∧
      acks.length = cs.length ∧
      (∀ i c, cs[i]? = some c → ∃ a, acks[i]? = some a ∧
        a.get "command" = some (JsonValue.str "ack") ∧
        a.get "success" = some (JsonValue.bool true) ∧
        a.cstr "original_command" = c.2.cstr "command" ∧
        a.cstr "state" =
          (if c.2.cstr "command" = some "set_state" then c.2.cstr "state"
           else some (onOff (processCommands (cs.take i) d).relayState))) ∧
      (∀ i c, cs[i]? = some c → c.2.isSetState = false →
        (processCommands (cs.take (i + 1)) d).relayState =
          (processCommands (cs.take i) d).relayState) ∧
      (∀ c, (cs.filter (fun c => c.2.isSetState)).getLast? = some c →
        c.2.cstr "state" = some (onOff (processCommands cs d).relayState)) ∧
      (cs.filter (fun c => c.2.isSetState) = [] →
        (processCommands cs d).relayState = d.relayState) := by
  induction cs with
  | nil =>
    intro d _ _
    exact ⟨[], by simp [processCommands_nil], rfl, by simp, by simp, by simp, fun _ => rfl⟩
  | cons c cs ih =>
    intro d hconn hvalid
    obtain ⟨a, hsent, hctl, ha1, ha2, ha3, ha4, hset, hget⟩ :=
      processCommand_accepted c.1 c.2 d hconn (hvalid c (List.mem_cons_self _ _))
    have hconn1 : (processCommand c.1 c.2 d).isConnected = true := by
      rw [isConnected_of_control hctl]; exact hconn
    obtain ⟨acks, h1, h2, h3, h4, h5, h6⟩ :=
      ih (processCommand c.1 c.2 d) hconn1 (fun x hx => hvalid x (List.mem_cons_of_mem _ hx))
    refine ⟨a :: acks, ?_, ?_, ?_, ?_, ?_, ?_⟩
    · rw [processCommands_cons, h1, hsent, uplinkTopic_of_control hctl]
      simp
    · simp [h2]
    · intro i x hx
      cases i with
      | zero =>
        simp only [List.getElem?_cons_zero, Option.some.injEq] at hx
        subst hx
        exact ⟨a, by simp, ha1, ha2, ha3, by simpa [processCommands_nil] using ha4⟩
      | succ i =>
        simp only [List.getElem?_cons_succ] at hx
        obtain ⟨a', hA, hB⟩ := h3 i x hx
        exact ⟨a', by simpa using hA, by simpa [processCommands_cons] using hB⟩
    · intro i x hx hxs
      cases i with
      | zero =>
        simp only [List.getElem?_cons_zero, Option.some.injEq] at hx
        subst hx
        simpa [processCommands_cons, processCommands_nil] using hget hxs
      | succ i =>
        simp only [List.getElem?_cons_succ] at hx
        simpa [processCommands_cons] using h4 i x hx hxs
    · intro x hx
      rw [processCommands_cons]
      by_cases hempty : cs.filter (fun c => c.2.isSetState) = []
      · rw [h6 hempty]
        cases hcs : c.2.isSetState with
        | true =>
          simp only [List.filter_cons, hcs, if_true, hempty, List.getLast?_singleton,
            Option.some.injEq] at hx
          subst hx
          exact hset hcs
        | false =>
          simp [List.filter_cons, hcs, hempty] at hx
      · apply h5
        cases hcs : c.2.isSetState with
        | true =>
          simp only [List.filter_cons, hcs, if_true] at hx
          obtain ⟨y, ys, hys⟩ := List.exists_cons_of_ne_nil hempty
          rw [hys] at hx ⊢
          rw [List.getLast?_cons_cons] at hx
          exact hx
        | false =>
          simpa [List.filter_cons, hcs] using hx
    · intro hempty
      rw [processCommands_cons]
      cases hcs : c.2.isSetState with
      | true => simp [List.filter_cons, hcs] at hempty
      | false =>
        have hempty1 : cs.filter (fun c => c.2.isSetState) = [] := by
          simpa [List.filter_cons, hcs] using hempty
        rw [h6 hempty1, hget hcs]

end MQTTRelay

/-! ## Command interpreter: claims C1 to C3 -/

namespace MQTTRelay

/-- C1: while the session is connected, a sequence of accepted commands (`set_state` on/off,
`get_state`) gets exactly one acknowledgement per command, in command order, on the topic
UplinkPrefix+deviceId, not retained, with success = true, original_command = the command name
and state = the commanded state (`set_state`) or the relay state at that moment
(`get_state`); `get_state` leaves the relay state alone, and at the end the relay state is
the one of the last `set_state` (the initial one when there is none). -/
theorem processCommands_acknowledges_in_order (cs : List (Platform × JsonDocument))
    (d : MQTTRelay) (hconn : d.isConnected = true) (htopics : d.TopicsSet)
    (hvalid : ∀ c ∈ cs, c.2.Accepted) :
    ∃ acks : List JsonDocument,
      (processCommands cs d).sent =
        d.sent ++ acks.map (fun a => Packet.publish (UPLINK_TOPIC_PREFIX ++ d.deviceUUID) a false) ∧
      acks.length = cs.length ∧
      (∀ i c, cs[i]? = some c → ∃ a, acks[i]? = some a ∧
        a.get "command" = some (JsonValue.str "ack") ∧
        a.get "success" = some (JsonValue.bool true) ∧
        a.cstr "original_command" = c.2.cstr "command" ∧
        a.cstr "state" =
          (if c.2.cstr "command" = some "set_state" then c.2.cstr "state"
           else some (onOff (processCommands (cs.take i) d).relayState))) ∧
      (∀ i c, cs[i]? = some c → c.2.isSetState = false →
        (processCommands (cs.take (i + 1)) d).relayState =
          (processCommands (cs.take i) d).relayState) ∧
      (∀ c, (cs.filter (fun c => c.2.isSetState)).getLast? = some c →
        c.2.cstr "state" = some (onOff (processCommands cs d).relayState)) ∧
      (cs.filter (fun c => c.2.isSetState) = [] →
        (processCommands cs d).relayState = d.relayState) := by
  have h := processCommands_accepted cs d hconn hvalid
  rw [htopics.1] at h
  exact h

/-- C1 at `set_state` on followed by `set_state` off: two acknowledgements, states "on" then
"off", and the relay ends off. -/
theorem processCommands_acknowledges_in_order_witness :
    (∃ acks : List JsonDocument,
      (processCommands [(sampleEnv, setStateCmd "on"), (sampleEnv, setStateCmd "off")]
          sampleConnected).sent =
        sampleConnected.sent ++ acks.map (fun a =>
          Packet.publish (UPLINK_TOPIC_PREFIX ++ sampleConnected.deviceUUID) a false) ∧
      acks.length = 2 ∧
      (∃ a, acks[0]? = some a ∧ a.get "success" = some (JsonValue.bool true) ∧
        a.cstr "state" = some "on") ∧
      (∃ a, acks[1]? = some a ∧ a.get "success" = some (JsonValue.bool true) ∧
        a.cstr "state" = some "off")) ∧
    (processCommands [(sampleEnv, setStateCmd "on"), (sampleEnv, setStateCmd "off")]
      sampleConnected).relayState = false := by
  obtain ⟨acks, h1, h2, h3, _, _, _⟩ :=
    processCommands_acknowledges_in_order
      [(sampleEnv, setStateCmd "on"), (sampleEnv, setStateCmd "off")] sampleConnected
      (by decide) (by decide) (by decide)
  refine ⟨⟨acks, h1, h2, ?_, ?_⟩, by decide⟩
  · obtain ⟨a, ha, _, hs, _, hst⟩ := h3 0 (sampleEnv, setStateCmd "on") rfl
    exact ⟨a, ha, hs, by rw [hst]; decide⟩
  · obtain ⟨a, ha, _, hs, _, hst⟩ := h3 1 (sampleEnv, setStateCmd "off") rfl
    exact ⟨a, ha, hs, by rw [hst]; decide⟩

/-- C2: while the session is connected, a `set_state` whose state is missing or is neither
"on" nor "off", and a command that is neither `set_state` nor `get_state`, get exactly one
acknowledgement with success = false and no state member; the relay state and the board
(relay output, persistent store) are left as they were. -/
theorem processCommand_rejects_invalid (env : Platform) (c : JsonDocument) (d : MQTTRelay)
    (hconn : d.isConnected = true) (htopics : d.TopicsSet)
    (hbad : (c.cstr "command" = some "set_state" ∧
        c.cstr "state" ≠ some "on" ∧ c.cstr "state" ≠ some "off") ∨
      (∃ cmd, c.cstr "command" = some cmd ∧ cmd ≠ "set_state" ∧ cmd ≠ "get_state")) :
    ∃ a : JsonDocument,
      (processCommand env c d).sent =
        d.sent ++ [Packet.publish (UPLINK_TOPIC_PREFIX ++ d.deviceUUID) a false] ∧
      a.get "command" = some (JsonValue.str "ack") ∧
      a.get "success" = some (JsonValue.bool false) ∧
      a.get "state" = none ∧
      a.cstr "original_command" = c.cstr "command" ∧
      (processCommand env c d).relayState = d.relayState ∧
      (processCommand env c d).board = d.board := by
  obtain ⟨cmd, hc, hrej⟩ : ∃ cmd, c.cstr "command" = some cmd ∧
      ((cmd = "set_state" ∧ (c.cstr "state").bind stateOfText = none) ∨
        (cmd ≠ "set_state" ∧ cmd ≠ "get_state")) := by
    rcases hbad with ⟨hc, hon, hoff⟩ | ⟨cmd, hc, h1, h2⟩
    · refine ⟨"set_state", hc, Or.inl ⟨rfl, ?_⟩⟩
      cases hs : c.cstr "state" with
      | none => rfl
      | some st =>
        rw [hs] at hon hoff
        have h1 : st ≠ "on" := fun h => hon (by rw [h])
        have h2 : st ≠ "off" := fun h => hoff (by rw [h])
        simp [stateOfText, h1, h2]
    · exact ⟨cmd, hc, Or.inr ⟨h1, h2⟩⟩
  have hstep := processCommand_reject env c d cmd hconn hc hrej
  refine ⟨ackDoc env cmd false none d, ?_, ?_, ?_, ?_, ?_, ?_, ?_⟩
  · rw [hstep, sent_emit _ _ hconn, htopics.1]
  · rw [ackDoc_members]; rfl
  · rw [ackDoc_members]; rfl
  · rw [ackDoc_members]; rfl
  · rw [ackDoc_members, hc]; rfl
  · rw [hstep, relayState_emit]
  · rw [hstep, board_emit]

/-- C2 at a `set_state` with state "dim" and at the unknown command "toggle". -/
theorem processCommand_rejects_invalid_witness :
    (∃ a : JsonDocument,
      (processCommand sampleEnv (setStateCmd "dim") sampleConnected).sent =
        sampleConnected.sent ++
          [Packet.publish (UPLINK_TOPIC_PREFIX ++ sampleConnected.deviceUUID) a false] ∧
      a.get "success" = some (JsonValue.bool false) ∧ a.get "state" = none) ∧
    (processCommand sampleEnv ⟨[("command", JsonValue.str "toggle")]⟩ sampleConnected).board =
      sampleConnected.board := by
  constructor
  · obtain ⟨a, h1, _, h3, h4, _⟩ :=
      processCommand_rejects_invalid sampleEnv (setStateCmd "dim") sampleConnected
        (by decide) (by decide) (Or.inl (by decide))
    exact ⟨a, h1, h3, h4⟩
  · obtain ⟨a, _, _, _, _, _, _, h7⟩ :=
      processCommand_rejects_invalid sampleEnv ⟨[("command", JsonValue.str "toggle")]⟩
        sampleConnected (by decide) (by decide) (Or.inr ⟨"toggle", by decide, by decide, by decide⟩)
    exact h7

/-- C3: a payload on which the parser reports an error, and a payload that parses to a
document without a "command" member (with or without the handshake text "hello from
server"), leave the object as it was: nothing is published, the relay state and the
persistent store are unchanged. -/
theorem handleMessage_drops_unidentified (deserializeJson : Deserializer) (env : Platform)
    (topic : String) (payload : List Char) (d : MQTTRelay)
    (h : deserializeJson (payloadText payload) = none ∨
      ∃ doc, deserializeJson (payloadText payload) = some doc ∧ doc.get "command" = none) :
    handleMessage deserializeJson env topic payload d = d ∧
    (handleMessage deserializeJson env topic payload d).sent = d.sent ∧
    (handleMessage deserializeJson env topic payload d).relayState = d.relayState ∧
    (handleMessage deserializeJson env topic payload d).board = d.board := by
  have key : handleMessage deserializeJson env topic payload d = d := by
    unfold handleMessage
    rcases h with h | ⟨doc, h, hdoc⟩
    · simp only [h]
    · have hc : doc.cstr "command" = none := by
        unfold JsonDocument.cstr
        rw [hdoc]
      simp only [h]
      unfold processCommand
      simp only [hc]
      split <;> rfl
  rw [key]
  exact ⟨rfl, rfl, rfl, rfl⟩

/-- C3 at a text that is not JSON and at the server's handshake. -/
theorem handleMessage_drops_unidentified_witness :
    handleMessage sampleParser sampleEnv "ControlDevice/Downlink/WASA-AABBCCDDEEFF"
        "not json".toList sampleConnected = sampleConnected ∧
    handleMessage sampleParser sampleEnv "ControlDevice/Downlink/WASA-AABBCCDDEEFF"
        "\x7b\"message\":\"hello from server\"\x7d".toList sampleConnected = sampleConnected :=
  ⟨(handleMessage_drops_unidentified sampleParser sampleEnv _ "not json".toList sampleConnected
      (Or.inl (by decide))).1,
   (handleMessage_drops_unidentified sampleParser sampleEnv _
      "\x7b\"message\":\"hello from server\"\x7d".toList sampleConnected
      (Or.inr ⟨⟨[("message", JsonValue.str "hello from server")]⟩, by decide, by decide⟩)).1⟩

end MQTTRelay

/-! ## Persistence of the relay state: claims C4 and C5 -/

namespace MQTTRelay

/-- The read of the relay flag lies outside the region opened by `begin(MQTT_EEPROM_SIZE)`,
so `loadRelayState` keeps the value the member already has. -/
theorem loadRelayState_keeps (d : MQTTRelay) : (loadRelayState d).2.relayState = d.relayState := by
  rfl

/-- C4 (fails on the code): after `setRelayState(true)` has switched the relay on, with a
successful commit, the next start-up (`begin()` on a fresh object over the same board) loads
the relay state off: the write of the flag at offset 200 + sizeof(MQTTConfig) and its read
lie outside the 100-byte region opened by `EEPROM.begin`, so the flag is never stored. -/
theorem setRelayState_not_persisted :
    (setRelayState sampleEnv true true sampleConnected).2.relayState = true ∧
    (saveRelayState sampleEnv (setRelayState sampleEnv true true sampleConnected).2).1 = true ∧
    (begin sampleEnv (MQTTRelay.new 2 "WASA-AABBCCDDEEFF" "WASA_Relay_DDEEFF" sampleUninit
      (setRelayState sampleEnv true true sampleConnected).2.board)).2.relayState = false ∧
    (∀ d : MQTTRelay, (loadRelayState d).2.relayState = d.relayState) := by
  refine ⟨by decide, by decide, by decide, fun d => rfl⟩

/-- C5 (fails on the code): with a failing flash write, `saveRelayState` reports the
failure, but `setRelayState` drops that result and returns true, and the acknowledgement of
the `set_state` command carries success = true; the relay state in memory is the new one. -/
theorem setRelayState_hides_commit_failure :
    (saveRelayState sampleEnvCommitFails { sampleConnected with relayState := true }).1 = false ∧
    (setRelayState sampleEnvCommitFails true true sampleConnected).1 = true ∧
    (processCommand sampleEnvCommitFails (setStateCmd "on") sampleConnected).sent =
      sampleConnected.sent ++
        [Packet.publish "ControlDevice/Uplink/WASA-AABBCCDDEEFF"
          ⟨[("device_uuid", JsonValue.str "WASA-AABBCCDDEEFF"), ("command", JsonValue.str "ack"),
            ("original_command", JsonValue.str "set_state"), ("success", JsonValue.bool true),
            ("state", JsonValue.str "on"), ("timestamp", JsonValue.str "2000")]⟩ false] ∧
    (processCommand sampleEnvCommitFails (setStateCmd "on") sampleConnected).relayState = true ∧
    (∀ (env : Platform) (b save : Bool) (d : MQTTRelay), (setRelayState env b save d).1 = true) := by
  refine ⟨by decide, by decide, by decide, by decide, setRelayState_fst⟩

end MQTTRelay

/-! ## Connecting: claim C8 -/

namespace MQTTRelay

/-- The connection request built by `connect()`. -/
theorem connect_refused (env : Platform) (d : MQTTRelay) (c : PubSubClient)
    (hc : d.mqttClient = some c) (hd : c.connected = false) (ha : env.accept = false) :
    connect env d =
      (false, { d with
        mqttClient := some { c with
          sent := c.sent ++ [Packet.connect
            ("ESP32-" ++ d.deviceUUID ++ "-" ++ hexString (env.rnd % 65535))
            (cString d.config.brokerHost) c.port none] }
        reconnectAttempts := d.reconnectAttempts + 1 }) := by
  rcases d with ⟨_, _, _, _, _, _, _, _, _, _, _, _, mc, _⟩
  rcases c with ⟨_, _, _, _, conn, _⟩
  rcases env with ⟨_, _, acc, _⟩
  simp only at hc hd ha
  subst hc hd ha
  rfl

theorem connect_accepted (env : Platform) (d : MQTTRelay) (c : PubSubClient)
    (hc : d.mqttClient = some c) (hd : c.connected = false) (ha : env.accept = true) :
    connect env d =
      (true, { d with
        mqttClient := some { c with
          connected := true
          sent := c.sent ++
            [Packet.connect ("ESP32-" ++ d.deviceUUID ++ "-" ++ hexString (env.rnd % 65535))
              (cString d.config.brokerHost) c.port none,
             Packet.subscribe d.downlinkTopic MQTT_QOS,
             Packet.publish d.uplinkTopic (helloDoc env d) false,
             Packet.publish d.statusTopic (statusDoc env "online" d) true] }
        reconnectAttempts := 0 }) := by
  rcases d with ⟨_, _, _, _, _, _, _, _, _, _, _, _, mc, _⟩
  rcases c with ⟨_, _, _, _, conn, _⟩
  rcases env with ⟨_, _, acc, _⟩
  simp only at hc hd ha
  subst hc hd ha
  simp [connect, PubSubClient.connect, onClient, PubSubClient.subscribe, sendHello, sendStatus,
    isConnected, PubSubClient.publish, helloDoc, statusDoc]

end MQTTRelay

namespace MQTTRelay

/-- C8: a `connect()` call on a disconnected client issues one connection request; when the
broker accepts, the client then subscribes to DownlinkPrefix+deviceId, publishes the hello
document on UplinkPrefix+deviceId (not retained) and the status document with status
"online" on StatusPrefix+deviceId (retained), in that order, `reconnectAttempts` becomes 0
and the call returns true; when the broker refuses, nothing else is issued (nothing is
published), `reconnectAttempts` grows by exactly one and the call returns false. -/
theorem connect_outcome (env : Platform) (d : MQTTRelay) (c : PubSubClient)
    (hc : d.mqttClient = some c) (hd : c.connected = false) (htopics : d.TopicsSet) :
    (env.accept = true →
      ∃ (id : String) (host : List Char) (hello status : JsonDocument),
        (connect env d).2.sent = d.sent ++
          [Packet.connect id host c.port none,
           Packet.subscribe (DOWNLINK_TOPIC_PREFIX ++ d.deviceUUID) MQTT_QOS,
           Packet.publish (UPLINK_TOPIC_PREFIX ++ d.deviceUUID) hello false,
           Packet.publish (STATUS_TOPIC_PREFIX ++ d.deviceUUID) status true] ∧
        hello.get "message" = some (JsonValue.str "hello") ∧
        hello.get "device_uuid" = some (JsonValue.str d.deviceUUID) ∧
        status.get "status" = some (JsonValue.str "online") ∧
        status.get "device_uuid" = some (JsonValue.str d.deviceUUID) ∧
        (connect env d).2.reconnectAttempts = 0 ∧
        (connect env d).2.isConnected = true ∧
        (connect env d).1 = true) ∧
    (env.accept = false →
      ∃ (id : String) (host : List Char),
        (connect env d).2.sent = d.sent ++ [Packet.connect id host c.port none] ∧
        (connect env d).2.reconnectAttempts = d.reconnectAttempts + 1 ∧
        (connect env d).2.isConnected = false ∧
        (connect env d).1 = false) := by
  obtain ⟨h1, h2, h3⟩ := htopics
  constructor
  · intro ha
    refine ⟨"ESP32-" ++ d.deviceUUID ++ "-" ++ hexString (env.rnd % 65535),
      cString d.config.brokerHost, helloDoc env d, statusDoc env "online" d, ?_, rfl, rfl, rfl,
      rfl, ?_, ?_, ?_⟩
    · rw [connect_accepted env d c hc hd ha, ← h1, ← h2, ← h3]
      simp [sent, hc]
    · rw [connect_accepted env d c hc hd ha]
    · rw [connect_accepted env d c hc hd ha]
      rfl
    · rw [connect_accepted env d c hc hd ha]
  · intro ha
    refine ⟨"ESP32-" ++ d.deviceUUID ++ "-" ++ hexString (env.rnd % 65535),
      cString d.config.brokerHost, ?_, ?_, ?_, ?_⟩
    · rw [connect_refused env d c hc hd ha]
      simp [sent, hc]
    · rw [connect_refused env d c hc hd ha]
    · rw [connect_refused env d c hc hd ha]
      simp [isConnected, hd]
    · rw [connect_refused env d c hc hd ha]

/-- C8 at the object after `begin()`, once with an accepting and once with a refusing
broker. -/
theorem connect_outcome_witness :
    ((connect sampleEnv sampleBegun).2.reconnectAttempts = 0 ∧
      (connect sampleEnv sampleBegun).2.isConnected = true ∧
      (connect sampleEnv sampleBegun).1 = true) ∧
    ((connect sampleEnvRefused sampleBegun).2.reconnectAttempts =
        sampleBegun.reconnectAttempts + 1 ∧
      (connect sampleEnvRefused sampleBegun).2.isConnected = false ∧
      (connect sampleEnvRefused sampleBegun).1 = false) := by
  have hc : sampleBegun.mqttClient = some (((PubSubClient.new true).setServer 8883).setCallback.setKeepAlive 60) := by
    decide
  constructor
  · obtain ⟨_, _, _, _, _, _, _, _, _, h6, h7, h8⟩ :=
      (connect_outcome sampleEnv sampleBegun _ hc (by decide) (by decide)).1 (by decide)
    exact ⟨h6, h7, h8⟩
  · obtain ⟨_, _, _, h2, h3, h4⟩ :=
      (connect_outcome sampleEnvRefused sampleBegun _ hc (by decide) (by decide)).2 (by decide)
    exact ⟨h2, h3, h4⟩

end MQTTRelay

/-! ## One pass of the main loop -/

namespace MQTTRelay

theorem sendAck_cases (env : Platform) (cmd : String) (ok : Bool) (st : Option String)
    (d : MQTTRelay) :
    sendAck env cmd ok st d = d ∨
      sendAck env cmd ok st d =
        d.emit (Packet.publish d.uplinkTopic (ackDoc env cmd ok st d) false) := by
  cases h : d.isConnected with
  | true => exact Or.inr (sendAck_eq env cmd ok st d h)
  | false => left; unfold sendAck; simp [h]

theorem ackDoc_not_heartbeat (env : Platform) (cmd : String) (ok : Bool) (st : Option String)
    (d : MQTTRelay) (topic : String) (r : Bool) :
    (Packet.publish topic (ackDoc env cmd ok st d) r).isHeartbeat = false := by
  rw [ackDoc_members]
  cases st <;> rfl

theorem observed_emit (p : Packet) (d : MQTTRelay) (h1 : p.isConnect = false)
    (h2 : p.isHeartbeat = false) : (d.emit p).observed = d.observed := by
  rcases d with ⟨_, _, _, _, _, _, _, _, _, _, _, _, mc, _⟩
  cases mc with
  | none => rfl
  | some c =>
    simp [observed, emit, onClient, isConnected, attempts, heartbeats, sent, List.countP_append,
      List.countP_cons, h1, h2]

theorem observed_sendAck (env : Platform) (cmd : String) (ok : Bool) (st : Option String)
    (d : MQTTRelay) : (sendAck env cmd ok st d).observed = d.observed := by
  rcases sendAck_cases env cmd ok st d with h | h
  · rw [h]
  · rw [h]
    exact observed_emit _ _ rfl (ackDoc_not_heartbeat _ _ _ _ _ _ _)

theorem observed_setRelayState (env : Platform) (b save : Bool) (d : MQTTRelay) :
    (setRelayState env b save d).2.observed = d.observed := by
  unfold setRelayState
  split
  · rfl
  · cases save <;> rfl

theorem observed_processCommand (env : Platform) (c : JsonDocument) (d : MQTTRelay) :
    (processCommand env c d).observed = d.observed := by
  unfold processCommand
  cases hcmd : c.cstr "command" with
  | none =>
    simp only
    split <;> rfl
  | some cmd =>
    simp only
    by_cases h1 : cmd = "set_state"
    · rw [if_pos h1]
      cases hst : c.cstr "state" with
      | none => exact observed_sendAck _ _ _ _ _
      | some st =>
        simp only
        generalize (if st = "on" then some true else if st = "off" then some false else none) = o
        cases o with
        | none => exact observed_sendAck _ _ _ _ _
        | some b =>
          simp only [setRelayState_fst, if_true]
          rw [observed_sendAck, observed_setRelayState]
    · rw [if_neg h1]
      split <;> exact observed_sendAck _ _ _ _ _

theorem observed_handleMessage (deserializeJson : Deserializer) (env : Platform) (topic : String)
    (payload : List Char) (d : MQTTRelay) :
    (handleMessage deserializeJson env topic payload d).observed = d.observed := by
  unfold handleMessage
  simp only
  split
  · rfl
  · exact observed_processCommand _ _ _

theorem observed_foldl_handleMessage (deserializeJson : Deserializer) (env : Platform)
    (ms : List (String × List Char)) :
    ∀ d : MQTTRelay,
      (ms.foldl (fun d m => handleMessage deserializeJson env m.1 m.2 d) d).observed =
        d.observed := by
  induction ms with
  | nil => intro d; rfl
  | cons m ms ih =>
    intro d
    rw [List.foldl_cons, ih, observed_handleMessage]

theorem observed_clientLoop (deserializeJson : Deserializer) (t : Tick) (d : MQTTRelay) :
    (clientLoop deserializeJson t d).observed =
      (d.reconnectAttempts, d.autoReconnect, d.lastReconnectAttempt, d.lastHeartbeat,
        sessionUp t d, d.mqttClient.isSome, d.attempts, d.heartbeats) := by
  have hpoll : (d.onClient (PubSubClient.poll t.linkUp)).observed =
      (d.reconnectAttempts, d.autoReconnect, d.lastReconnectAttempt, d.lastHeartbeat,
        sessionUp t d, d.mqttClient.isSome, d.attempts, d.heartbeats) := by
    rcases d with ⟨_, _, _, _, _, _, _, _, _, _, _, _, mc, _⟩
    cases mc <;> rfl
  unfold clientLoop
  simp only
  split
  · rw [observed_foldl_handleMessage, hpoll]
  · exact hpoll

end MQTTRelay

namespace MQTTRelay

theorem exists_client_of_isSome {d : MQTTRelay} (hs : d.mqttClient.isSome = true) :
    ∃ c, d.mqttClient = some c := by
  cases h : d.mqttClient with
  | none => rw [h] at hs; cases hs
  | some c => exact ⟨c, rfl⟩

theorem observed_connect (env : Platform) (d : MQTTRelay) (hs : d.mqttClient.isSome = true)
    (hd : d.isConnected = false) :
    (connect env d).2.observed =
      (if env.accept then 0 else d.reconnectAttempts + 1, d.autoReconnect,
        d.lastReconnectAttempt, d.lastHeartbeat, env.accept, true, d.attempts + 1,
        d.heartbeats) := by
  obtain ⟨c, hc⟩ := exists_client_of_isSome hs
  have hcd : c.connected = false := by simpa [isConnected, hc] using hd
  cases ha : env.accept with
  | true =>
    rw [connect_accepted env d c hc hcd ha]
    have e1 : (Packet.publish d.uplinkTopic (helloDoc env d) false).isHeartbeat = false := rfl
    have e2 : (Packet.publish d.statusTopic (statusDoc env "online" d) true).isHeartbeat = false :=
      rfl
    have e3 : (Packet.subscribe d.downlinkTopic MQTT_QOS).isHeartbeat = false := rfl
    have e4 : (Packet.connect ("ESP32-" ++ d.deviceUUID ++ "-" ++ hexString (env.rnd % 65535))
        (cString d.config.brokerHost) c.port none).isHeartbeat = false := rfl
    simp [observed, isConnected, attempts, heartbeats, sent, hc, List.countP_append,
      List.countP_cons, Packet.isConnect, e1, e2, e3, e4]
  | false =>
    rw [connect_refused env d c hc hcd ha]
    simp [observed, isConnected, attempts, heartbeats, sent, hc, hcd, List.countP_append,
      List.countP_cons, Packet.isConnect, Packet.isHeartbeat]

theorem observed_handleReconnection (env : Platform) (d : MQTTRelay)
    (hs : d.mqttClient.isSome = true) (hd : d.isConnected = false) :
    (handleReconnection env d).observed =
      if ulongSub (millis env) d.lastReconnectAttempt < MQTT_RECONNECT_DELAY then d.observed
      else if d.reconnectAttempts ≥ MQTT_MAX_RECONNECT_ATTEMPTS then
        (d.reconnectAttempts, false, d.lastReconnectAttempt, d.lastHeartbeat, false, true,
          d.attempts, d.heartbeats)
      else
        (if env.accept then 0 else d.reconnectAttempts + 1, d.autoReconnect, millis env,
          d.lastHeartbeat, env.accept, true, d.attempts + 1, d.heartbeats) := by
  unfold handleReconnection
  simp only
  split
  · rfl
  · split
    · simp [observed, isConnected, attempts, heartbeats, sent] at hs hd ⊢
      exact ⟨hd, hs⟩
    · exact observed_connect env { d with lastReconnectAttempt := millis env } hs hd

theorem observed_heartbeat (env : Platform) (now : Nat) (d : MQTTRelay)
    (hd : d.isConnected = true) :
    ({ sendHeartbeat env d with lastHeartbeat := now } : MQTTRelay).observed =
      (d.reconnectAttempts, d.autoReconnect, d.lastReconnectAttempt, now, true, true,
        d.attempts, d.heartbeats + 1) := by
  have e : (Packet.publish d.uplinkTopic (heartbeatDoc env d) false).isHeartbeat = true := rfl
  unfold sendHeartbeat
  rw [hd, publish_eq_emit _ _ _ d hd]
  rcases d with ⟨_, _, _, _, _, _, _, _, _, _, _, _, mc, _⟩
  cases mc with
  | none => simp [isConnected] at hd
  | some c =>
    simp only [isConnected] at hd
    simp [observed, emit, onClient, isConnected, attempts, heartbeats, sent, hd,
      List.countP_append, List.countP_cons, Packet.isConnect, e]

end MQTTRelay

namespace MQTTRelay

/-- The object when `loop()` reaches the heartbeat test. -/
theorem observed_reconnect_stage (deserializeJson : Deserializer) (t : Tick) (d : MQTTRelay)
    (hs : d.mqttClient.isSome = true) :
    (if (!(clientLoop deserializeJson t d).isConnected &&
          (clientLoop deserializeJson t d).autoReconnect) = true
      then handleReconnection t.env (clientLoop deserializeJson t d)
      else clientLoop deserializeJson t d).observed =
      (if reconnectTried t d then (if t.env.accept then 0 else d.reconnectAttempts + 1)
        else d.reconnectAttempts,
       if reconnectDue t d && !decide (d.reconnectAttempts < MQTT_MAX_RECONNECT_ATTEMPTS)
        then false else d.autoReconnect,
       if reconnectTried t d then millis t.env else d.lastReconnectAttempt,
       d.lastHeartbeat,
       sessionAtHeartbeat t d, true,
       d.attempts + (if reconnectTried t d then 1 else 0),
       d.heartbeats) := by
  have h1 := observed_clientLoop deserializeJson t d
  generalize clientLoop deserializeJson t d = d1 at h1
  simp only [observed, Prod.mk.injEq] at h1
  obtain ⟨e1, e2, e3, e4, e5, e6, e7, e8⟩ := h1
  rw [hs] at e6
  split
  · rename_i hcond
    rw [e5, e2] at hcond
    simp only [Bool.and_eq_true, Bool.not_eq_true', ] at hcond
    obtain ⟨hup, har⟩ := hcond
    rw [observed_handleReconnection t.env d1 e6 (by rw [e5]; exact hup)]
    simp only [observed, e1, e2, e3, e4, e5, e6, e7, e8, reconnectTried, reconnectDue,
      sessionAtHeartbeat, delayElapsed, hup, har]
    by_cases hdelay : ulongSub (millis t.env) d.lastReconnectAttempt < MQTT_RECONNECT_DELAY
    · have hd' : ¬ (MQTT_RECONNECT_DELAY ≤ ulongSub (millis t.env) d.lastReconnectAttempt) := by
        omega
      simp [hdelay, hd']
    · have hd' : MQTT_RECONNECT_DELAY ≤ ulongSub (millis t.env) d.lastReconnectAttempt := by
        omega
      by_cases hcap : d.reconnectAttempts ≥ MQTT_MAX_RECONNECT_ATTEMPTS
      · have hcap' : ¬ d.reconnectAttempts < MQTT_MAX_RECONNECT_ATTEMPTS := by omega
        simp [hdelay, hd', hcap, hcap']
      · have hcap' : d.reconnectAttempts < MQTT_MAX_RECONNECT_ATTEMPTS := by omega
        simp [hdelay, hd', hcap, hcap']
  · rename_i hcond
    rw [e5, e2] at hcond
    have hdue : reconnectDue t d = false := by
      unfold reconnectDue
      cases hup : sessionUp t d <;> cases har : d.autoReconnect <;> simp_all
    simp [observed, e1, e2, e3, e4, e5, e6, e7, e8, reconnectTried, sessionAtHeartbeat, hdue]

end MQTTRelay

namespace MQTTRelay

/-- One pass of `loop()` on an object whose client exists, in terms of what is observed. -/
theorem observed_loop (deserializeJson : Deserializer) (t : Tick) (d : MQTTRelay)
    (hs : d.mqttClient.isSome = true) :
    (loop deserializeJson t d).observed =
      (if reconnectTried t d then (if t.env.accept then 0 else d.reconnectAttempts + 1)
        else d.reconnectAttempts,
       if reconnectDue t d && !decide (d.reconnectAttempts < MQTT_MAX_RECONNECT_ATTEMPTS)
        then false else d.autoReconnect,
       if reconnectTried t d then millis t.env else d.lastReconnectAttempt,
       if heartbeatDue t d then millis t.env else d.lastHeartbeat,
       sessionAtHeartbeat t d, true,
       d.attempts + (if reconnectTried t d then 1 else 0),
       d.heartbeats + (if heartbeatDue t d then 1 else 0)) := by
  obtain ⟨c, hc⟩ := exists_client_of_isSome hs
  have h2 := observed_reconnect_stage deserializeJson t d hs
  unfold loop
  simp only [hc]
  generalize (if (!(clientLoop deserializeJson t d).isConnected &&
          (clientLoop deserializeJson t d).autoReconnect) = true
      then handleReconnection t.env (clientLoop deserializeJson t d)
      else clientLoop deserializeJson t d) = d2 at h2 ⊢
  simp only [observed, Prod.mk.injEq] at h2
  obtain ⟨e1, e2, e3, e4, e5, e6, e7, e8⟩ := h2
  split
  · rename_i hcond
    simp only [Bool.and_eq_true, decide_eq_true_eq] at hcond
    obtain ⟨hconn, hgt⟩ := hcond
    rw [observed_heartbeat t.env (millis t.env) d2 hconn]
    have hdue : heartbeatDue t d = true := by
      unfold heartbeatDue
      rw [← e5, hconn, ← e4]
      simpa using hgt
    simp only [hdue, e1, e2, e3, e7, e8, if_true, ← e5, hconn]
  · rename_i hcond
    have hdue : heartbeatDue t d = false := by
      unfold heartbeatDue
      rw [← e5, ← e4]
      cases hconn : d2.isConnected
      · rfl
      · simp only [hconn, Bool.true_and, decide_eq_false_iff_not]
        intro hgt
        apply hcond
        simp [hconn, hgt]
    simp [observed, hdue, e1, e2, e3, e4, e5, e6, e7, e8]

end MQTTRelay

/-! ## Reconnection policy: claims C6 and C7 -/

namespace MQTTRelay

theorem loop_of_no_client (deserializeJson : Deserializer) (t : Tick) (d : MQTTRelay)
    (hs : d.mqttClient.isSome = false) : loop deserializeJson t d = d := by
  unfold loop
  cases h : d.mqttClient with
  | none => rfl
  | some c => rw [h] at hs; cases hs

theorem run_cons (deserializeJson : Deserializer) (t : Tick) (ts : List Tick) (d : MQTTRelay) :
    run deserializeJson (t :: ts) d = run deserializeJson ts (loop deserializeJson t d) := rfl

theorem run_nil (deserializeJson : Deserializer) (d : MQTTRelay) :
    run deserializeJson [] d = d := rfl

/-- Once auto-reconnect is off, a pass of `loop()` keeps it off and issues no connection
request. -/
theorem loop_autoReconnect_off (deserializeJson : Deserializer) (t : Tick) (d : MQTTRelay)
    (hoff : d.autoReconnect = false) :
    (loop deserializeJson t d).autoReconnect = false ∧
      (loop deserializeJson t d).attempts = d.attempts := by
  cases hs : d.mqttClient.isSome with
  | false => rw [loop_of_no_client _ _ _ hs]; exact ⟨hoff, rfl⟩
  | true =>
    have h := observed_loop deserializeJson t d hs
    simp only [observed, Prod.mk.injEq] at h
    obtain ⟨_, e2, _, _, _, _, e7, _⟩ := h
    have hdue : reconnectDue t d = false := by simp [reconnectDue, hoff]
    rw [e2, e7]
    simp [reconnectTried, hdue, hoff]

theorem run_autoReconnect_off (deserializeJson : Deserializer) (ts : List Tick) :
    ∀ d : MQTTRelay, d.autoReconnect = false →
      (run deserializeJson ts d).autoReconnect = false ∧
        (run deserializeJson ts d).attempts = d.attempts := by
  induction ts with
  | nil => intro d h; exact ⟨h, rfl⟩
  | cons t ts ih =>
    intro d h
    obtain ⟨h1, h2⟩ := loop_autoReconnect_off deserializeJson t d h
    obtain ⟨h3, h4⟩ := ih _ h1
    rw [run_cons]
    exact ⟨h3, by rw [h4, h2]⟩

/-- C6: on an object whose client exists, a pass of `loop()` issues a connection request
(exactly one) if and only if the session is down when `loop()` tests it, `autoReconnect` is
true, `now - lastReconnectAttempt >= MQTT_RECONNECT_DELAY` (5000, unsigned 32-bit
difference) and `reconnectAttempts < MQTT_MAX_RECONNECT_ATTEMPTS` (10); a pass that meets the
first three conditions with `reconnectAttempts >= 10` switches `autoReconnect` off and issues
no request; and once `autoReconnect` is false no sequence of passes issues a request or
switches it back on. -/
theorem loop_reconnect_policy (deserializeJson : Deserializer) (t : Tick) (d : MQTTRelay) :
    (d.mqttClient.isSome = true →
      ((loop deserializeJson t d).attempts = d.attempts + 1 ↔
        (sessionUp t d = false ∧ d.autoReconnect = true ∧
          MQTT_RECONNECT_DELAY ≤ ulongSub (millis t.env) d.lastReconnectAttempt ∧
          d.reconnectAttempts < MQTT_MAX_RECONNECT_ATTEMPTS)) ∧
      ((loop deserializeJson t d).attempts = d.attempts ∨
        (loop deserializeJson t d).attempts = d.attempts + 1) ∧
      (sessionUp t d = false → d.autoReconnect = true →
        MQTT_RECONNECT_DELAY ≤ ulongSub (millis t.env) d.lastReconnectAttempt →
        MQTT_MAX_RECONNECT_ATTEMPTS ≤ d.reconnectAttempts →
        (loop deserializeJson t d).autoReconnect = false ∧
          (loop deserializeJson t d).attempts = d.attempts)) ∧
    (d.autoReconnect = false → ∀ ts : List Tick,
      (run deserializeJson ts d).attempts = d.attempts ∧
        (run deserializeJson ts d).autoReconnect = false) := by
  refine ⟨fun hs => ?_, fun hoff ts => ?_⟩
  · have h := observed_loop deserializeJson t d hs
    simp only [observed, Prod.mk.injEq] at h
    obtain ⟨_, e2, _, _, _, _, e7, _⟩ := h
    have htried : reconnectTried t d = true ↔
        (sessionUp t d = false ∧ d.autoReconnect = true ∧
          MQTT_RECONNECT_DELAY ≤ ulongSub (millis t.env) d.lastReconnectAttempt ∧
          d.reconnectAttempts < MQTT_MAX_RECONNECT_ATTEMPTS) := by
      simp [reconnectTried, reconnectDue, delayElapsed, and_assoc]
    refine ⟨?_, ?_, ?_⟩
    · rw [e7, ← htried]
      cases reconnectTried t d <;> simp
    · rw [e7]
      cases reconnectTried t d <;> simp
    · intro h1 h2 h3 h4
      have hdue : reconnectDue t d = true := by
        simp [reconnectDue, delayElapsed, h1, h2, h3]
      have hcap : ¬ d.reconnectAttempts < MQTT_MAX_RECONNECT_ATTEMPTS := by omega
      rw [e2, e7]
      simp [reconnectTried, hdue, hcap]
  · obtain ⟨h1, h2⟩ := run_autoReconnect_off deserializeJson ts d hoff
    exact ⟨h2, h1⟩

end MQTTRelay

namespace MQTTRelay

/-- C6 at the object after `begin()`: the pass at 6000 ms issues a connection request; with
the counter at the cap the pass switches auto-reconnect off instead; and with auto-reconnect
off two later passes issue nothing. -/
theorem loop_reconnect_policy_witness :
    (loop sampleParser (sampleTick 6000 false) sampleBegun).attempts = sampleBegun.attempts + 1 ∧
    ((loop sampleParser (sampleTick 6000 false)
        { sampleBegun with reconnectAttempts := 10 }).autoReconnect = false ∧
      (loop sampleParser (sampleTick 6000 false)
        { sampleBegun with reconnectAttempts := 10 }).attempts =
        ({ sampleBegun with reconnectAttempts := 10 } : MQTTRelay).attempts) ∧
    (run sampleParser [sampleTick 6000 true, sampleTick 20000 true]
        { sampleBegun with autoReconnect := false }).attempts =
      ({ sampleBegun with autoReconnect := false } : MQTTRelay).attempts :=
  ⟨((loop_reconnect_policy sampleParser (sampleTick 6000 false) sampleBegun).1 (by decide)).1.mpr
      (by decide),
   ((loop_reconnect_policy sampleParser (sampleTick 6000 false)
      { sampleBegun with reconnectAttempts := 10 }).1 (by decide)).2.2
      (by decide) (by decide) (by decide) (by decide),
   ((loop_reconnect_policy sampleParser (sampleTick 6000 false)
      { sampleBegun with autoReconnect := false }).2 (by decide)
      [sampleTick 6000 true, sampleTick 20000 true]).1⟩

theorem observed_begin (env : Platform) (d : MQTTRelay) :
    (begin env d).1 = true ∧
    (begin env d).2.observed =
      (d.reconnectAttempts, d.autoReconnect, d.lastReconnectAttempt, d.lastHeartbeat, false,
        true, 0, 0) := by
  constructor
  · rfl
  · unfold begin setupLastWill driveRelay loadRelayState loadConfig
    simp only
    split <;> rfl

theorem observed_new (relayPin : Nat) (deviceUUID deviceName : String) (uninit : MQTTConfig)
    (board : Board) :
    (MQTTRelay.new relayPin deviceUUID deviceName uninit board).observed =
      (0, true, 0, 0, false, false, 0, 0) := rfl

theorem observed_initializeMQTTRelay (envBegin envConnect : Platform) (relayPin : Nat)
    (deviceUUID deviceName : String) (uninit : MQTTConfig) (board : Board) :
    (initializeMQTTRelay envBegin envConnect relayPin deviceUUID deviceName uninit board).observed
      = (if envConnect.accept then 0 else 1, true, 0, 0, envConnect.accept, true, 1, 0) := by
  unfold initializeMQTTRelay
  have hb := observed_begin envBegin (MQTTRelay.new relayPin deviceUUID deviceName uninit board)
  obtain ⟨hb1, hb2⟩ := hb
  simp only [hb1, if_true]
  generalize (begin envBegin (MQTTRelay.new relayPin deviceUUID deviceName uninit board)).2 = d1
    at hb2
  simp only [observed, Prod.mk.injEq] at hb2
  obtain ⟨e1, e2, e3, e4, e5, e6, e7, e8⟩ := hb2
  rw [observed_connect envConnect d1 e6 e5, e1, e2, e3, e4, e7, e8]
  rfl

/-- The attempt counter stays within the cap over one pass of `loop()`. -/
theorem loop_keeps_cap (deserializeJson : Deserializer) (t : Tick) (d : MQTTRelay)
    (hs : d.mqttClient.isSome = true) (hcap : d.reconnectAttempts ≤ MQTT_MAX_RECONNECT_ATTEMPTS) :
    (loop deserializeJson t d).mqttClient.isSome = true ∧
      (loop deserializeJson t d).reconnectAttempts ≤ MQTT_MAX_RECONNECT_ATTEMPTS := by
  have h := observed_loop deserializeJson t d hs
  simp only [observed, Prod.mk.injEq] at h
  obtain ⟨e1, _, _, _, _, e6, _, _⟩ := h
  refine ⟨e6, ?_⟩
  rw [e1]
  cases htried : reconnectTried t d with
  | false => simpa using hcap
  | true =>
    have hlt : d.reconnectAttempts < MQTT_MAX_RECONNECT_ATTEMPTS := by
      simp [reconnectTried] at htried
      exact htried.2
    cases t.env.accept
    · simp only [if_true, Bool.false_eq_true, if_false]; omega
    · simp only [if_true]; decide

theorem run_keeps_cap (deserializeJson : Deserializer) (ts : List Tick) :
    ∀ d : MQTTRelay, d.mqttClient.isSome = true →
      d.reconnectAttempts ≤ MQTT_MAX_RECONNECT_ATTEMPTS →
      (run deserializeJson ts d).reconnectAttempts ≤ MQTT_MAX_RECONNECT_ATTEMPTS := by
  induction ts with
  | nil => intro d _ h; exact h
  | cons t ts ih =>
    intro d hs h
    obtain ⟨h1, h2⟩ := loop_keeps_cap deserializeJson t d hs h
    rw [run_cons]
    exact ih _ h1 h2

/-- C7: in every state reached by construction, `begin()`, the start-up `connect()` and then
any sequence of passes of `loop()` (any broker answers, link states, inbound messages and
clock values), `reconnectAttempts` is at most MQTT_MAX_RECONNECT_ATTEMPTS (10). -/
theorem reconnectAttempts_never_exceeds_cap (deserializeJson : Deserializer)
    (envBegin envConnect : Platform) (relayPin : Nat) (deviceUUID deviceName : String)
    (uninit : MQTTConfig) (board : Board) (ts : List Tick) :
    (MQTTRelay.new relayPin deviceUUID deviceName uninit board).reconnectAttempts
      ≤ MQTT_MAX_RECONNECT_ATTEMPTS ∧
    (begin envBegin (MQTTRelay.new relayPin deviceUUID deviceName uninit board)).2.reconnectAttempts
      ≤ MQTT_MAX_RECONNECT_ATTEMPTS ∧
    (run deserializeJson ts
      (initializeMQTTRelay envBegin envConnect relayPin deviceUUID deviceName uninit
        board)).reconnectAttempts ≤ MQTT_MAX_RECONNECT_ATTEMPTS := by
  have h0 : (MQTTRelay.new relayPin deviceUUID deviceName uninit board).reconnectAttempts
      ≤ MQTT_MAX_RECONNECT_ATTEMPTS := by
    show (0 : Int) ≤ MQTT_MAX_RECONNECT_ATTEMPTS
    decide
  refine ⟨h0, ?_, ?_⟩
  · have h := (observed_begin envBegin
      (MQTTRelay.new relayPin deviceUUID deviceName uninit board)).2
    simp only [observed, Prod.mk.injEq] at h
    rw [h.1]
    exact h0
  · have h := observed_initializeMQTTRelay envBegin envConnect relayPin deviceUUID deviceName
      uninit board
    simp only [observed, Prod.mk.injEq] at h
    obtain ⟨e1, _, _, _, _, e6, _, _⟩ := h
    apply run_keeps_cap deserializeJson ts _ e6
    rw [e1]
    cases envConnect.accept <;> decide

end MQTTRelay

/-! ## Heartbeats: claim C9 -/

/-- With a clock that has not gone backwards, an `unsigned long` difference above the
heartbeat interval means that at least the interval has passed. -/
theorem ulongSub_gap (prev now : Nat) (hle : prev ≤ now)
    (h : HEARTBEAT_INTERVAL < ulongSub (now % ULONG_RANGE) (prev % ULONG_RANGE)) :
    prev + HEARTBEAT_INTERVAL ≤ now := by
  unfold ulongSub ULONG_RANGE HEARTBEAT_INTERVAL at *
  omega

namespace MQTTRelay

theorem emitsHeartbeat_spec (deserializeJson : Deserializer) (t : Tick) (d : MQTTRelay) :
    (emitsHeartbeat deserializeJson t d = true →
      d.mqttClient.isSome = true ∧ heartbeatDue t d = true ∧
        (loop deserializeJson t d).isConnected = true ∧
        (loop deserializeJson t d).lastHeartbeat = millis t.env) ∧
    (emitsHeartbeat deserializeJson t d = false →
      (loop deserializeJson t d).lastHeartbeat = d.lastHeartbeat) := by
  unfold emitsHeartbeat
  cases hs : d.mqttClient.isSome with
  | false =>
    rw [loop_of_no_client _ _ _ hs]
    simp
  | true =>
    have h := observed_loop deserializeJson t d hs
    simp only [observed, Prod.mk.injEq] at h
    obtain ⟨_, _, _, e4, e5, _, _, e8⟩ := h
    rw [e4, e5, e8]
    cases hdue : heartbeatDue t d with
    | false => simp
    | true =>
      have hconn : sessionAtHeartbeat t d = true := by
        unfold heartbeatDue at hdue
        simp only [Bool.and_eq_true] at hdue
        exact hdue.1
      simp [hconn]

/-- Heartbeat times of a run, seen from the time stamp of the last heartbeat. -/
theorem heartbeatTimes_chain (deserializeJson : Deserializer) (ts : List Tick) :
    ∀ (d : MQTTRelay) (prev : Nat), d.lastHeartbeat = prev % ULONG_RANGE →
      (∀ t ∈ ts, prev ≤ t.env.now) →
      (ts.map (fun t => t.env.now)).Pairwise (fun a b => a ≤ b) →
      List.Chain (fun a b => a + HEARTBEAT_INTERVAL ≤ b) prev
        (heartbeatTimes deserializeJson ts d) := by
  induction ts with
  | nil => intro d prev _ _ _; exact List.Chain.nil
  | cons t ts ih =>
    intro d prev hlast hprev hmono
    simp only [List.map_cons, List.pairwise_cons, List.mem_map, forall_exists_index, and_imp,
      forall_apply_eq_imp_iff₂] at hmono
    obtain ⟨hhead, htail⟩ := hmono
    obtain ⟨hyes, hno⟩ := emitsHeartbeat_spec deserializeJson t d
    unfold heartbeatTimes
    cases hem : emitsHeartbeat deserializeJson t d with
    | true =>
      obtain ⟨_, hdue, _, hlast'⟩ := hyes hem
      simp only [if_true, List.singleton_append]
      refine List.Chain.cons ?_ (ih _ t.env.now hlast' hhead htail)
      apply ulongSub_gap prev t.env.now (hprev t (List.mem_cons_self _ _))
      unfold heartbeatDue at hdue
      simp only [Bool.and_eq_true, decide_eq_true_eq] at hdue
      have h2 := hdue.2
      rw [hlast] at h2
      exact h2
    | false =>
      simp only [Bool.false_eq_true, if_false, List.nil_append]
      exact ih _ prev ((hno hem).trans hlast)
        (fun x hx => hprev x (List.mem_cons_of_mem _ hx)) htail

theorem heartbeatTimes_chainStart (deserializeJson : Deserializer) (ts : List Tick) :
    ∀ d : MQTTRelay, (ts.map (fun t => t.env.now)).Pairwise (fun a b => a ≤ b) →
      List.Chain' (fun a b => a + HEARTBEAT_INTERVAL ≤ b) (heartbeatTimes deserializeJson ts d) := by
  induction ts with
  | nil => intro d _; exact List.chain'_nil
  | cons t ts ih =>
    intro d hmono
    have hmono' := hmono
    simp only [List.map_cons, List.pairwise_cons, List.mem_map, forall_exists_index, and_imp,
      forall_apply_eq_imp_iff₂] at hmono'
    obtain ⟨hhead, htail⟩ := hmono'
    obtain ⟨hyes, _⟩ := emitsHeartbeat_spec deserializeJson t d
    unfold heartbeatTimes
    cases hem : emitsHeartbeat deserializeJson t d with
    | true =>
      obtain ⟨_, _, _, hlast'⟩ := hyes hem
      simp only [if_true, List.singleton_append]
      exact heartbeatTimes_chain deserializeJson ts _ t.env.now hlast' hhead htail
    | false =>
      simp only [Bool.false_eq_true, if_false, List.nil_append]
      exact ih _ htail

/-- C9: over passes of `loop()` with non-decreasing clock values, a pass that publishes a
heartbeat has the session connected (a pass in which the session is down when the heartbeat
test is reached publishes none), and the clock values of any two consecutive heartbeat
passes are at least HEARTBEAT_INTERVAL (30000 ms) apart. -/
theorem loop_heartbeat_spacing (deserializeJson : Deserializer) (ts : List Tick)
    (d : MQTTRelay) (hmono : (ts.map (fun t => t.env.now)).Pairwise (fun a b => a ≤ b)) :
    (∀ (t : Tick) (d' : MQTTRelay), emitsHeartbeat deserializeJson t d' = true →
      sessionAtHeartbeat t d' = true ∧ (loop deserializeJson t d').isConnected = true) ∧
    (∀ (t : Tick) (d' : MQTTRelay), sessionAtHeartbeat t d' = false →
      (loop deserializeJson t d').heartbeats = d'.heartbeats) ∧
    List.Chain' (fun a b => a + HEARTBEAT_INTERVAL ≤ b) (heartbeatTimes deserializeJson ts d) := by
  refine ⟨?_, ?_, heartbeatTimes_chainStart deserializeJson ts d hmono⟩
  · intro t d' hem
    obtain ⟨_, hdue, hconn, _⟩ := (emitsHeartbeat_spec deserializeJson t d').1 hem
    refine ⟨?_, hconn⟩
    unfold heartbeatDue at hdue
    simp only [Bool.and_eq_true] at hdue
    exact hdue.1
  · intro t d' hdown
    cases hs : d'.mqttClient.isSome with
    | false => rw [loop_of_no_client _ _ _ hs]
    | true =>
      have h := observed_loop deserializeJson t d' hs
      simp only [observed, Prod.mk.injEq] at h
      rw [h.2.2.2.2.2.2.2]
      simp [heartbeatDue, hdown]

/-- C9 on a run from the connected object with passes at 40000, 50000 and 80000 ms:
heartbeats go out in the first and the third pass. -/
theorem loop_heartbeat_spacing_witness :
    heartbeatTimes sampleParser
        [sampleTick 40000 true, sampleTick 50000 true, sampleTick 80000 true] sampleConnected =
      [40000, 80000] ∧
    List.Chain' (fun a b => a + HEARTBEAT_INTERVAL ≤ b)
      (heartbeatTimes sampleParser
        [sampleTick 40000 true, sampleTick 50000 true, sampleTick 80000 true] sampleConnected) :=
  ⟨by decide,
   (loop_heartbeat_spacing sampleParser
      [sampleTick 40000 true, sampleTick 50000 true, sampleTick 80000 true] sampleConnected
      (by decide)).2.2⟩

end MQTTRelay

/-! ## Last will: claim C10 -/

namespace MQTTRelay

/-- Whatever `connect()` issues carries no will. -/
theorem connect_issues_no_will (env : Platform) (d : MQTTRelay) :
    ∃ l : List Packet, (connect env d).2.sent = d.sent ++ l ∧
      (l.map Packet.will).all (fun w => w == none) = true := by
  cases hc : d.mqttClient with
  | none => exact ⟨[], by simp [connect, hc], rfl⟩
  | some c =>
    cases hd : c.connected with
    | true => exact ⟨[], by simp [connect, hc, hd], rfl⟩
    | false =>
      cases ha : env.accept with
      | true =>
        rw [connect_accepted env d c hc hd ha]
        refine ⟨[Packet.connect ("ESP32-" ++ d.deviceUUID ++ "-" ++ hexString (env.rnd % 65535))
              (cString d.config.brokerHost) c.port none,
             Packet.subscribe d.downlinkTopic MQTT_QOS,
             Packet.publish d.uplinkTopic (helloDoc env d) false,
             Packet.publish d.statusTopic (statusDoc env "online" d) true], ?_, rfl⟩
        simp only [sent, hc]
      | false =>
        rw [connect_refused env d c hc hd ha]
        refine ⟨[Packet.connect ("ESP32-" ++ d.deviceUUID ++ "-" ++ hexString (env.rnd % 65535))
              (cString d.config.brokerHost) c.port none], ?_, rfl⟩
        simp only [sent, hc]

/-- C10 (fails on the code): the connection request that `connect()` issues registers no
will.  `setupLastWill` builds the offline document and leaves the object as it was, and
`connect()` uses the overload without will arguments. -/
theorem connect_registers_no_will :
    (connect sampleEnv sampleBegun).2.sent =
      [Packet.connect "ESP32-WASA-AABBCCDDEEFF-1234" "192.168.0.109".toList 8883 none,
       Packet.subscribe "ControlDevice/Downlink/WASA-AABBCCDDEEFF" 1,
       Packet.publish "ControlDevice/Uplink/WASA-AABBCCDDEEFF"
         ⟨[("device_uuid", JsonValue.str "WASA-AABBCCDDEEFF"), ("message", JsonValue.str "hello"),
           ("device_name", JsonValue.str "WASA_Relay_DDEEFF"), ("state", JsonValue.str "off"),
           ("timestamp", JsonValue.str "1000")]⟩ false,
       Packet.publish "ControlDevice/Status/WASA-AABBCCDDEEFF"
         ⟨[("device_uuid", JsonValue.str "WASA-AABBCCDDEEFF"), ("status", JsonValue.str "online"),
           ("timestamp", JsonValue.str "1000")]⟩ true] ∧
    (∀ (env : Platform) (d : MQTTRelay), ∃ l : List Packet,
      (connect env d).2.sent = d.sent ++ l ∧ (l.map Packet.will).all (fun w => w == none) = true) ∧
    (∀ (env : Platform) (d : MQTTRelay), setupLastWill env d = d) := by
  refine ⟨by decide, connect_issues_no_will, fun _ _ => rfl⟩

end MQTTRelay

/-! ## Broker host at connection time: claim C11 -/

theorem cString_strncpy_ne_nil (dst : List Char) (src : String) (n : Nat) (hn : 0 < n)
    (hsrc : cString src.toList ≠ []) : cString (strncpy dst src n) ≠ [] := by
  unfold strncpy
  cases hl : src.toList with
  | nil => rw [hl] at hsrc; exact absurd rfl hsrc
  | cons c rest =>
    rw [hl] at hsrc
    have hc : (c != NUL) = true := by
      by_contra h
      apply hsrc
      simp only [cString, List.takeWhile_cons]
      simp [h]
    obtain ⟨m, rfl⟩ : ∃ m, n = m + 1 := ⟨n - 1, by omega⟩
    simp only [List.cons_append, List.take_succ_cons, cString, List.takeWhile_cons, hc, if_true]
    exact List.cons_ne_nil _ _

namespace MQTTRelay

theorem hostStep_refl (d : MQTTRelay) : HostStep d d :=
  ⟨rfl, [], by simp, by simp⟩

theorem hostStep_trans {a b c : MQTTRelay} (h1 : HostStep a b) (h2 : HostStep b c) :
    HostStep a c := by
  obtain ⟨e1, l1, hl1, hh1⟩ := h1
  obtain ⟨e2, l2, hl2, hh2⟩ := h2
  refine ⟨e2.trans e1, l1 ++ l2, by rw [hl2, hl1, List.append_assoc], ?_⟩
  intro h hh
  rcases List.mem_append.1 hh with hh | hh
  · exact hh1 h hh
  · rw [← e1]; exact hh2 h hh

theorem hostStep_of_eq {d d' : MQTTRelay} (hc : d'.config = d.config) (hs : d'.sent = d.sent) :
    HostStep d d' :=
  ⟨by rw [hc], [], by simp [connectHosts, hs], by simp⟩

theorem hostStep_emit (p : Packet) (d : MQTTRelay) (hp : p.host = none) :
    HostStep d (d.emit p) := by
  have hcfg : (d.emit p).config = d.config := by
    rcases d with ⟨_, _, _, _, _, _, _, _, _, _, _, _, mc, _⟩
    cases mc <;> rfl
  obtain ⟨l, hl, hcase⟩ := sent_emit_of_disconnected p d
  refine ⟨by rw [hcfg], [], ?_, by simp⟩
  rcases hcase with h | h <;> subst h <;>
    simp [connectHosts, hl, List.filterMap_append, hp]

theorem hostStep_sendAck (env : Platform) (cmd : String) (ok : Bool) (st : Option String)
    (d : MQTTRelay) : HostStep d (sendAck env cmd ok st d) := by
  rcases sendAck_cases env cmd ok st d with h | h
  · rw [h]; exact hostStep_refl _
  · rw [h]; exact hostStep_emit _ _ rfl

theorem hostStep_setRelayState (env : Platform) (b save : Bool) (d : MQTTRelay) :
    HostStep d (setRelayState env b save d).2 := by
  apply hostStep_of_eq
  · unfold MQTTRelay.setRelayState
    split
    · rfl
    · cases save <;> rfl
  · exact setRelayState_sent env b save d

theorem hostStep_processCommand (env : Platform) (c : JsonDocument) (d : MQTTRelay) :
    HostStep d (processCommand env c d) := by
  unfold MQTTRelay.processCommand
  cases hcmd : c.cstr "command" with
  | none =>
    simp only
    split <;> exact hostStep_refl _
  | some cmd =>
    simp only
    by_cases h1 : cmd = "set_state"
    · rw [if_pos h1]
      cases hst : c.cstr "state" with
      | none => exact hostStep_sendAck _ _ _ _ _
      | some st =>
        simp only
        generalize (if st = "on" then some true else if st = "off" then some false else none) = o
        cases o with
        | none => exact hostStep_sendAck _ _ _ _ _
        | some b =>
          simp only [setRelayState_fst, if_true]
          exact hostStep_trans (hostStep_setRelayState env b true d) (hostStep_sendAck _ _ _ _ _)
    · rw [if_neg h1]
      split <;> exact hostStep_sendAck _ _ _ _ _

theorem hostStep_handleMessage (deserializeJson : Deserializer) (env : Platform) (topic : String)
    (payload : List Char) (d : MQTTRelay) :
    HostStep d (handleMessage deserializeJson env topic payload d) := by
  unfold MQTTRelay.handleMessage
  simp only
  split
  · exact hostStep_refl _
  · exact hostStep_processCommand _ _ _

theorem hostStep_foldl_handleMessage (deserializeJson : Deserializer) (env : Platform)
    (ms : List (String × List Char)) :
    ∀ d : MQTTRelay,
      HostStep d (ms.foldl (fun d m => MQTTRelay.handleMessage deserializeJson env m.1 m.2 d) d) := by
  induction ms with
  | nil => intro d; exact hostStep_refl _
  | cons m ms ih =>
    intro d
    rw [List.foldl_cons]
    exact hostStep_trans (hostStep_handleMessage deserializeJson env m.1 m.2 d) (ih _)

theorem hostStep_clientLoop (deserializeJson : Deserializer) (t : Tick) (d : MQTTRelay) :
    HostStep d (clientLoop deserializeJson t d) := by
  have hpoll : HostStep d (d.onClient (PubSubClient.poll t.linkUp)) := by
    rcases d with ⟨_, _, _, _, _, _, _, _, _, _, _, _, mc, _⟩
    cases mc <;> exact hostStep_of_eq rfl rfl
  unfold MQTTRelay.clientLoop
  simp only
  split
  · exact hostStep_trans hpoll (hostStep_foldl_handleMessage _ _ _ _)
  · exact hpoll

theorem hostStep_connect (env : Platform) (d : MQTTRelay) : HostStep d (connect env d).2 := by
  cases hc : d.mqttClient with
  | none =>
    have : (MQTTRelay.connect env d).2 = d := by simp [MQTTRelay.connect, hc]
    rw [this]; exact hostStep_refl _
  | some c =>
    cases hd : c.connected with
    | true =>
      have : (MQTTRelay.connect env d).2 = d := by simp [MQTTRelay.connect, hc, hd]
      rw [this]; exact hostStep_refl _
    | false =>
      cases ha : env.accept with
      | true =>
        rw [connect_accepted env d c hc hd ha]
        refine ⟨rfl, [cString d.config.brokerHost], ?_, by simp⟩
        simp [connectHosts, sent, hc, List.filterMap_append, Packet.host]
      | false =>
        rw [connect_refused env d c hc hd ha]
        refine ⟨rfl, [cString d.config.brokerHost], ?_, by simp⟩
        simp [connectHosts, sent, hc, List.filterMap_append, Packet.host]

theorem hostStep_handleReconnection (env : Platform) (d : MQTTRelay) :
    HostStep d (handleReconnection env d) := by
  unfold MQTTRelay.handleReconnection
  simp only
  split
  · exact hostStep_refl _
  · split
    · exact hostStep_of_eq rfl rfl
    · have h1 : HostStep d { d with lastReconnectAttempt := millis env } := hostStep_of_eq rfl rfl
      exact hostStep_trans h1 (hostStep_connect env _)

theorem hostStep_sendHeartbeat (env : Platform) (now : Nat) (d : MQTTRelay) :
    HostStep d { sendHeartbeat env d with lastHeartbeat := now } := by
  have h1 : HostStep d (MQTTRelay.sendHeartbeat env d) := by
    unfold MQTTRelay.sendHeartbeat
    cases hc : d.isConnected with
    | false => simp; exact hostStep_refl _
    | true =>
      simp only [Bool.not_true, Bool.false_eq_true, if_false]
      rw [publish_eq_emit _ _ _ d hc]
      exact hostStep_emit _ _ rfl
  exact hostStep_trans h1 (hostStep_of_eq rfl rfl)

theorem hostStep_loop (deserializeJson : Deserializer) (t : Tick) (d : MQTTRelay) :
    HostStep d (loop deserializeJson t d) := by
  unfold MQTTRelay.loop
  cases hc : d.mqttClient with
  | none => exact hostStep_refl _
  | some c =>
    simp only
    have h1 := hostStep_clientLoop deserializeJson t d
    have h2 : HostStep d
        (if (!(clientLoop deserializeJson t d).isConnected &&
            (clientLoop deserializeJson t d).autoReconnect) = true
          then handleReconnection t.env (clientLoop deserializeJson t d)
          else clientLoop deserializeJson t d) := by
      split
      · exact hostStep_trans h1 (hostStep_handleReconnection _ _)
      · exact h1
    generalize (if (!(clientLoop deserializeJson t d).isConnected &&
            (clientLoop deserializeJson t d).autoReconnect) = true
          then handleReconnection t.env (clientLoop deserializeJson t d)
          else clientLoop deserializeJson t d) = d2 at h2 ⊢
    split
    · exact hostStep_trans h2 (hostStep_sendHeartbeat _ _ _)
    · exact h2

end MQTTRelay

namespace MQTTRelay

theorem begin_host (env : Platform) (d : MQTTRelay) :
    (begin env d).2.config.brokerHost = d.config.brokerHost ∧ (begin env d).2.connectHosts = [] := by
  unfold MQTTRelay.begin setupLastWill driveRelay loadRelayState loadConfig
  simp only
  split <;> exact ⟨rfl, rfl⟩

theorem setBrokerConfig_host (env : Platform) (host : String) (port : Int) (useSSL : Bool)
    (d : MQTTRelay) :
    (setBrokerConfig env host port useSSL d).config.brokerHost =
        strncpy d.config.brokerHost host (64 - 1) ∧
      (setBrokerConfig env host port useSSL d).connectHosts = d.connectHosts :=
  ⟨rfl, rfl⟩

/-- The host is non-empty and so is the host of every connection request issued so far. -/
theorem call_keeps_host (deserializeJson : Deserializer) (c : RelayCall) (d : MQTTRelay)
    (hgiven : c.hostGiven = true)
    (hinv : cString d.config.brokerHost ≠ [] ∧ ∀ h ∈ d.connectHosts, h ≠ []) :
    cString (call deserializeJson c d).config.brokerHost ≠ [] ∧
      ∀ h ∈ (call deserializeJson c d).connectHosts, h ≠ [] := by
  have hstep : ∀ d' : MQTTRelay, HostStep d d' →
      cString d'.config.brokerHost ≠ [] ∧ ∀ h ∈ d'.connectHosts, h ≠ [] := by
    intro d' ⟨e, l, hl, hh⟩
    refine ⟨by rw [e]; exact hinv.1, ?_⟩
    intro h hmem
    rw [hl] at hmem
    rcases List.mem_append.1 hmem with hm | hm
    · exact hinv.2 h hm
    · rw [hh h hm]; exact hinv.1
  cases c with
  | begin env =>
    obtain ⟨h1, h2⟩ := begin_host env d
    refine ⟨?_, ?_⟩
    · show cString (MQTTRelay.begin env d).2.config.brokerHost ≠ []
      rw [h1]; exact hinv.1
    · show ∀ h ∈ (MQTTRelay.begin env d).2.connectHosts, h ≠ []
      rw [h2]; simp
  | setBrokerConfig env host port useSSL =>
    obtain ⟨h1, h2⟩ := setBrokerConfig_host env host port useSSL d
    refine ⟨?_, ?_⟩
    · show cString (MQTTRelay.setBrokerConfig env host port useSSL d).config.brokerHost ≠ []
      rw [h1]
      apply cString_strncpy_ne_nil _ _ _ (by decide)
      simpa [RelayCall.hostGiven] using hgiven
    · show ∀ h ∈ (MQTTRelay.setBrokerConfig env host port useSSL d).connectHosts, h ≠ []
      rw [h2]; exact hinv.2
  | connect env => exact hstep _ (hostStep_connect env d)
  | loop t => exact hstep _ (hostStep_loop deserializeJson t d)

theorem calls_keep_host (deserializeJson : Deserializer) (cs : List RelayCall) :
    ∀ d : MQTTRelay, (∀ c ∈ cs, c.hostGiven = true) →
      (cString d.config.brokerHost ≠ [] ∧ ∀ h ∈ d.connectHosts, h ≠ []) →
      cString (calls deserializeJson cs d).config.brokerHost ≠ [] ∧
        ∀ h ∈ (calls deserializeJson cs d).connectHosts, h ≠ [] := by
  induction cs with
  | nil => intro d _ h; exact h
  | cons c cs ih =>
    intro d hcs hinv
    show cString (calls deserializeJson cs (call deserializeJson c d)).config.brokerHost ≠ [] ∧ _
    exact ih _ (fun x hx => hcs x (List.mem_cons_of_mem _ hx))
      (call_keeps_host deserializeJson c d (hcs c (List.mem_cons_self _ _)) hinv)

/-- C11, as it fails: `setBrokerConfig` stores the host it is given without a check, so after
`begin()`, `setBrokerConfig("", 1883, false)` and `connect()` the connection request names
an empty host. -/
theorem connect_with_empty_host :
    (calls sampleParser
      [RelayCall.begin sampleEnv, RelayCall.setBrokerConfig sampleEnv "" 1883 false,
        RelayCall.connect sampleEnv]
      (MQTTRelay.new 2 "WASA-AABBCCDDEEFF" "WASA_Relay_DDEEFF" sampleUninit sampleBoard)).connectHosts
      = [[]] := by
  decide

/-- C11, amended: from the constructed object, through any sequence of `begin()`,
`setBrokerConfig(host, port, useSSL)` with a non-empty host text, `connect()` and passes of
`loop()`, the configured broker host is non-empty and every connection request issued names
a non-empty host. -/
theorem connect_host_nonempty (deserializeJson : Deserializer) (cs : List RelayCall)
    (relayPin : Nat) (deviceUUID deviceName : String) (uninit : MQTTConfig) (board : Board)
    (hcs : ∀ c ∈ cs, c.hostGiven = true) :
    cString (calls deserializeJson cs
        (MQTTRelay.new relayPin deviceUUID deviceName uninit board)).config.brokerHost ≠ [] ∧
      ∀ h ∈ (calls deserializeJson cs
        (MQTTRelay.new relayPin deviceUUID deviceName uninit board)).connectHosts, h ≠ [] := by
  apply calls_keep_host deserializeJson cs _ hcs
  constructor
  · show cString (strncpy uninit.brokerHost MQTT_BROKER_HOST (64 - 1)) ≠ []
    exact cString_strncpy_ne_nil _ _ _ (by decide) (by decide)
  · intro h hmem
    simp [connectHosts, sent, MQTTRelay.new] at hmem

/-- C11 amended, at `begin()`, `setBrokerConfig("broker.local", 1883, false)`, a refused
`connect()` and a pass of `loop()` that reconnects. -/
theorem connect_host_nonempty_witness :
    (calls sampleParser
      [RelayCall.begin sampleEnv, RelayCall.setBrokerConfig sampleEnv "broker.local" 1883 false,
        RelayCall.connect sampleEnvRefused, RelayCall.loop (sampleTick 6000 true)]
      (MQTTRelay.new 2 "WASA-AABBCCDDEEFF" "WASA_Relay_DDEEFF" sampleUninit sampleBoard)).connectHosts
      = ["broker.local".toList, "broker.local".toList] ∧
    ∀ h ∈ (calls sampleParser
      [RelayCall.begin sampleEnv, RelayCall.setBrokerConfig sampleEnv "broker.local" 1883 false,
        RelayCall.connect sampleEnvRefused, RelayCall.loop (sampleTick 6000 true)]
      (MQTTRelay.new 2 "WASA-AABBCCDDEEFF" "WASA_Relay_DDEEFF" sampleUninit sampleBoard)).connectHosts,
      h ≠ [] :=
  ⟨by decide,
   (connect_host_nonempty sampleParser
      [RelayCall.begin sampleEnv, RelayCall.setBrokerConfig sampleEnv "broker.local" 1883 false,
        RelayCall.connect sampleEnvRefused, RelayCall.loop (sampleTick 6000 true)]
      2 "WASA-AABBCCDDEEFF" "WASA_Relay_DDEEFF" sampleUninit sampleBoard (by decide)).2⟩

end MQTTRelay

/-! ## Mode resolution of the portal: claim C14 -/

namespace OTADash

theorem count_beginAgain_note (ev : PortalEvent) (d : OTADash) (hev : ev ≠ PortalEvent.beginAgain) :
    (note ev d).log.count PortalEvent.beginAgain = d.log.count PortalEvent.beginAgain := by
  simp [note, List.count_append, List.count_cons, hev]

theorem readEEPROM_currentMode (d : OTADash) :
    (readEEPROM d).2.currentMode = d.currentMode ∧ (readEEPROM d).2.log = d.log := by
  unfold readEEPROM
  simp only
  split <;> exact ⟨rfl, rfl⟩

theorem readEEPROM_fst_mode (m : NetworkMode) (d : OTADash) :
    (readEEPROM { d with currentMode := m }).1 = (readEEPROM d).1 := by
  unfold readEEPROM
  simp only
  split <;> split <;> simp_all

theorem startAccessPoint_keeps (env : PortalEnv) (d : OTADash) :
    (startAccessPoint env d).2.currentMode = d.currentMode ∧
      (startAccessPoint env d).2.log.count PortalEvent.beginAgain =
        d.log.count PortalEvent.beginAgain := by
  simp [startAccessPoint, note, List.count_append, List.count_cons]

/-- The waiting loop of `connectToWifi` changes nothing but the record, to which it adds
its calls of `delay(500)`. -/
theorem connectWait_spec (env : PortalEnv) (timeout_ms : Nat) :
    ∀ (fuel elapsed : Nat) (d : OTADash), ∃ k,
      (connectWait env timeout_ms fuel elapsed d).2 =
        { d with log := d.log ++ List.replicate k (PortalEvent.delay 500) } := by
  intro fuel
  induction fuel with
  | zero => intro elapsed d; exact ⟨0, by simp [connectWait]⟩
  | succ fuel ih =>
    intro elapsed d
    unfold connectWait
    split
    · exact ⟨0, by simp⟩
    · split
      · exact ⟨0, by simp⟩
      · obtain ⟨k, hk⟩ := ih (elapsed + 500) (note (PortalEvent.delay 500) d)
        refine ⟨k + 1, ?_⟩
        rw [hk]
        simp [note, List.replicate_succ]

/-- One more round allowed does not change the result of the waiting loop, once the rounds
allowed cover the timeout. -/
theorem connectWait_fuel (env : PortalEnv) (timeout_ms : Nat) :
    ∀ (fuel elapsed : Nat) (d : OTADash), timeout_ms ≤ elapsed + 500 * fuel →
      connectWait env timeout_ms (fuel + 2) elapsed d =
        connectWait env timeout_ms (fuel + 1) elapsed d := by
  intro fuel
  induction fuel with
  | zero =>
    intro elapsed d h
    have hge : elapsed ≥ timeout_ms := by omega
    conv_lhs => rw [connectWait]
    conv_rhs => rw [connectWait]
    simp only [hge, if_true]
  | succ fuel ih =>
    intro elapsed d h
    conv_lhs => rw [connectWait]
    conv_rhs => rw [connectWait]
    split
    · rfl
    · split
      · rfl
      · exact ih (elapsed + 500) _ (by omega)

/-- The bound on the rounds that `connectToWifi` gives to its waiting loop is not reached:
any larger bound gives the same result. -/
theorem connectWait_enough (env : PortalEnv) (timeout_ms : Nat) (d : OTADash) (extra : Nat) :
    connectWait env timeout_ms (timeout_ms / 500 + 2 + extra) 0 d =
      connectWait env timeout_ms (timeout_ms / 500 + 2) 0 d := by
  induction extra with
  | zero => rfl
  | succ extra ih =>
    rw [← ih]
    have h := connectWait_fuel env timeout_ms (timeout_ms / 500 + 1 + extra) 0 d
      (by have := Nat.div_add_mod timeout_ms 500; have := Nat.mod_lt timeout_ms (by decide : 500 > 0); omega)
    have e1 : timeout_ms / 500 + 2 + (extra + 1) = timeout_ms / 500 + 1 + extra + 2 := by omega
    have e2 : timeout_ms / 500 + 2 + extra = timeout_ms / 500 + 1 + extra + 1 := by omega
    rw [e1, e2]
    exact h

theorem connectToWifi_spec (env : PortalEnv) (s p : String) (t : Nat) (d : OTADash) :
    ∃ k, (connectToWifi env s p t d).2 =
      if d.currentMode = NetworkMode.ACCESS_POINT then d
      else { d with log := d.log ++
        PortalEvent.wifiBegin s p :: List.replicate k (PortalEvent.delay 500) } := by
  unfold connectToWifi
  by_cases hm : d.currentMode = NetworkMode.ACCESS_POINT
  · exact ⟨0, by simp [hm]⟩
  · obtain ⟨k, hk⟩ := connectWait_spec env t (t / 500 + 2) 0
      (note (PortalEvent.wifiBegin s p) d)
    refine ⟨k, ?_⟩
    rw [if_neg hm, if_neg hm, hk]
    simp [note]

theorem count_beginAgain_delays (k : Nat) :
    (List.replicate k (PortalEvent.delay 500)).count PortalEvent.beginAgain = 0 := by
  rw [List.count_replicate]
  simp

theorem connectToWifi_keeps (env : PortalEnv) (s p : String) (t : Nat) (d : OTADash) :
    (connectToWifi env s p t d).2.currentMode = d.currentMode ∧
      (connectToWifi env s p t d).2.log.count PortalEvent.beginAgain =
        d.log.count PortalEvent.beginAgain := by
  obtain ⟨k, hk⟩ := connectToWifi_spec env s p t d
  rw [hk]
  split
  · exact ⟨rfl, rfl⟩
  · refine ⟨rfl, ?_⟩
    simp [List.count_append, List.count_cons, count_beginAgain_delays]

theorem startStation_keeps (env : PortalEnv) (d : OTADash) :
    (startStation env d).2.currentMode = d.currentMode ∧
      (startStation env d).2.log.count PortalEvent.beginAgain =
        d.log.count PortalEvent.beginAgain := by
  unfold startStation
  simp only
  obtain ⟨h1, h2⟩ := connectToWifi_keeps env
    (String.mk (note (PortalEvent.wifiMode WifiMode.WIFI_STA) d).networkCredentials.ssid)
    (String.mk (note (PortalEvent.wifiMode WifiMode.WIFI_STA) d).networkCredentials.password)
    20000 (note (PortalEvent.wifiMode WifiMode.WIFI_STA) d)
  rw [h1, h2]
  simp [note, List.count_append, List.count_cons]

theorem startDualMode_keeps (env : PortalEnv) (d : OTADash) :
    (startDualMode env d).2.currentMode = d.currentMode ∧
      (startDualMode env d).2.log.count PortalEvent.beginAgain =
        d.log.count PortalEvent.beginAgain := by
  unfold startDualMode
  simp only
  split <;>
  · simp only
    obtain ⟨h1, h2⟩ := connectToWifi_keeps env
      (note (PortalEvent.softAP ((note (PortalEvent.wifiMode WifiMode.WIFI_AP_STA) d).ssid ++ "_AP")
        (note (PortalEvent.wifiMode WifiMode.WIFI_AP_STA) d).password)
        (note (PortalEvent.wifiMode WifiMode.WIFI_AP_STA) d)).ssid
      (note (PortalEvent.softAP ((note (PortalEvent.wifiMode WifiMode.WIFI_AP_STA) d).ssid ++ "_AP")
        (note (PortalEvent.wifiMode WifiMode.WIFI_AP_STA) d).password)
        (note (PortalEvent.wifiMode WifiMode.WIFI_AP_STA) d)).password
      20000
      (note (PortalEvent.softAP ((note (PortalEvent.wifiMode WifiMode.WIFI_AP_STA) d).ssid ++ "_AP")
        (note (PortalEvent.wifiMode WifiMode.WIFI_AP_STA) d).password)
        (note (PortalEvent.wifiMode WifiMode.WIFI_AP_STA) d))
    rw [h1, h2]
    simp [note, List.count_append, List.count_cons]

theorem beginServe_keeps (d : OTADash) :
    (beginServe d).currentMode = d.currentMode ∧
      (beginServe d).log.count PortalEvent.beginAgain = d.log.count PortalEvent.beginAgain := by
  unfold beginServe
  simp only
  split <;> simp [note, List.count_append, List.count_cons]

end OTADash

namespace OTADash

theorem beginMode_spec (mode : NetworkMode) (d : OTADash) :
    (beginMode mode d).currentMode = resolvedMode mode (readEEPROM d).1 ∧
      (beginMode mode d).log = d.log := by
  unfold beginMode
  simp only
  have hfst := readEEPROM_fst_mode mode d
  obtain ⟨hm, hl⟩ := readEEPROM_currentMode { d with currentMode := mode }
  cases mode <;> simp only [resolvedMode] <;>
    cases hv : (readEEPROM d).1 <;> rw [hv] at hfst <;> simp [hfst, hm, hl]

/-- What `begin(mode)` returns and dispatches on. -/
theorem begin_spec (fuel : Nat) (mode : NetworkMode) (env : PortalEnv) (d : OTADash) :
    ∃ d', begin (fuel + 1) mode env d = some d' ∧
      d'.currentMode = resolvedMode mode (readEEPROM d).1 ∧
      d'.currentMode ≠ NetworkMode.AUTO ∧
      (d'.currentMode = NetworkMode.ACCESS_POINT ∨ d'.currentMode = NetworkMode.STATION ∨
        d'.currentMode = NetworkMode.DUAL) ∧
      d'.log.count PortalEvent.beginAgain = d.log.count PortalEvent.beginAgain := by
  obtain ⟨hm, hl⟩ := beginMode_spec mode d
  have hres : resolvedMode mode (readEEPROM d).1 ≠ NetworkMode.AUTO ∧
      (resolvedMode mode (readEEPROM d).1 = NetworkMode.ACCESS_POINT ∨
        resolvedMode mode (readEEPROM d).1 = NetworkMode.STATION ∨
        resolvedMode mode (readEEPROM d).1 = NetworkMode.DUAL) := by
    cases mode <;> cases (readEEPROM d).1 <;> simp [resolvedMode]
  unfold begin
  simp only
  generalize beginMode mode d = d0 at hm hl
  rw [← hm] at hres
  rw [← hm, ← hl]
  rcases hres with ⟨hne, h | h | h⟩
  · rw [h]
    simp only
    obtain ⟨k1, k2⟩ := startAccessPoint_keeps env d0
    obtain ⟨k3, k4⟩ := beginServe_keeps (startAccessPoint env d0).2
    cases (startAccessPoint env d0).1
    · exact ⟨_, rfl, by rw [k1, h], by rw [k1, h]; decide, Or.inl (by rw [k1, h]), k2⟩
    · exact ⟨_, rfl, by rw [k3, k1, h], by rw [k3, k1, h]; decide, Or.inl (by rw [k3, k1, h]),
        by rw [k4, k2]⟩
  · rw [h]
    simp only
    obtain ⟨k1, k2⟩ := startStation_keeps env d0
    obtain ⟨k3, k4⟩ := beginServe_keeps (startStation env d0).2
    cases (startStation env d0).1
    · exact ⟨_, rfl, by rw [k1, h], by rw [k1, h]; decide, Or.inr (Or.inl (by rw [k1, h])), k2⟩
    · exact ⟨_, rfl, by rw [k3, k1, h], by rw [k3, k1, h]; decide,
        Or.inr (Or.inl (by rw [k3, k1, h])), by rw [k4, k2]⟩
  · rw [h]
    simp only
    obtain ⟨k1, k2⟩ := startDualMode_keeps env d0
    obtain ⟨k3, k4⟩ := beginServe_keeps (startDualMode env d0).2
    cases (startDualMode env d0).1
    · exact ⟨_, rfl, by rw [k1, h], by rw [k1, h]; decide, Or.inr (Or.inr (by rw [k1, h])), k2⟩
    · exact ⟨_, rfl, by rw [k3, k1, h], by rw [k3, k1, h]; decide,
        Or.inr (Or.inr (by rw [k3, k1, h])), by rw [k4, k2]⟩

/-- C14: for each of the four modes and any stored record, `begin(mode)` returns (with any
fuel above zero, so without a self-call), and `currentMode`, set once before the `switch`,
is AccessPoint for an AccessPoint request, Station for a Station or Auto request with valid
stored credentials, Dual for a Dual request with valid stored credentials, and AccessPoint
for a Station, Auto or Dual request without them; it is never Auto, it is exactly one of
AccessPoint, Station, Dual, and the self-call of the `default` branch is not made. -/
theorem begin_resolves_mode (fuel : Nat) (mode : NetworkMode) (env : PortalEnv) (d : OTADash) :
    ∃ d', begin (fuel + 1) mode env d = some d' ∧
      d'.currentMode = resolvedMode mode (readEEPROM d).1 ∧
      d'.currentMode ≠ NetworkMode.AUTO ∧
      (d'.currentMode = NetworkMode.ACCESS_POINT ∨ d'.currentMode = NetworkMode.STATION ∨
        d'.currentMode = NetworkMode.DUAL) ∧
      d'.log.count PortalEvent.beginAgain = d.log.count PortalEvent.beginAgain ∧
      (readEEPROM d).1 = decide ((readEEPROM d).2.networkCredentials.setuped = "true".toList) := by
  obtain ⟨d', h1, h2, h3, h4, h5⟩ := begin_spec fuel mode env d
  refine ⟨d', h1, h2, h3, h4, h5, ?_⟩
  unfold readEEPROM
  simp only
  split <;> simp_all

end OTADash

/-! ## Mode selection at start-up: claims C12 and C13 -/

theorem range_map_getD_length (n : Nat) (l : List Nat) :
    ((List.range n).map (fun i => l.getD i 255)).length = n := by
  simp

theorem EEPROM_read_region (e : EEPROMClass) (n : Nat) :
    (e.begin n).readAt 0 n = some ((List.range n).map (fun i => e.flash.getD i 255)) := by
  simp [EEPROMClass.readAt, EEPROMClass.read, EEPROMClass.begin]

namespace Firmware

theorem readCredentials_spec (f : Firmware) :
    (readCredentials f).1 =
        decide ((storedCredentials f.board.EEPROM).setuped = "true".toList) ∧
      (readCredentials f).2.trace = f.trace ∧
      (readCredentials f).2.otaDash = f.otaDash ∧
      (readCredentials f).2.mqttRelay = f.mqttRelay ∧
      (readCredentials f).2.otaModeActive = f.otaModeActive := by
  unfold readCredentials
  have h := EEPROM_read_region f.board.EEPROM SIZEOF_NetworkCredentials
  simp only [OTA_DASH_EEPROM_SIZE, OTA_DASH_EEPROM_ADDR, SIZEOF_NetworkCredentials] at h ⊢
  rw [h]
  exact ⟨rfl, rfl, rfl, rfl, rfl⟩

end Firmware

namespace Firmware

theorem connectToWiFi_spec (f : Firmware) :
    (connectToWiFi f).otaDash = f.otaDash ∧ (connectToWiFi f).mqttRelay = f.mqttRelay ∧
      (connectToWiFi f).otaModeActive = f.otaModeActive ∧
      (BootEvent.buttonChecked ∈ (connectToWiFi f).trace ↔ BootEvent.buttonChecked ∈ f.trace) := by
  unfold connectToWiFi
  split
  · simp only
    split <;> simp_all
  · simp only
    split <;> simp_all

/-- What `begin(ACCESS_POINT)` does: the radio is set to access-point mode and the access
point is requested with the portal's name and passphrase; when the platform brings it up,
the DNS responder, the web server and the ticker are started. -/
theorem portal_begin_accessPoint (fuel : Nat) (env : PortalEnv) (d : OTADash) :
    OTADash.begin (fuel + 1) NetworkMode.ACCESS_POINT env d =
      some { d with
        currentMode := NetworkMode.ACCESS_POINT
        serverStarted := d.serverStarted || env.softAPOk
        log := d.log ++
          [PortalEvent.wifiMode WifiMode.WIFI_AP, PortalEvent.softAP d.ssid d.password]
          ++ (if env.softAPOk then
                [PortalEvent.dnsStart, PortalEvent.serverBegin, PortalEvent.tickerAttach]
              else []) } := by
  unfold OTADash.begin
  cases h : env.softAPOk <;>
    simp [OTADash.beginMode, OTADash.startAccessPoint, OTADash.beginServe, OTADash.note, h]

theorem initializeOTAMode_spec (fuel : Nat) (env : BootEnv) (f : Firmware) :
    ∃ dash, initializeOTAMode (fuel + 1) env f =
        some { f with otaDash := some dash, otaModeActive := true } ∧
      dash.currentMode = NetworkMode.ACCESS_POINT ∧
      dash.log =
        [PortalEvent.wifiMode WifiMode.WIFI_AP, PortalEvent.softAP "Wasa_Controller" ""]
          ++ (if env.portal.softAPOk then
                [PortalEvent.dnsStart, PortalEvent.serverBegin, PortalEvent.tickerAttach]
              else []) ∧
      dash.serverStarted = env.portal.softAPOk := by
  have h1 := portal_begin_accessPoint fuel env.portal
    (OTADash.new "Wasa_Controller" "" "wasa_controller" "Wasa_Controller Portal"
      env.uninitCredentials f.board.EEPROM)
  cases hb : OTADash.begin (fuel + 1) NetworkMode.ACCESS_POINT env.portal
      (OTADash.new "Wasa_Controller" "" "wasa_controller" "Wasa_Controller Portal"
        env.uninitCredentials f.board.EEPROM) with
  | none => rw [h1] at hb; cases hb
  | some dash =>
    rw [h1] at hb
    have hd := (Option.some.inj hb).symm
    refine ⟨dash, ?_, ?_, ?_, ?_⟩
    · unfold initializeOTAMode
      simp only [h1, hb]
    · rw [hd]
    · rw [hd]; simp [OTADash.new]
    · rw [hd]; simp [OTADash.new]

/-- What `setup()` leaves, by the validity of the stored record and the platform values. -/
theorem setup_spec (fuel : Nat) (env : BootEnv) (board : Board) :
    ∃ f, setup (fuel + 1) env board = some f ∧
      (f.otaModeActive = true ↔
        ((storedCredentials board.EEPROM).setuped ≠ "true".toList ∨ env.hold = true)) ∧
      (f.otaModeActive = true →
        ∃ dash, f.otaDash = some dash ∧ dash.currentMode = NetworkMode.ACCESS_POINT ∧
          f.mqttRelay = none ∧
          dash.log =
            [PortalEvent.wifiMode WifiMode.WIFI_AP, PortalEvent.softAP "Wasa_Controller" ""]
              ++ (if env.portal.softAPOk then
                    [PortalEvent.dnsStart, PortalEvent.serverBegin, PortalEvent.tickerAttach]
                  else []) ∧
          dash.serverStarted = env.portal.softAPOk) ∧
      (f.otaModeActive = false → f.otaDash = none ∧
        (f.mqttRelay.isSome = env.wifiUp) ∧
        (env.wifiUp = true → f.mqttRelay = some (MQTTRelay.initializeMQTTRelay env.relayBegin
          env.relayConnect env.ledBuiltin (generateDeviceUUID env.mac env.rnd)
          (generateDeviceName (generateDeviceUUID env.mac env.rnd)) env.uninitConfig
          f.board))) ∧
      (BootEvent.buttonChecked ∈ f.trace ↔
        (storedCredentials board.EEPROM).setuped = "true".toList) := by
  obtain ⟨hv, ht, hd, hm, ha⟩ :=
    readCredentials_spec (pinMode (GpioCall.pinModeInputPullup env.ledBuiltin) (start board))
  unfold setup
  simp only
  generalize readCredentials (pinMode (GpioCall.pinModeInputPullup env.ledBuiltin) (start board))
    = r at hv ht hd hm ha
  rcases r with ⟨valid, f2⟩
  simp only at hv ht hd hm ha
  have hboard : (pinMode (GpioCall.pinModeInputPullup env.ledBuiltin) (start board)).board.EEPROM
      = board.EEPROM := rfl
  rw [hboard] at hv
  have ht' : f2.trace = [] := ht
  have hd' : f2.otaDash = none := hd
  have hm' : f2.mqttRelay = none := hm
  have ha' : f2.otaModeActive = false := ha
  by_cases hval : (storedCredentials board.EEPROM).setuped = "true".toList
  · have hvt : valid = true := by rw [hv]; exact decide_eq_true hval
    subst hvt
    cases hh : env.hold with
    | true =>
      obtain ⟨dash, hinit, hmode, hlog, hsrv⟩ := initializeOTAMode_spec fuel env
        { f2 with trace := f2.trace ++ [BootEvent.buttonChecked] }
      simp only [if_true, Bool.not_true, Bool.false_or]
      rw [hinit]
      refine ⟨_, rfl, ?_, ?_, ?_, ?_⟩
      · simp [hval]
      · intro _; exact ⟨dash, rfl, hmode, hm', hlog, hsrv⟩
      · intro h; simp at h
      · simp [hval]
    | false =>
      simp only [if_true, Bool.not_true, Bool.false_or, Bool.false_eq_true, if_false]
      obtain ⟨c1, c2, c3, c4⟩ := connectToWiFi_spec
        (pinMode (GpioCall.pinModeOutput env.ledBuiltin)
          { f2 with trace := f2.trace ++ [BootEvent.buttonChecked] })
      generalize connectToWiFi (pinMode (GpioCall.pinModeOutput env.ledBuiltin)
          { f2 with trace := f2.trace ++ [BootEvent.buttonChecked] }) = f3 at c1 c2 c3 c4 ⊢
      have c1' : f3.otaDash = none := c1.trans hd'
      have c2' : f3.mqttRelay = none := c2.trans hm'
      have c3' : f3.otaModeActive = false := c3.trans ha'
      have c4' : BootEvent.buttonChecked ∈ f3.trace := by
        rw [c4]
        show BootEvent.buttonChecked ∈ f2.trace ++ [BootEvent.buttonChecked]
        simp
      cases hw : env.wifiUp with
      | true =>
        simp only [if_true]
        refine ⟨_, rfl, ?_, ?_, ?_, ?_⟩
        · show f3.otaModeActive = true ↔ _
          rw [c3']; simp [hval]
        · intro h
          have : f3.otaModeActive = true := h
          rw [c3'] at this; cases this
        · intro _
          exact ⟨c1', rfl, fun _ => rfl⟩
        · show BootEvent.buttonChecked ∈ f3.trace ↔ _
          simp [c4', hval]
      | false =>
        simp only [Bool.false_eq_true, if_false]
        refine ⟨_, rfl, ?_, ?_, ?_, ?_⟩
        · rw [c3']; simp [hval]
        · intro h; rw [c3'] at h; cases h
        · intro _
          exact ⟨c1', by rw [c2']; rfl, fun h => by cases h⟩
        · simp [c4', hval]
  · have hvf : valid = false := by rw [hv]; exact decide_eq_false hval
    subst hvf
    obtain ⟨dash, hinit, hmode, hlog, hsrv⟩ := initializeOTAMode_spec fuel env f2
    simp only [Bool.false_eq_true, if_false, Bool.not_false, Bool.true_or, if_true]
    rw [hinit]
    refine ⟨_, rfl, ?_, ?_, ?_, ?_⟩
    · exact ⟨fun _ => Or.inl hval, fun _ => rfl⟩
    · intro _; exact ⟨dash, rfl, hmode, hm', hlog, hsrv⟩
    · intro h; simp at h
    · constructor
      · intro h
        have h' : BootEvent.buttonChecked ∈ f2.trace := h
        rw [ht'] at h'
        cases h'
      · intro h; exact absurd h hval

end Firmware

namespace Firmware

/-- C12: `setup()` returns (the portal's `begin` makes no self-call) and selects
Provisioning mode if and only if the `setuped` member of the stored record differs from
"true" or `checkButtonPress()` reports a hold; in every other case `otaModeActive` stays
false and no portal object exists (Operational mode).  In Provisioning mode
`otaModeActive` is true, no relay object exists, and the portal object exists and has run
`begin(ACCESS_POINT)`: its mode is AccessPoint and what it did is, in this order,
`WiFi.mode(WIFI_AP)` and `WiFi.softAP("Wasa_Controller", "")`, and then, when the platform
has brought the access point up, the start of the DNS responder, of the web server and of
the ticker (`serverStarted` is true exactly then; `begin` returns before them when
`softAP` fails).  `checkButtonPress()` is called if and only if the stored record is
valid. -/
theorem setup_selects_mode (fuel : Nat) (env : BootEnv) (board : Board) :
    ∃ f, setup (fuel + 1) env board = some f ∧
      (f.otaModeActive = true ↔
        ((storedCredentials board.EEPROM).setuped ≠ "true".toList ∨ env.hold = true)) ∧
      (f.otaModeActive = true →
        ∃ dash, f.otaDash = some dash ∧ dash.currentMode = NetworkMode.ACCESS_POINT ∧
          f.mqttRelay = none ∧
          dash.log =
            [PortalEvent.wifiMode WifiMode.WIFI_AP, PortalEvent.softAP "Wasa_Controller" ""]
              ++ (if env.portal.softAPOk then
                    [PortalEvent.dnsStart, PortalEvent.serverBegin, PortalEvent.tickerAttach]
                  else []) ∧
          dash.serverStarted = env.portal.softAPOk) ∧
      (f.otaModeActive = false → f.otaDash = none) ∧
      (BootEvent.buttonChecked ∈ f.trace ↔
        (storedCredentials board.EEPROM).setuped = "true".toList) := by
  obtain ⟨f, h1, h2, h3, h4, h5⟩ := setup_spec fuel env board
  exact ⟨f, h1, h2, h3, fun h => (h4 h).1, h5⟩

/-- C12 at two start-ups over an unwritten store and one over a store with a valid record
and no hold: the first starts the portal with its access point, web server and ticker; in
the second `softAP` fails and `begin` stops after the two radio calls; the third selects
Operational mode. -/
theorem setup_selects_mode_witness :
    (∃ f dash, setup 1 (sampleBootEnv false true) ⟨erasedStore, []⟩ = some f ∧
      f.otaModeActive = true ∧ f.otaDash = some dash ∧
      dash.log = [PortalEvent.wifiMode WifiMode.WIFI_AP,
        PortalEvent.softAP "Wasa_Controller" "", PortalEvent.dnsStart,
        PortalEvent.serverBegin, PortalEvent.tickerAttach] ∧
      dash.serverStarted = true) ∧
    (∃ f dash, setup 1
        { sampleBootEnv false true with portal := { samplePortalEnv with softAPOk := false } }
        ⟨erasedStore, []⟩ = some f ∧
      f.otaModeActive = true ∧ f.otaDash = some dash ∧
      dash.log = [PortalEvent.wifiMode WifiMode.WIFI_AP,
        PortalEvent.softAP "Wasa_Controller" ""] ∧
      dash.serverStarted = false) ∧
    (∃ f, setup 1 (sampleBootEnv false true) ⟨sampleStore, []⟩ = some f ∧
      f.otaModeActive = false ∧ f.otaDash = none) := by
  obtain ⟨f1, e1, a1, p1, _, _⟩ := setup_selects_mode 0 (sampleBootEnv false true)
    ⟨erasedStore, []⟩
  obtain ⟨f2, e2, a2, p2, _, _⟩ := setup_selects_mode 0
    { sampleBootEnv false true with portal := { samplePortalEnv with softAPOk := false } }
    ⟨erasedStore, []⟩
  obtain ⟨f3, e3, a3, _, n3, _⟩ := setup_selects_mode 0 (sampleBootEnv false true)
    ⟨sampleStore, []⟩
  have h1 : f1.otaModeActive = true := a1.mpr (Or.inl (by decide))
  have h2 : f2.otaModeActive = true := a2.mpr (Or.inl (by decide))
  have h3 : f3.otaModeActive = false := by
    cases h : f3.otaModeActive with
    | false => rfl
    | true =>
      rcases a3.mp h with h' | h'
      · exact absurd (by decide) h'
      · exact absurd h' (by decide)
  obtain ⟨d1, hd1, _, _, hl1, hs1⟩ := p1 h1
  obtain ⟨d2, hd2, _, _, hl2, hs2⟩ := p2 h2
  exact ⟨⟨f1, d1, e1, h1, hd1, hl1, hs1⟩, ⟨f2, d2, e2, h2, hd2, hl2, hs2⟩,
    ⟨f3, e3, h3, n3 h3⟩⟩

theorem run_step (deserializeJson : Deserializer) (t : Tick) (ts : List Tick) (f : Firmware) :
    run deserializeJson (t :: ts) f = run deserializeJson ts (loop deserializeJson t f) := rfl

theorem run_provisioning (deserializeJson : Deserializer) (ts : List Tick) :
    ∀ f : Firmware, f.otaModeActive = true → run deserializeJson ts f = f := by
  induction ts with
  | nil => intro f _; rfl
  | cons t ts ih =>
    intro f h
    have hl : loop deserializeJson t f = f := by simp [loop, h]
    rw [run_step, hl]
    exact ih f h

theorem run_without_relay (deserializeJson : Deserializer) (ts : List Tick) :
    ∀ f : Firmware, f.mqttRelay = none → run deserializeJson ts f = f := by
  induction ts with
  | nil => intro f _; rfl
  | cons t ts ih =>
    intro f h
    have hl : loop deserializeJson t f = f := by
      unfold loop
      split
      · rw [h]
      · rfl
    rw [run_step, hl]
    exact ih f h

theorem run_with_relay (deserializeJson : Deserializer) (ts : List Tick) :
    ∀ (f : Firmware) (relay : MQTTRelay), f.otaModeActive = false → f.mqttRelay = some relay →
      (run deserializeJson ts f).mqttRelay = some (MQTTRelay.run deserializeJson ts relay) ∧
        (run deserializeJson ts f).otaModeActive = false := by
  induction ts with
  | nil => intro f relay ha hr; exact ⟨hr, ha⟩
  | cons t ts ih =>
    intro f relay ha hr
    have hl : loop deserializeJson t f =
        { f with mqttRelay := some (relay.loop deserializeJson t) } := by
      simp [loop, ha, hr]
    rw [run_step, hl, MQTTRelay.run_cons]
    exact ih _ _ ha rfl

/-- C13, as it fails: with a valid stored record, no hold and the WiFi link not up after
`connectToWiFi()`, `setup()` selects Operational mode (no portal, `otaModeActive = false`)
and creates no relay object; the passes of `loop()` that follow have nothing to run. -/
theorem operational_without_broker_client :
    ∃ f, setup 1 (sampleBootEnv false false) ⟨sampleStore, []⟩ = some f ∧
      f.otaModeActive = false ∧ f.otaDash = none ∧ f.mqttRelay = none ∧
      (run sampleParser [sampleTick 6000 true, sampleTick 12000 true] f).mqttRelay = none :=
  ⟨_, rfl, by decide, by decide, by decide, by decide⟩

/-- C13, amended: after `setup()` the relay object (and with it the broker client that its
`begin()` creates) exists if and only if the selected mode is Operational and the WiFi link
is up when `setup()` tests it after `connectToWiFi()`.  In Provisioning mode no relay object
exists after any number of passes of `loop()`; in Operational mode with the link up the
relay object is created and every pass of `loop()` runs its `loop()`; in Operational mode
with the link down no relay object exists after any number of passes. -/
theorem broker_client_iff_operational_and_wifi (deserializeJson : Deserializer) (fuel : Nat)
    (env : BootEnv) (board : Board) :
    ∃ f, setup (fuel + 1) env board = some f ∧
      (f.mqttRelay.isSome = true ↔ (f.otaModeActive = false ∧ env.wifiUp = true)) ∧
      (f.otaModeActive = true →
        ∀ ts : List Tick, (run deserializeJson ts f).mqttRelay = none) ∧
      (f.otaModeActive = false → env.wifiUp = false →
        ∀ ts : List Tick, (run deserializeJson ts f).mqttRelay = none) ∧
      (f.otaModeActive = false → env.wifiUp = true →
        ∃ relay, f.mqttRelay = some relay ∧ relay.mqttClient.isSome = true ∧
          ∀ ts : List Tick,
            (run deserializeJson ts f).mqttRelay = some (MQTTRelay.run deserializeJson ts relay)) := by
  obtain ⟨f, h1, _, h3, h4, _⟩ := setup_spec fuel env board
  refine ⟨f, h1, ?_, ?_, ?_, ?_⟩
  · cases ha : f.otaModeActive with
    | true =>
      obtain ⟨_, _, _, hm, _⟩ := h3 ha
      simp [hm]
    | false =>
      obtain ⟨_, hs, _⟩ := h4 ha
      rw [hs]
      simp
  · intro ha ts
    obtain ⟨_, _, _, hm, _⟩ := h3 ha
    rw [run_provisioning deserializeJson ts f ha]
    exact hm
  · intro ha hw ts
    obtain ⟨_, hs, _⟩ := h4 ha
    have hm : f.mqttRelay = none := by
      rw [hw] at hs
      cases hr : f.mqttRelay with
      | none => rfl
      | some r => rw [hr] at hs; cases hs
    rw [run_without_relay deserializeJson ts f hm]
    exact hm
  · intro ha hw
    obtain ⟨_, _, hr⟩ := h4 ha
    refine ⟨_, hr hw, ?_, fun ts => (run_with_relay deserializeJson ts f _ ha (hr hw)).1⟩
    have h := MQTTRelay.observed_initializeMQTTRelay env.relayBegin env.relayConnect
      env.ledBuiltin (generateDeviceUUID env.mac env.rnd)
      (generateDeviceName (generateDeviceUUID env.mac env.rnd)) env.uninitConfig f.board
    simp only [MQTTRelay.observed, Prod.mk.injEq] at h
    exact h.2.2.2.2.2.1

/-- C13 amended, at a start-up with a valid stored record, no hold and the link up: the
relay object exists and two passes of `loop()` run it. -/
theorem broker_client_iff_operational_and_wifi_witness :
    ∃ f, setup 1 (sampleBootEnv false true) ⟨sampleStore, []⟩ = some f ∧
      (f.mqttRelay.isSome = true ↔ (f.otaModeActive = false ∧ true = true)) ∧
      f.mqttRelay.isSome = true := by
  obtain ⟨f, h1, h2, _⟩ := broker_client_iff_operational_and_wifi sampleParser 0
    (sampleBootEnv false true) ⟨sampleStore, []⟩
  refine ⟨f, h1, h2, ?_⟩
  have h : setup 1 (sampleBootEnv false true) ⟨sampleStore, []⟩ = some f := h1
  have h' : (setup 1 (sampleBootEnv false true) ⟨sampleStore, []⟩).map
      (fun f => f.mqttRelay.isSome) = some true := by decide
  rw [h] at h'
  simpa using h'

end Firmware

/-! ## Health check of the station link: claim C15 -/

namespace OTADash

theorem autoReconnect_note (ev : PortalEvent) (d : OTADash) :
    (note ev d).autoReconnect = d.autoReconnect := rfl

theorem autoReconnect_reconnectWifi (env : PortalEnv) (d : OTADash) :
    (reconnectWifi env d).autoReconnect = d.autoReconnect := by
  unfold reconnectWifi
  obtain ⟨k, hk⟩ := connectToWifi_spec env d.ssid d.password 5000 (disconnectWifi d)
  rw [hk]
  unfold disconnectWifi
  split <;> split <;> rfl

theorem autoReconnect_handleNetworkFailure (env : PortalEnv) (d : OTADash) :
    (handleNetworkFailure env d).autoReconnect = d.autoReconnect := by
  unfold handleNetworkFailure
  split
  · split
    · exact autoReconnect_reconnectWifi env d
    · rfl
  · rfl

theorem autoReconnect_handleWifiScanResult (env : PortalEnv) (n : Int) (d : OTADash) :
    (handleWifiScanResult env n d).autoReconnect = d.autoReconnect := by
  unfold handleWifiScanResult
  split
  · rfl
  · split
    · rfl
    · split <;> rfl

theorem autoReconnect_handleClient (env : PortalEnv) (d : OTADash) :
    (handleClient env d).autoReconnect = d.autoReconnect := by
  unfold handleClient
  simp only
  have h1 : ∀ d : OTADash,
      (if d.currentMode = NetworkMode.ACCESS_POINT ∨ d.currentMode = NetworkMode.DUAL then
        note PortalEvent.dnsProcess d else d).autoReconnect = d.autoReconnect := by
    intro d; split <;> rfl
  have h2 : ∀ d : OTADash,
      (if (d.currentMode = NetworkMode.STATION ∨ d.currentMode = NetworkMode.DUAL)
          ∧ env.linkUp = false ∧ d.autoReconnect = true then
        handleNetworkFailure env d else d).autoReconnect = d.autoReconnect := by
    intro d; split
    · exact autoReconnect_handleNetworkFailure env d
    · rfl
  have h3 : ∀ d : OTADash,
      (if env.scan.scanComplete ≥ 0 then handleWifiScanResult env env.scan.scanComplete d
        else d).autoReconnect = d.autoReconnect := by
    intro d; split
    · exact autoReconnect_handleWifiScanResult env _ d
    · rfl
  have h4 : ∀ d : OTADash,
      (if d.pairRequest = true then handlePairingResult d else d).autoReconnect
        = d.autoReconnect := by
    intro d; split <;> rfl
  rw [h4, h3, h2, h1]

/-- C15 (fails on the code): in Station mode with the link down throughout, and with the
defaults (3 attempts, 5000 ms delay).  The run of the ticker at 5000 ms makes the first
attempt: `WiFi.disconnect()`, `WiFi.begin`, and ten rounds of `delay(500)` until the
5000 ms timeout, so the attempt is stamped 10000; the runs at 10000 and 14900 make no
attempt.  The runs at 16000 and 27000 make the second and the third attempt (the third is
stamped 32000).  The run at 38000 finds the maximum reached and sets the counter back to 0
instead of clearing `autoReconnect`, and the run at 38100 makes a fourth attempt.  No run of
the health check changes `autoReconnect`. -/
theorem health_check_keeps_reconnecting :
    sampleStation.currentMode = NetworkMode.STATION ∧
    sampleStation.maxReconnectAttempts = 3 ∧ sampleStation.reconnectDelay = 5000 ∧
    (ticks [linkDownAt 5000] sampleStation).log.drop sampleStation.log.length =
      PortalEvent.wifiDisconnect :: PortalEvent.wifiBegin "Wasa_Controller" "" ::
        List.replicate 10 (PortalEvent.delay 500) ∧
    (ticks [linkDownAt 5000] sampleStation).lastReconnectAttempt = 10000 ∧
    (ticks [linkDownAt 5000, linkDownAt 10000, linkDownAt 14900] sampleStation).wifiBegins
      = sampleStation.wifiBegins + 1 ∧
    (ticks [linkDownAt 5000, linkDownAt 10000, linkDownAt 14900, linkDownAt 16000,
      linkDownAt 21000, linkDownAt 27000] sampleStation).wifiBegins
      = sampleStation.wifiBegins + 3 ∧
    (ticks [linkDownAt 5000, linkDownAt 10000, linkDownAt 14900, linkDownAt 16000,
      linkDownAt 21000, linkDownAt 27000] sampleStation).lastReconnectAttempt
      = 32000 ∧
    (ticks [linkDownAt 5000, linkDownAt 10000, linkDownAt 14900, linkDownAt 16000,
      linkDownAt 21000, linkDownAt 27000, linkDownAt 32000, linkDownAt 38000]
      sampleStation).wifiBegins = sampleStation.wifiBegins + 3 ∧
    (ticks [linkDownAt 5000, linkDownAt 10000, linkDownAt 14900, linkDownAt 16000,
      linkDownAt 21000, linkDownAt 27000, linkDownAt 32000, linkDownAt 38000]
      sampleStation).reconnectCount = 0 ∧
    (ticks [linkDownAt 5000, linkDownAt 10000, linkDownAt 14900, linkDownAt 16000,
      linkDownAt 21000, linkDownAt 27000, linkDownAt 32000, linkDownAt 38000,
      linkDownAt 38100] sampleStation).wifiBegins = sampleStation.wifiBegins + 4 ∧
    (ticks [linkDownAt 5000, linkDownAt 10000, linkDownAt 14900, linkDownAt 16000,
      linkDownAt 21000, linkDownAt 27000, linkDownAt 32000, linkDownAt 38000,
      linkDownAt 38100] sampleStation).autoReconnect = true ∧
    (∀ (env : PortalEnv) (d : OTADash), (handleClient env d).autoReconnect = d.autoReconnect) := by
  refine ⟨by decide, by decide, by decide, by decide, by decide, by decide, by decide,
    by decide, by decide, by decide, by decide, by decide, autoReconnect_handleClient⟩

end OTADash

/-! ## Credential submission: claims C16 and C17 -/

namespace OTADash

/-- C16: a submission to the save-wifi handler without the `ssid` or the `password`
parameter, with an empty SSID, or with a passphrase shorter than 8 characters is answered
with status 400 and nothing else happens: the credentials record in memory and the flash
store are unchanged, and the only thing the portal does is send that answer (no call of the
save callback, no commit, no restart). -/
theorem saveWifi_rejects_invalid (env : PortalEnv) (ssidParam passwordParam : Option String)
    (d : OTADash)
    (hbad : ssidParam = none ∨ passwordParam = none ∨ ssidParam = some "" ∨
      ∃ pw, passwordParam = some pw ∧ pw.length < 8) :
    ∃ body : String,
      saveWifi env ssidParam passwordParam d =
        { d with log := d.log ++ [PortalEvent.send 400 "text/plain" body []] } ∧
      (saveWifi env ssidParam passwordParam d).log =
        d.log ++ [PortalEvent.send 400 "text/plain" body []] ∧
      (saveWifi env ssidParam passwordParam d).networkCredentials = d.networkCredentials ∧
      (saveWifi env ssidParam passwordParam d).EEPROM = d.EEPROM := by
  have key : ∃ body : String, saveWifi env ssidParam passwordParam d =
      { d with log := d.log ++ [PortalEvent.send 400 "text/plain" body []] } := by
    unfold saveWifi
    cases ssidParam with
    | none => cases passwordParam <;> exact ⟨_, rfl⟩
    | some ssid =>
      cases passwordParam with
      | none => exact ⟨_, rfl⟩
      | some pw =>
        simp only
        by_cases h1 : ssid.isEmpty = true
        · rw [if_pos h1]; exact ⟨_, rfl⟩
        · rw [if_neg h1]
          have h2 : pw.length < 8 := by
            rcases hbad with h | h | h | ⟨pw', h, hlt⟩
            · cases h
            · cases h
            · simp only [Option.some.injEq] at h
              subst h
              exact absurd rfl h1
            · simp only [Option.some.injEq] at h
              subst h
              exact hlt
          rw [if_pos h2]; exact ⟨_, rfl⟩
  obtain ⟨body, hb⟩ := key
  exact ⟨body, hb, by rw [hb], by rw [hb], by rw [hb]⟩

/-- C16 at a submission with a 7-character passphrase and at one without the `password`
parameter. -/
theorem saveWifi_rejects_invalid_witness :
    (saveWifi samplePortalEnv (some "HomeNet") (some "1234567") (samplePortal sampleStore)).log
      = [PortalEvent.send 400 "text/plain" "Password must be at least 8 characters" []] ∧
    (∃ body : String,
      (saveWifi samplePortalEnv (some "HomeNet") none (samplePortal sampleStore)).log
        = (samplePortal sampleStore).log ++ [PortalEvent.send 400 "text/plain" body []]) ∧
    (saveWifi samplePortalEnv (some "HomeNet") (some "1234567") (samplePortal sampleStore)).EEPROM
      = (samplePortal sampleStore).EEPROM := by
  obtain ⟨_, _, _, _, h4⟩ := saveWifi_rejects_invalid samplePortalEnv (some "HomeNet")
    (some "1234567") (samplePortal sampleStore) (Or.inr (Or.inr (Or.inr ⟨_, rfl, by decide⟩)))
  obtain ⟨body, _, h2, _⟩ := saveWifi_rejects_invalid samplePortalEnv (some "HomeNet") none
    (samplePortal sampleStore) (Or.inr (Or.inl rfl))
  exact ⟨by decide, ⟨body, h2⟩, h4⟩

/-- What the save-wifi handler does with a valid submission when a save callback is
registered: the callback is called once with the submitted values, then the answer is
sent. -/
theorem saveWifi_with_callback (env : PortalEnv) (ssid password : String) (d : OTADash)
    (h1 : ssid.isEmpty = false) (h2 : 8 ≤ password.length) (hcb : d.wifiSavedCallback = true) :
    saveWifi env (some ssid) (some password) d =
      { d with log := d.log ++ [PortalEvent.wifiSaved ssid password,
        PortalEvent.send 200 "text/plain" "WiFi credentials saved" []] } := by
  unfold saveWifi
  simp only
  rw [if_neg (by simp [h1]), if_neg (by omega), if_pos hcb]
  simp only [note, List.append_assoc, List.singleton_append]

/-- C17 (fails on the code): without a save callback the handler copies the submitted
values into the record with `strcpy`, which does not look at the 20 characters that the
members `ssid` and `password` hold.  For the 20-character SSID "ABCDEFGHIJKLMNOPQRST" and the
passphrase "password1" the terminator of the SSID lands in the member `password` and is
overwritten by the passphrase, so the record's `ssid` reads
"ABCDEFGHIJKLMNOPQRSTpassword1", in memory and in flash.  The rest is as the design
says: one commit, then the answer, then the restart. -/
theorem saveWifi_overruns_record :
    (saveWifi samplePortalEnv (some "ABCDEFGHIJKLMNOPQRST") (some "password1")
      (samplePortal erasedStore)).networkCredentials.ssid
      = "ABCDEFGHIJKLMNOPQRSTpassword1".toList ∧
    (storedCredentials (saveWifi samplePortalEnv (some "ABCDEFGHIJKLMNOPQRST")
      (some "password1") (samplePortal erasedStore)).EEPROM).ssid
      = "ABCDEFGHIJKLMNOPQRSTpassword1".toList ∧
    (saveWifi samplePortalEnv (some "ABCDEFGHIJKLMNOPQRST") (some "password1")
      (samplePortal erasedStore)).networkCredentials.setuped = "true".toList ∧
    (saveWifi samplePortalEnv (some "ABCDEFGHIJKLMNOPQRST") (some "password1")
      (samplePortal erasedStore)).log
      = [PortalEvent.eepromWrite true,
         PortalEvent.send 200 "text/plain" "Missing Saving Callback" [],
         PortalEvent.restart] ∧
    (saveWifi samplePortalEnv (some "HomeNet") (some "secret123")
      (samplePortal erasedStore)).networkCredentials.ssid = "HomeNet".toList := by
  refine ⟨by decide, by decide, by decide, by decide, by decide⟩

end OTADash

/-! ## The erase handler: claim C18 -/

theorem length_fitTo {α : Type} (n : Nat) (pad : α) (l : List α) : (fitTo n pad l).length = n := by
  simp [fitTo]

theorem fitTo_of_length {α : Type} (n : Nat) (pad : α) (l : List α) (h : l.length = n) :
    fitTo n pad l = l := by
  unfold fitTo
  exact List.take_left' h

theorem cString_nil_of_head (l : List Char) (o : Nat) (h : l[o]? = some NUL) :
    cString (l.drop o) = [] := by
  have hlt : o < l.length := by
    by_contra hge
    rw [List.getElem?_eq_none (by omega)] at h
    cases h
  rw [List.drop_eq_getElem_cons hlt]
  have : l[o] = NUL := by
    rw [List.getElem?_eq_getElem hlt] at h
    exact Option.some.inj h
  rw [this]
  rfl

theorem cString_drop_of_getElem? (t : List Char) :
    ∀ (l : List Char) (o : Nat), (∀ k, k < t.length → l[o + k]? = t[k]?) →
      (∀ x ∈ t, x ≠ NUL) → l[o + t.length]? = some NUL → cString (l.drop o) = t := by
  induction t with
  | nil =>
    intro l o _ _ h
    exact cString_nil_of_head l o (by simpa using h)
  | cons x t ih =>
    intro l o hk hx hend
    have h0 : l[o]? = some x := by simpa using hk 0 (by simp)
    have hlt : o < l.length := by
      by_contra hge
      rw [List.getElem?_eq_none (by omega)] at h0
      cases h0
    rw [List.drop_eq_getElem_cons hlt]
    have hxo : l[o] = x := by
      rw [List.getElem?_eq_getElem hlt] at h0
      exact Option.some.inj h0
    have hxn : (x != NUL) = true := by
      simpa using hx x (List.mem_cons_self _ _)
    rw [hxo]
    simp only [cString, List.takeWhile_cons, hxn, if_true, List.cons.injEq, true_and]
    apply ih l (o + 1)
    · intro k hklt
      have := hk (k + 1) (by simp; omega)
      simpa [Nat.add_assoc, Nat.add_comm 1 k] using this
    · intro y hy
      exact hx y (List.mem_cons_of_mem _ hy)
    · simpa [Nat.add_assoc, Nat.add_comm 1 t.length] using hend

namespace NetworkCredentials

theorem strcpyAt_image (off : Nat) (src : String) (c : NetworkCredentials)
    (hfit : off + (cString src.toList).length + 1 ≤ SIZEOF_NetworkCredentials) :
    (c.strcpyAt off src).image =
      (fitTo SIZEOF_NetworkCredentials NUL c.image).take off ++
        ((cString src.toList ++ [NUL]) ++
          (fitTo SIZEOF_NetworkCredentials NUL c.image).drop
            (off + ((cString src.toList).length + 1))) := by
  unfold strcpyAt
  simp only [List.length_append, List.length_singleton, List.append_assoc]
  apply List.take_of_length_le
  simp only [List.length_append, List.length_take, List.length_drop, length_fitTo,
    List.length_cons, List.length_nil]
  omega

theorem length_strcpyAt (off : Nat) (src : String) (c : NetworkCredentials)
    (hfit : off + (cString src.toList).length + 1 ≤ SIZEOF_NetworkCredentials) :
    (c.strcpyAt off src).image.length = SIZEOF_NetworkCredentials := by
  rw [strcpyAt_image off src c hfit]
  simp only [List.length_append, List.length_take, List.length_drop, length_fitTo,
    List.length_cons, List.length_nil]
  omega

theorem getElem?_strcpyAt_before (off : Nat) (src : String) (c : NetworkCredentials)
    (hfit : off + (cString src.toList).length + 1 ≤ SIZEOF_NetworkCredentials)
    (hlen : c.image.length = SIZEOF_NetworkCredentials) (i : Nat) (hi : i < off) :
    (c.strcpyAt off src).image[i]? = c.image[i]? := by
  rw [strcpyAt_image off src c hfit, fitTo_of_length _ _ _ hlen]
  rw [List.getElem?_append_left (by simp only [List.length_take]; omega)]
  rw [List.getElem?_take]
  simp [hi]

theorem getElem?_strcpyAt_text (off : Nat) (src : String) (c : NetworkCredentials)
    (hfit : off + (cString src.toList).length + 1 ≤ SIZEOF_NetworkCredentials) (k : Nat)
    (hk : k < (cString src.toList).length + 1) :
    (c.strcpyAt off src).image[off + k]? = (cString src.toList ++ [NUL])[k]? := by
  rw [strcpyAt_image off src c hfit]
  have hA : ((fitTo SIZEOF_NetworkCredentials NUL c.image).take off).length = off := by
    simp only [List.length_take, length_fitTo]; omega
  rw [List.getElem?_append_right (by omega), hA, Nat.add_sub_cancel_left]
  rw [List.getElem?_append_left (by simp only [List.length_append, List.length_singleton]; omega)]

end NetworkCredentials

theorem range_map_getD_append (a b : List Nat) (n : Nat) (h : a.length = n) :
    (List.range n).map (fun i => (a ++ b).getD i 255) = a := by
  apply List.ext_getElem
  · simp [h]
  · intro i h1 h2
    simp only [List.getElem_map, List.getElem_range]
    rw [List.getD_eq_getElem?_getD, List.getElem?_append_left h2, List.getElem?_eq_getElem h2]
    rfl

namespace NetworkCredentials

/-- The record after the three `strcpy` calls of the erase handler. -/
theorem erased_record (c : NetworkCredentials) :
    (((c.strcpyAt 0 "").strcpyAt 20 "").strcpyAt 40 "false").image.length
        = SIZEOF_NetworkCredentials ∧
      (((c.strcpyAt 0 "").strcpyAt 20 "").strcpyAt 40 "false").image[0]? = some NUL ∧
      (((c.strcpyAt 0 "").strcpyAt 20 "").strcpyAt 40 "false").image[20]? = some NUL ∧
      ∀ k, k < 6 → (((c.strcpyAt 0 "").strcpyAt 20 "").strcpyAt 40 "false").image[40 + k]?
        = ("false".toList ++ [NUL])[k]? := by
  have e0 : cString "".toList = [] := rfl
  have e5 : cString "false".toList = "false".toList := by decide
  have f1 : 0 + (cString "".toList).length + 1 ≤ SIZEOF_NetworkCredentials := by
    rw [e0]; decide
  have f2 : 20 + (cString "".toList).length + 1 ≤ SIZEOF_NetworkCredentials := by
    rw [e0]; decide
  have f3 : 40 + (cString "false".toList).length + 1 ≤ SIZEOF_NetworkCredentials := by
    rw [e5]; decide
  have l1 := length_strcpyAt 0 "" c f1
  have l2 := length_strcpyAt 20 "" (c.strcpyAt 0 "") f2
  have l3 := length_strcpyAt 40 "false" ((c.strcpyAt 0 "").strcpyAt 20 "") f3
  have a1 : (c.strcpyAt 0 "").image[0]? = some NUL := by
    have := getElem?_strcpyAt_text 0 "" c f1 0 (by rw [e0]; decide)
    simpa [e0] using this
  have a2 : ((c.strcpyAt 0 "").strcpyAt 20 "").image[0]? = some NUL := by
    rw [getElem?_strcpyAt_before 20 "" _ f2 l1 0 (by decide)]; exact a1
  have b2 : ((c.strcpyAt 0 "").strcpyAt 20 "").image[20]? = some NUL := by
    have := getElem?_strcpyAt_text 20 "" (c.strcpyAt 0 "") f2 0 (by rw [e0]; decide)
    simpa [e0] using this
  refine ⟨l3, ?_, ?_, ?_⟩
  · rw [getElem?_strcpyAt_before 40 "false" _ f3 l2 0 (by decide)]; exact a2
  · rw [getElem?_strcpyAt_before 40 "false" _ f3 l2 20 (by decide)]; exact b2
  · intro k hk
    have := getElem?_strcpyAt_text 40 "false" ((c.strcpyAt 0 "").strcpyAt 20 "") f3 k
      (by rw [e5]; exact hk)
    rw [e5] at this
    exact this

/-- The three texts of a record read back from the bytes that `EEPROM.put` stores, for a
record cleared by the erase handler. -/
theorem erased_texts (c : NetworkCredentials) (hlen : c.image.length = SIZEOF_NetworkCredentials)
    (h0 : c.image[0]? = some NUL) (h20 : c.image[20]? = some NUL)
    (h40 : ∀ k, k < 6 → c.image[40 + k]? = ("false".toList ++ [NUL])[k]?) :
    (c.ssid = [] ∧ c.password = [] ∧ c.setuped = "false".toList) ∧
      (ofBytes c.toBytes).setuped = "false".toList := by
  refine ⟨⟨?_, ?_, ?_⟩, ?_⟩
  · exact cString_nil_of_head c.image 0 h0
  · exact cString_nil_of_head c.image 20 h20
  · apply cString_drop_of_getElem? "false".toList c.image 40
    · intro k hk
      have hk' : k < 5 := hk
      rw [h40 k (by omega)]
      exact List.getElem?_append_left hk
    · decide
    · simpa using h40 5 (by decide)
  · unfold setuped textAt ofBytes toBytes
    rw [fitTo_of_length _ _ _ hlen]
    simp only [List.map_map]
    apply cString_drop_of_getElem? "false".toList _ 40
    · intro k hk
      have hk' : k < 5 := hk
      rw [List.getElem?_map, h40 k (by omega)]
      interval_cases k <;> decide
    · decide
    · rw [List.getElem?_map]
      have h5 : "false".toList.length = 5 := by decide
      rw [h5, h40 5 (by decide)]
      decide

end NetworkCredentials

namespace OTADash

theorem length_toBytes (c : NetworkCredentials) : c.toBytes.length = SIZEOF_NetworkCredentials := by
  simp [NetworkCredentials.toBytes, length_fitTo]

/-- A commit that succeeds, with the default place of the record, stores the record. -/
theorem writeEEPROM_stores (env : PortalEnv) (d : OTADash) (hok : env.commitOk = true)
    (haddr : d.eepromAddress = OTA_DASH_EEPROM_ADDR) (hsize : d.eepromSize = OTA_DASH_EEPROM_SIZE) :
    (writeEEPROM env d).2 =
      { d with
        EEPROM := { flash := d.networkCredentials.toBytes ++ d.EEPROM.flash.drop 50,
                    data := [], size := 0 }
        log := d.log ++ [PortalEvent.eepromWrite true] } := by
  have hl := length_toBytes d.networkCredentials
  simp only [SIZEOF_NetworkCredentials] at hl
  unfold writeEEPROM
  simp only [haddr, hsize, hok, OTA_DASH_EEPROM_ADDR, OTA_DASH_EEPROM_SIZE, EEPROMClass.begin,
    EEPROMClass.writeAt, EEPROMClass.write, EEPROMClass.commit, EEPROMClass.close, note]
  simp [hl]

theorem storedCredentials_after (bytes rest : List Nat) (data : List Nat) (size : Nat)
    (h : bytes.length = SIZEOF_NetworkCredentials) :
    storedCredentials { flash := bytes ++ rest, data := data, size := size } =
      NetworkCredentials.ofBytes bytes := by
  unfold storedCredentials
  simp only
  rw [range_map_getD_append bytes rest _ h]

theorem readEEPROM_stored (d : OTADash) (haddr : d.eepromAddress = OTA_DASH_EEPROM_ADDR)
    (hsize : d.eepromSize = OTA_DASH_EEPROM_SIZE) :
    (readEEPROM d).1 = decide ((storedCredentials d.EEPROM).setuped = "true".toList) := by
  unfold readEEPROM
  have h := EEPROM_read_region d.EEPROM SIZEOF_NetworkCredentials
  simp only [haddr, hsize, OTA_DASH_EEPROM_SIZE, OTA_DASH_EEPROM_ADDR,
    SIZEOF_NetworkCredentials] at h ⊢
  rw [h]
  simp only [storedCredentials, SIZEOF_NetworkCredentials]
  split <;> simp_all

end OTADash

namespace NetworkCredentials

/-- The network name and password of a cleared record read back from its stored bytes. -/
theorem erased_stored_texts (c : NetworkCredentials)
    (hlen : c.image.length = SIZEOF_NetworkCredentials)
    (h0 : c.image[0]? = some NUL) (h20 : c.image[20]? = some NUL) :
    (ofBytes c.toBytes).ssid = [] ∧ (ofBytes c.toBytes).password = [] := by
  constructor
  · unfold ssid textAt ofBytes toBytes
    rw [fitTo_of_length _ _ _ hlen]
    simp only [List.map_map]
    apply cString_nil_of_head
    rw [List.getElem?_map, h0]
    decide
  · unfold password textAt ofBytes toBytes
    rw [fitTo_of_length _ _ _ hlen]
    simp only [List.map_map]
    apply cString_nil_of_head
    rw [List.getElem?_map, h20]
    decide

end NetworkCredentials

namespace OTADash

/-- What the erase handler leaves when the commit succeeds and the record has its default
place. -/
theorem erase_spec (env : PortalEnv) (d : OTADash) (hok : env.commitOk = true)
    (haddr : d.eepromAddress = OTA_DASH_EEPROM_ADDR) (hsize : d.eepromSize = OTA_DASH_EEPROM_SIZE) :
    erase env d =
      { d with
        networkCredentials :=
          ((d.networkCredentials.strcpyAt 0 "").strcpyAt 20 "").strcpyAt 40 "false"
        EEPROM :=
          { flash := (((d.networkCredentials.strcpyAt 0 "").strcpyAt 20 "").strcpyAt 40
              "false").toBytes ++ d.EEPROM.flash.drop 50,
            data := [], size := 0 }
        log := d.log ++ [PortalEvent.eepromWrite true,
          PortalEvent.send 200 "text/html" "Settings erased." []] } := by
  have h := writeEEPROM_stores env
    { d with networkCredentials :=
        ((d.networkCredentials.strcpyAt 0 "").strcpyAt 20 "").strcpyAt 40 "false" }
    hok haddr hsize
  unfold erase
  simp only
  rw [h]
  simp [note]

end OTADash

namespace OTADash

/-- C18: for every prior credentials record, when the commit succeeds and the record has
its default place in the store, the handler of `POST /erase` leaves the record in memory
and the record in flash with `ssid` "", `password` "" and `setuped` "false"; it commits once
and then sends its answer, and nothing else (no restart); afterwards `readEEPROM()` of the
portal and `readCredentials()` of `main.cpp` return false, and a `setup()` over that store
selects Provisioning mode. -/
theorem erase_clears_record (env : PortalEnv) (d : OTADash) (hok : env.commitOk = true)
    (haddr : d.eepromAddress = OTA_DASH_EEPROM_ADDR)
    (hsize : d.eepromSize = OTA_DASH_EEPROM_SIZE) :
    ((erase env d).networkCredentials.ssid = [] ∧
      (erase env d).networkCredentials.password = [] ∧
      (erase env d).networkCredentials.setuped = "false".toList) ∧
    ((storedCredentials (erase env d).EEPROM).ssid = [] ∧
      (storedCredentials (erase env d).EEPROM).password = [] ∧
      (storedCredentials (erase env d).EEPROM).setuped = "false".toList) ∧
    (erase env d).log = d.log ++ [PortalEvent.eepromWrite true,
      PortalEvent.send 200 "text/html" "Settings erased." []] ∧
    (readEEPROM (erase env d)).1 = false ∧
    (∀ f : Firmware, f.board.EEPROM = (erase env d).EEPROM →
      (Firmware.readCredentials f).1 = false) ∧
    (∀ (fuel : Nat) (boot : BootEnv) (board : Board), board.EEPROM = (erase env d).EEPROM →
      ∃ f, Firmware.setup (fuel + 1) boot board = some f ∧ f.otaModeActive = true ∧
        ∃ dash, f.otaDash = some dash ∧ dash.currentMode = NetworkMode.ACCESS_POINT) := by
  have hrec := NetworkCredentials.erased_record d.networkCredentials
  obtain ⟨hlen, h0, h20, h40⟩ := hrec
  obtain ⟨hmem, hst⟩ := NetworkCredentials.erased_texts _ hlen h0 h20 h40
  obtain ⟨hs1, hs2⟩ := NetworkCredentials.erased_stored_texts _ hlen h0 h20
  have he := erase_spec env d hok haddr hsize
  have hstored : storedCredentials (erase env d).EEPROM = NetworkCredentials.ofBytes
      (((d.networkCredentials.strcpyAt 0 "").strcpyAt 20 "").strcpyAt 40 "false").toBytes := by
    rw [he]
    exact storedCredentials_after _ _ _ _ (length_toBytes _)
  have hne : (storedCredentials (erase env d).EEPROM).setuped ≠ "true".toList := by
    rw [hstored, hst]
    decide
  refine ⟨?_, ?_, ?_, ?_, ?_, ?_⟩
  · rw [he]; exact hmem
  · rw [hstored]; exact ⟨hs1, hs2, hst⟩
  · rw [he]
  · rw [readEEPROM_stored _ (by rw [he]; exact haddr) (by rw [he]; exact hsize)]
    exact decide_eq_false hne
  · intro f hf
    rw [(Firmware.readCredentials_spec f).1, hf]
    exact decide_eq_false hne
  · intro fuel boot board hb
    obtain ⟨f, h1, h2, h3, _⟩ := Firmware.setup_spec fuel boot board
    have ha : f.otaModeActive = true := h2.2 (Or.inl (by rw [hb]; exact hne))
    obtain ⟨dash, hd1, hd2, _⟩ := h3 ha
    exact ⟨f, h1, ha, dash, hd1, hd2⟩

/-- C18 at the portal started in station mode over the store that holds the record for
"HomeNet": the record is valid before the erase, and invalid after it. -/
theorem erase_clears_record_witness :
    (storedCredentials sampleStation.EEPROM).setuped = "true".toList ∧
    (storedCredentials (erase samplePortalEnv sampleStation).EEPROM).setuped = "false".toList ∧
    (readEEPROM (erase samplePortalEnv sampleStation)).1 = false ∧
    ∃ f, Firmware.setup 1 (sampleBootEnv false true)
        { EEPROM := (erase samplePortalEnv sampleStation).EEPROM, gpio := [] } = some f ∧
      f.otaModeActive = true := by
  obtain ⟨_, ⟨_, _, h2⟩, _, h4, _, h6⟩ :=
    erase_clears_record samplePortalEnv sampleStation (by decide) (by decide) (by decide)
  obtain ⟨f, hf, ha, _⟩ := h6 0 (sampleBootEnv false true)
    { EEPROM := (erase samplePortalEnv sampleStation).EEPROM, gpio := [] } rfl
  exact ⟨by decide, h2, h4, f, hf, ha⟩

end OTADash

/-! ## The pairing handler: claim C19 -/

theorem JsonDocument.arrayOfAtLeast_iff (doc : JsonDocument) (key : String) (n : Nat) :
    doc.arrayOfAtLeast key n = true ↔
      ∃ items, doc.get key = some (JsonValue.arr items) ∧ n ≤ items.length := by
  unfold JsonDocument.arrayOfAtLeast
  rcases doc.get key with _ | (_ | _ | _ | _ | _) <;> simp

theorem JsonDocument.stringOfAtLeast_iff (doc : JsonDocument) (key : String) (n : Nat) :
    doc.stringOfAtLeast key n = true ↔
      ∃ s, doc.get key = some (JsonValue.str s) ∧ n ≤ s.length := by
  unfold JsonDocument.stringOfAtLeast
  rcases doc.get key with _ | (_ | _ | _ | _ | _) <;> simp

theorem JsonDocument.nonEmptyString_iff (doc : JsonDocument) (key : String) :
    doc.nonEmptyString key = true ↔
      ∃ s, doc.get key = some (JsonValue.str s) ∧ s.isEmpty = false := by
  unfold JsonDocument.nonEmptyString
  rcases doc.get key with _ | (_ | _ | _ | s | _) <;> simp
  rw [← String.isEmpty_iff]
  simp

namespace OTADash

/-- The three outcomes of the pairing handler. -/
theorem pair_spec (deserializeJson : Deserializer) (body : List Char) (d : OTADash) :
    (acceptablePairing deserializeJson body = true →
      ∃ doc, deserializeJson (String.mk body) = some doc ∧
        pair deserializeJson body d =
          if d.pairingCallback then
            { d with log := d.log ++ [PortalEvent.paired doc,
              PortalEvent.send 202 "application/json"
                "\x7b\"status\":\"success\",\"message\":\"Request Accepted: Listen On Websocket\"\x7d"
                corsHeader] }
          else
            { d with log := d.log ++ [PortalEvent.send 500 "application/json"
              (errorBody "Missing Pairing Functionality") corsHeader] }) ∧
    (acceptablePairing deserializeJson body = false →
      ∃ message, pair deserializeJson body d =
        { d with log := d.log ++ [PortalEvent.send 400 "application/json"
          (errorBody message) corsHeader] }) := by
  unfold pair acceptablePairing
  by_cases hb : body.length = 0
  · have hnil : body = [] := List.length_eq_zero.mp hb
    subst hnil
    refine ⟨fun h => by simp at h, fun _ => ⟨"Empty request body", ?_⟩⟩
    simp only [List.length_nil, if_true, note]
    rfl
  · have hne : body ≠ [] := fun h => hb (by rw [h]; rfl)
    rw [if_neg hb]
    cases hdoc : deserializeJson (String.mk body) with
    | none =>
      refine ⟨fun h => by simp at h, fun _ => ⟨"Invalid JSON format", ?_⟩⟩
      simp only [note]
      rfl
    | some doc =>
      simp only [decide_eq_true hne, Bool.true_and]
      split
      · rename_i ids ssid pw pin h1 h2 h3 h4
        by_cases hv : ids.length < 1 ∨ ssid.isEmpty = true ∨ pw.length < 8 ∨ pin.length < 4
        · rw [if_pos hv]
          refine ⟨fun h => ?_, fun _ => ⟨"Validation failed for one or more fields", ?_⟩⟩
          · exfalso
            simp only [Bool.and_eq_true, JsonDocument.arrayOfAtLeast_iff,
              JsonDocument.nonEmptyString_iff, JsonDocument.stringOfAtLeast_iff, h1, h2, h3, h4,
              Option.some.injEq, JsonValue.arr.injEq, JsonValue.str.injEq, exists_eq_left'] at h
            obtain ⟨⟨⟨a, b⟩, c⟩, e⟩ := h
            rcases hv with hv | hv | hv | hv
            · omega
            · rw [hv] at b; cases b
            · omega
            · omega
          · simp only [note]
            rfl
        · rw [if_neg hv]
          refine ⟨fun _ => ⟨doc, rfl, ?_⟩, fun h => ?_⟩
          · by_cases hcb : d.pairingCallback = true
            · rw [if_pos hcb, if_pos hcb]
              simp only [note, List.append_assoc, List.singleton_append]
            · rw [if_neg hcb, if_neg hcb]
              simp only [note]
              rfl
          · exfalso
            have hacc : (doc.arrayOfAtLeast "user_ids" 1 && doc.nonEmptyString "wifi_ssid" &&
                doc.stringOfAtLeast "wifi_password" 8 &&
                doc.stringOfAtLeast "master_pin" 4) = true := by
              simp only [Bool.and_eq_true, JsonDocument.arrayOfAtLeast_iff,
                JsonDocument.nonEmptyString_iff, JsonDocument.stringOfAtLeast_iff, h1, h2, h3, h4,
                Option.some.injEq, JsonValue.arr.injEq, JsonValue.str.injEq, exists_eq_left']
              refine ⟨⟨⟨?_, ?_⟩, ?_⟩, ?_⟩
              · omega
              · cases hs : ssid.isEmpty
                · rfl
                · exact absurd (Or.inr (Or.inl hs)) hv
              · omega
              · omega
            rw [hacc] at h
            cases h
      · rename_i hneg
        refine ⟨fun h => ?_, fun _ => ⟨"Missing or invalid keys", ?_⟩⟩
        · exfalso
          simp only [Bool.and_eq_true, JsonDocument.arrayOfAtLeast_iff,
            JsonDocument.nonEmptyString_iff, JsonDocument.stringOfAtLeast_iff] at h
          obtain ⟨⟨⟨⟨ids, a, _⟩, ⟨ssid, b, _⟩⟩, ⟨pw, c, _⟩⟩, ⟨pin, e, _⟩⟩ := h
          exact hneg ids ssid pw pin a b c e
        · simp only [note]
          rfl

end OTADash

namespace OTADash

theorem pairEffects_of_eq (deserializeJson : Deserializer) (body : List Char) (d : OTADash)
    (l : List PortalEvent) (h : pair deserializeJson body d = { d with log := d.log ++ l }) :
    pairEffects deserializeJson body d = l := by
  unfold pairEffects
  rw [h]
  exact List.drop_left _ _

/-- C19: for a pairing body handed to the body handler in one piece, with ArduinoJson's
parser as a parameter.  The handler calls the pairing callback (once, with the parsed
document, before it answers) and answers with status 202 if and only if the body is
acceptable (non-empty, parsed without error, `user_ids` an array of at least one element,
`wifi_ssid` a non-empty string, `wifi_password` a string of at least 8 characters,
`master_pin` a string of at least 4 characters) and a pairing callback is registered.  A body
that is not acceptable is answered with status 400 and a JSON text with `status` "error" and
a message, and the handler does nothing else: the object is unchanged apart from the record
of that answer.  (An acceptable body without a registered callback is answered with status
500.) -/
theorem pair_accepts_iff (deserializeJson : Deserializer) (body : List Char) (d : OTADash) :
    ((∃ doc, deserializeJson (String.mk body) = some doc ∧
        pairEffects deserializeJson body d = [PortalEvent.paired doc,
          PortalEvent.send 202 "application/json"
            "\x7b\"status\":\"success\",\"message\":\"Request Accepted: Listen On Websocket\"\x7d"
            corsHeader]) ↔
      (acceptablePairing deserializeJson body = true ∧ d.pairingCallback = true)) ∧
    ((pairEffects deserializeJson body d).countP PortalEvent.isPaired =
      if acceptablePairing deserializeJson body = true ∧ d.pairingCallback = true then 1
      else 0) ∧
    ((∃ ev ∈ pairEffects deserializeJson body d, ev.status? = some 202) ↔
      (acceptablePairing deserializeJson body = true ∧ d.pairingCallback = true)) ∧
    (acceptablePairing deserializeJson body = false →
      ∃ message, pair deserializeJson body d =
        { d with log := d.log ++ [PortalEvent.send 400 "application/json"
          (errorBody message) corsHeader] }) ∧
    (acceptablePairing deserializeJson body = true → d.pairingCallback = false →
      pair deserializeJson body d =
        { d with log := d.log ++ [PortalEvent.send 500 "application/json"
          (errorBody "Missing Pairing Functionality") corsHeader] }) := by
  obtain ⟨hyes, hno⟩ := pair_spec deserializeJson body d
  cases hacc : acceptablePairing deserializeJson body with
  | false =>
    obtain ⟨message, hm⟩ := hno hacc
    have he := pairEffects_of_eq deserializeJson body d _ hm
    refine ⟨?_, ?_, ?_, (fun _ => ⟨message, hm⟩), (fun h => by cases h)⟩
    · rw [he]; simp
    · rw [he]; simp [PortalEvent.isPaired]
    · rw [he]; simp [PortalEvent.status?]
  | true =>
    obtain ⟨doc, hdoc, hp⟩ := hyes hacc
    by_cases hcb : d.pairingCallback = true
    · rw [if_pos hcb] at hp
      have he := pairEffects_of_eq deserializeJson body d _ hp
      refine ⟨?_, ?_, ?_, (fun h => by cases h), (fun _ h => ?_)⟩
      · rw [he]; simp [hdoc, hcb]
      · rw [he]; simp [PortalEvent.isPaired, hcb]
      · rw [he]; simp [PortalEvent.status?, hcb]
      · rw [hcb] at h; cases h
    · rw [if_neg hcb] at hp
      have he := pairEffects_of_eq deserializeJson body d _ hp
      refine ⟨?_, ?_, ?_, (fun h => by cases h), (fun _ _ => hp)⟩
      · rw [he]; simp [hcb]
      · rw [he]; simp [PortalEvent.isPaired, hcb]
      · rw [he]; simp [PortalEvent.status?, hcb]

/-- C19 at the sample body with a registered callback, and at the body "x", which the
sample parser rejects. -/
theorem pair_accepts_iff_witness :
    pairEffects samplePairingParser samplePairingText.toList
        (onPaired (samplePortal sampleStore)) =
      [PortalEvent.paired samplePairingDoc,
        PortalEvent.send 202 "application/json"
          "\x7b\"status\":\"success\",\"message\":\"Request Accepted: Listen On Websocket\"\x7d"
          corsHeader] ∧
    ∃ message, pair samplePairingParser ['x'] (onPaired (samplePortal sampleStore)) =
      { onPaired (samplePortal sampleStore) with
        log := (onPaired (samplePortal sampleStore)).log ++
          [PortalEvent.send 400 "application/json" (errorBody message) corsHeader] } := by
  have h := pair_accepts_iff samplePairingParser samplePairingText.toList
    (onPaired (samplePortal sampleStore))
  obtain ⟨doc, hdoc, he⟩ := h.1.mpr ⟨by decide, by decide⟩
  have hd : doc = samplePairingDoc := by
    have : samplePairingParser (String.mk samplePairingText.toList) = some samplePairingDoc := by
      decide
    rw [this] at hdoc
    exact (Option.some.inj hdoc).symm
  subst hd
  exact ⟨he, (pair_accepts_iff samplePairingParser ['x']
    (onPaired (samplePortal sampleStore))).2.2.2.1 (by decide)⟩

end OTADash

/-! ## The end of a firmware upload: claim C20 -/

namespace OTADash

/-- C20: `handleUpdate` (ESP8266 branch) answers with status 500 and the text "FAIL" when
`Update.hasError()` holds and with status 200 and the text "OK" when it does not; it then
calls `delay(2000)` and restarts, and does nothing else.  On a clock that starts at `t0` and
on which `delay(ms)` takes `ms` plus any `slack`, the answer is sent at `t0` and the restart
happens at `t0 + 2000 + slack`, which is not earlier than 2000 ms after the answer.  (The
delay and the restart follow the answer after a failed upload as well.) -/
theorem handleUpdate_answers_then_restarts (update : UpdateClass) (d : OTADash)
    (slack t0 : Nat) :
    (handleUpdate update d).log = d.log ++
      [PortalEvent.send (if update.hasError then 500 else 200) "text/plain"
          (if update.hasError then "FAIL" else "OK") [("Connection", "close")],
        PortalEvent.delay 2000, PortalEvent.restart] ∧
    (((handleUpdate update d).log.drop d.log.length).head?.bind PortalEvent.status? =
      some (if update.error then 500 else 200)) ∧
    (∃ tSend tRestart,
      firstTime PortalEvent.isSend
        (timeline slack t0 ((handleUpdate update d).log.drop d.log.length)) = some tSend ∧
      firstTime PortalEvent.isRestart
        (timeline slack t0 ((handleUpdate update d).log.drop d.log.length)) = some tRestart ∧
      tSend = t0 ∧ tRestart = t0 + 2000 + slack ∧ tSend + 2000 ≤ tRestart) ∧
    { handleUpdate update d with log := d.log } = d := by
  have hlog : (handleUpdate update d).log = d.log ++
      [PortalEvent.send (if update.hasError then 500 else 200) "text/plain"
          (if update.hasError then "FAIL" else "OK") [("Connection", "close")],
        PortalEvent.delay 2000, PortalEvent.restart] := by
    simp only [handleUpdate, note, List.append_assoc, List.singleton_append]
    rfl
  have hdrop : (handleUpdate update d).log.drop d.log.length =
      [PortalEvent.send (if update.hasError then 500 else 200) "text/plain"
          (if update.hasError then "FAIL" else "OK") [("Connection", "close")],
        PortalEvent.delay 2000, PortalEvent.restart] := by
    rw [hlog]
    exact List.drop_left _ _
  refine ⟨hlog, ?_, ?_, ?_⟩
  · rw [hdrop]
    rfl
  · rw [hdrop]
    refine ⟨t0, t0 + 2000 + slack, ?_, ?_, rfl, rfl, by omega⟩
    · simp [timeline, firstTime, PortalEvent.isSend]
    · simp [timeline, firstTime, PortalEvent.isSend, PortalEvent.isRestart]
  · simp only [handleUpdate, note]

end OTADash

/-! ## Device identity: claims C21 and C22 -/

theorem isHexDigit_ne_colon (c : Char) (h : isHexDigit c = true) : c ≠ ':' := by
  intro hc
  subst hc
  revert h
  decide

/-- The id and the name for an address of six byte pairs, none of them a colon. -/
theorem generateDevice_spec (pairs : List (Char × Char)) (rnd : Nat)
    (hlen : pairs.length = 6)
    (hhex : ∀ p ∈ pairs, p.1 ≠ ':' ∧ p.2 ≠ ':')
    (hne : macText pairs ≠ "00:00:00:00:00:00") :
    generateDeviceUUID (macText pairs) rnd = "WASA-" ++ String.mk (upperDigits pairs) ∧
      generateDeviceName (generateDeviceUUID (macText pairs) rnd) =
        "WASA_Relay_" ++ String.mk (upperDigits (pairs.drop 3)) := by
  rcases pairs with _ | ⟨a, _ | ⟨b, _ | ⟨c, _ | ⟨d, _ | ⟨e, _ | ⟨f, _ | ⟨g, rest⟩⟩⟩⟩⟩⟩⟩ <;>
    simp at hlen
  simp only [List.mem_cons, List.mem_singleton, forall_eq_or_imp, forall_eq, List.not_mem_nil,
    false_imp_iff, implies_true, and_true] at hhex
  obtain ⟨⟨a1, a2⟩, ⟨b1, b2⟩, ⟨c1, c2⟩, ⟨d1, d2⟩, ⟨e1, e2⟩, ⟨f1, f2⟩⟩ := hhex
  have hid : generateDeviceUUID (macText [a, b, c, d, e, f]) rnd =
      "WASA-" ++ String.mk (upperDigits [a, b, c, d, e, f]) := by
    unfold generateDeviceUUID
    rw [if_neg]
    · simp [macText, upperDigits, List.intercalate, List.filter_cons, a1, a2, b1, b2, c1, c2,
        d1, d2, e1, e2, f1, f2]
    · rintro (h | h)
      · simp [macText, String.length, List.intercalate] at h
      · exact hne h
  refine ⟨hid, ?_⟩
  rw [hid]
  have hu : "WASA-" ++ String.mk (upperDigits [a, b, c, d, e, f]) =
      String.mk ('W' :: 'A' :: 'S' :: 'A' :: '-' :: upperDigits [a, b, c, d, e, f]) := rfl
  rw [hu]
  unfold generateDeviceName
  have hlen17 : (String.mk ('W' :: 'A' :: 'S' :: 'A' :: '-' ::
      upperDigits [a, b, c, d, e, f])).length = 17 := rfl
  rw [hlen17, if_neg (by decide)]
  rfl

/-- C21: for a hardware address of six colon-separated pairs of hexadecimal digits other
than 00:00:00:00:00:00, `generateDeviceUUID` returns "WASA-" followed by the digits of the
address without the colons and with letters in upper case, and `generateDeviceName` of that
id returns "WASA_Relay_" followed by the last six characters of the id, which are the digits
of the last three pairs. -/
theorem generateDevice_identity (pairs : List (Char × Char)) (rnd : Nat)
    (hlen : pairs.length = 6)
    (hhex : ∀ p ∈ pairs, isHexDigit p.1 = true ∧ isHexDigit p.2 = true)
    (hne : macText pairs ≠ "00:00:00:00:00:00") :
    generateDeviceUUID (macText pairs) rnd = "WASA-" ++ String.mk (upperDigits pairs) ∧
      generateDeviceName (generateDeviceUUID (macText pairs) rnd) =
        "WASA_Relay_" ++ String.mk (upperDigits (pairs.drop 3)) :=
  generateDevice_spec pairs rnd hlen
    (fun p hp => ⟨isHexDigit_ne_colon _ (hhex p hp).1, isHexDigit_ne_colon _ (hhex p hp).2⟩) hne

/-- C21 at the address AA:BB:CC:DD:EE:FF: the id is WASA-AABBCCDDEEFF and the name is
WASA_Relay_DDEEFF; and at an address with lower-case letters. -/
theorem generateDevice_identity_witness :
    generateDeviceUUID "AA:BB:CC:DD:EE:FF" 4660 = "WASA-AABBCCDDEEFF" ∧
    generateDeviceName (generateDeviceUUID "AA:BB:CC:DD:EE:FF" 4660) = "WASA_Relay_DDEEFF" ∧
    generateDeviceUUID "5c:cf:7f:0a:1b:2c" 4660 = "WASA-5CCF7F0A1B2C" := by
  have h := generateDevice_identity
    [('A', 'A'), ('B', 'B'), ('C', 'C'), ('D', 'D'), ('E', 'E'), ('F', 'F')] 4660
    (by decide) (by decide) (by decide)
  have h2 := generateDevice_identity
    [('5', 'c'), ('c', 'f'), ('7', 'f'), ('0', 'a'), ('1', 'b'), ('2', 'c')] 4660
    (by decide) (by decide) (by decide)
  exact ⟨h.1, h.2, h2.1⟩

/-- C22, as it fails: for the address 00:00:00:00:00:00 (and for an empty address text) the
id is the fallback "ESP-UNKNOWN-" followed by a random number, so two runs on the same
address give different ids when `random` returns different values. -/
theorem generateDeviceUUID_fallback_random :
    generateDeviceUUID "00:00:00:00:00:00" 0 = "ESP-UNKNOWN-1000" ∧
    generateDeviceUUID "00:00:00:00:00:00" 1 = "ESP-UNKNOWN-1001" ∧
    generateDeviceUUID "00:00:00:00:00:00" 0 ≠ generateDeviceUUID "00:00:00:00:00:00" 1 ∧
    generateDeviceUUID "" 0 ≠ generateDeviceUUID "" 1 := by
  decide

/-- C22, amended: for every address text other than the empty text and 00:00:00:00:00:00,
the id is "WASA-" followed by the characters of the address other than colons, in upper
case; it does not depend on the value of `random`, so any two runs on that address return
the same id. -/
theorem generateDeviceUUID_deterministic (mac : String) (rnd1 rnd2 : Nat)
    (h1 : mac.length ≠ 0) (h2 : mac ≠ "00:00:00:00:00:00") :
    generateDeviceUUID mac rnd1 = generateDeviceUUID mac rnd2 ∧
      generateDeviceUUID mac rnd1 =
        "WASA-" ++ String.mk ((mac.toList.filter (fun c => c != ':')).map Char.toUpper) := by
  have h : ∀ rnd, generateDeviceUUID mac rnd =
      "WASA-" ++ String.mk ((mac.toList.filter (fun c => c != ':')).map Char.toUpper) := by
    intro rnd
    unfold generateDeviceUUID
    rw [if_neg]
    rintro (h | h)
    · exact h1 h
    · exact h2 h
  exact ⟨by rw [h rnd1, h rnd2], h rnd1⟩

/-- C22 amended, at the address AA:BB:CC:DD:EE:FF with two values of `random`. -/
theorem generateDeviceUUID_deterministic_witness :
    generateDeviceUUID "AA:BB:CC:DD:EE:FF" 0 = generateDeviceUUID "AA:BB:CC:DD:EE:FF" 1 :=
  (generateDeviceUUID_deterministic "AA:BB:CC:DD:EE:FF" 0 1 (by decide) (by decide)).1

/-! ## The hold of the button at start-up: claim C23 -/

theorem ulongSub_of_le (a b : Nat) (ha : a < ULONG_RANGE) (hb : b ≤ a) :
    ulongSub a b = a - b := by
  unfold ulongSub ULONG_RANGE at *
  omega

theorem heldFrom_nil (start since : Nat) : ¬ HeldFrom start since [] := by
  rintro ⟨mid, b, post, h, _⟩
  cases mid <;> cases h

theorem heldRun_nil (start : Nat) : ¬ HeldRun start [] := by
  rintro ⟨pre, a, mid, b, post, h, _⟩
  cases pre <;> cases h

theorem heldFrom_cons (start since : Nat) (s : ButtonSample) (rest : List ButtonSample) :
    HeldFrom start since (s :: rest) ↔
      s.level = PinLevel.LOW ∧
        ((s.clock < start + 10000 ∧ since + 3000 ≤ s.clock) ∨ HeldFrom start since rest) := by
  constructor
  · rintro ⟨mid, b, post, h, hmid, hb, hw, hd⟩
    rcases mid with _ | ⟨m, mid⟩
    · simp only [List.nil_append, List.cons.injEq] at h
      obtain ⟨rfl, rfl⟩ := h
      exact ⟨hb, Or.inl ⟨hw, hd⟩⟩
    · simp only [List.cons_append, List.cons.injEq] at h
      obtain ⟨rfl, rfl⟩ := h
      exact ⟨hmid _ (List.mem_cons_self _ _),
        Or.inr ⟨mid, b, post, rfl, fun x hx => hmid x (List.mem_cons_of_mem _ hx), hb, hw, hd⟩⟩
  · rintro ⟨hs, h | ⟨mid, b, post, h, hmid, hb, hw, hd⟩⟩
    · exact ⟨[], s, rest, rfl, by simp, hs, h.1, h.2⟩
    · refine ⟨s :: mid, b, post, by rw [h]; rfl, ?_, hb, hw, hd⟩
      intro x hx
      rcases List.mem_cons.mp hx with rfl | hx
      · exact hs
      · exact hmid x hx

theorem heldRun_cons (start : Nat) (s : ButtonSample) (rest : List ButtonSample) :
    HeldRun start (s :: rest) ↔
      (s.level = PinLevel.LOW ∧ HeldFrom start s.clock rest) ∨ HeldRun start rest := by
  constructor
  · rintro ⟨pre, a, mid, b, post, h, ha, hmid, hb, hw, hd⟩
    rcases pre with _ | ⟨p, pre⟩
    · simp only [List.nil_append, List.cons.injEq] at h
      obtain ⟨rfl, rfl⟩ := h
      exact Or.inl ⟨ha, mid, b, post, rfl, hmid, hb, hw, hd⟩
    · simp only [List.cons_append, List.cons.injEq] at h
      obtain ⟨rfl, rfl⟩ := h
      exact Or.inr ⟨pre, a, mid, b, post, rfl, ha, hmid, hb, hw, hd⟩
  · rintro (⟨hs, mid, b, post, h, hmid, hb, hw, hd⟩ | ⟨pre, a, mid, b, post, h, ha, hmid, hb, hw, hd⟩)
    · exact ⟨[], s, mid, b, post, by rw [h]; rfl, hs, hmid, hb, hw, hd⟩
    · exact ⟨s :: pre, a, mid, b, post, by rw [h]; rfl, ha, hmid, hb, hw, hd⟩

theorem heldFrom_mono (start since since2 : Nat) (samples : List ButtonSample)
    (hle : since ≤ since2) (h : HeldFrom start since2 samples) : HeldFrom start since samples := by
  obtain ⟨mid, b, post, h, hmid, hb, hw, hd⟩ := h
  exact ⟨mid, b, post, h, hmid, hb, hw, by omega⟩

theorem heldFrom_late (start since : Nat) (samples : List ButtonSample)
    (hlate : ∀ s ∈ samples, start + 10000 ≤ s.clock) : ¬ HeldFrom start since samples := by
  rintro ⟨mid, b, post, h, _, _, hw, _⟩
  have := hlate b (by rw [h]; simp)
  omega

theorem heldRun_late (start : Nat) (samples : List ButtonSample)
    (hlate : ∀ s ∈ samples, start + 10000 ≤ s.clock) : ¬ HeldRun start samples := by
  rintro ⟨pre, a, mid, b, post, h, _, _, _, hw, _⟩
  have := hlate b (by rw [h]; simp)
  omega

/-- What the loop of `checkButtonPress()` decides, for any value of `buttonPressStart` that
is zero or the clock of an earlier pass. -/
theorem checkButtonLoop_true_iff (start : Nat) :
    ∀ (samples : List ButtonSample) (since : Nat),
      (∀ s ∈ samples, 0 < s.clock ∧ s.clock < ULONG_RANGE ∧ start ≤ s.clock ∧ since ≤ s.clock) →
      samples.Pairwise (fun a b => a.clock ≤ b.clock) →
      (checkButtonLoop start since samples = some true ↔
        (since ≠ 0 ∧ HeldFrom start since samples) ∨ HeldRun start samples) := by
  intro samples
  induction samples with
  | nil =>
    intro since _ _
    simp [checkButtonLoop, heldFrom_nil, heldRun_nil]
  | cons s rest ih =>
    intro since hall hsorted
    obtain ⟨hpos, hlt, hge, hsince⟩ := hall s (List.mem_cons_self _ _)
    have hrest : ∀ x ∈ rest, 0 < x.clock ∧ x.clock < ULONG_RANGE ∧ start ≤ x.clock :=
      fun x hx => ⟨(hall x (List.mem_cons_of_mem _ hx)).1, (hall x (List.mem_cons_of_mem _ hx)).2.1,
        (hall x (List.mem_cons_of_mem _ hx)).2.2.1⟩
    rw [List.pairwise_cons] at hsorted
    obtain ⟨hhead, htail⟩ := hsorted
    have hmod : s.clock % ULONG_RANGE = s.clock := Nat.mod_eq_of_lt hlt
    have hsub : ulongSub s.clock start = s.clock - start := ulongSub_of_le _ _ hlt hge
    have hsub2 : ulongSub s.clock since = s.clock - since := ulongSub_of_le _ _ hlt hsince
    rw [heldFrom_cons, heldRun_cons]
    unfold checkButtonLoop
    rw [hmod, hsub, hsub2]
    by_cases hwin : s.clock - start < 10000
    · rw [if_pos hwin]
      by_cases hlow : s.level = PinLevel.LOW
      · rw [if_pos hlow]
        by_cases hzero : since = 0
        · rw [if_pos hzero]
          rw [ih s.clock (fun x hx => ⟨(hrest x hx).1, (hrest x hx).2.1, (hrest x hx).2.2,
            hhead x hx⟩) htail]
          constructor
          · rintro (⟨_, h⟩ | h)
            · exact Or.inr (Or.inl ⟨hlow, h⟩)
            · exact Or.inr (Or.inr h)
          · rintro (⟨h, _⟩ | ⟨_, h⟩ | h)
            · exact absurd hzero h
            · exact Or.inl ⟨by omega, h⟩
            · exact Or.inr h
        · rw [if_neg hzero]
          by_cases hheld : s.clock - since ≥ 3000
          · rw [if_pos hheld]
            simp only [true_iff]
            exact Or.inl ⟨hzero, hlow, Or.inl ⟨by omega, by omega⟩⟩
          · rw [if_neg hheld]
            rw [ih since (fun x hx => ⟨(hrest x hx).1, (hrest x hx).2.1, (hrest x hx).2.2,
              le_trans hsince (hhead x hx)⟩) htail]
            constructor
            · rintro (⟨_, h⟩ | h)
              · exact Or.inl ⟨hzero, hlow, Or.inr h⟩
              · exact Or.inr (Or.inr h)
            · rintro (⟨_, _, h | h⟩ | ⟨_, h⟩ | h)
              · omega
              · exact Or.inl ⟨hzero, h⟩
              · exact Or.inl ⟨hzero, heldFrom_mono _ _ _ _ hsince h⟩
              · exact Or.inr h
      · rw [if_neg hlow]
        rw [ih 0 (fun x hx => ⟨(hrest x hx).1, (hrest x hx).2.1, (hrest x hx).2.2,
          Nat.zero_le _⟩) htail]
        constructor
        · rintro (⟨h, _⟩ | h)
          · exact absurd rfl h
          · exact Or.inr (Or.inr h)
        · rintro (⟨_, h, _⟩ | ⟨h, _⟩ | h)
          · exact absurd h hlow
          · exact absurd h hlow
          · exact Or.inr h
    · rw [if_neg hwin]
      have hlate : ∀ x ∈ rest, start + 10000 ≤ x.clock := by
        intro x hx
        have := hhead x hx
        omega
      constructor
      · intro h
        cases h
      · rintro (⟨_, _, h | h⟩ | ⟨_, h⟩ | h)
        · omega
        · exact absurd h (heldFrom_late _ _ _ hlate)
        · exact absurd h (heldFrom_late _ _ _ hlate)
        · exact absurd h (heldRun_late _ _ hlate)

/-- The loop decides as soon as a pass is taken 10000 ms or more after the start, and it
answers false only at such a pass. -/
theorem checkButtonLoop_decides (start : Nat) :
    ∀ (samples : List ButtonSample) (since : Nat),
      ((∃ s ∈ samples, 10000 ≤ ulongSub (s.clock % ULONG_RANGE) start) →
        checkButtonLoop start since samples ≠ none) ∧
      (checkButtonLoop start since samples = some false →
        ∃ s ∈ samples, 10000 ≤ ulongSub (s.clock % ULONG_RANGE) start) := by
  intro samples
  induction samples with
  | nil =>
    intro since
    simp [checkButtonLoop]
  | cons s rest ih =>
    intro since
    unfold checkButtonLoop
    by_cases hwin : ulongSub (s.clock % ULONG_RANGE) start < 10000
    · rw [if_pos hwin]
      have hnot : ¬ 10000 ≤ ulongSub (s.clock % ULONG_RANGE) start := by omega
      have hex : (∃ x ∈ s :: rest, 10000 ≤ ulongSub (x.clock % ULONG_RANGE) start) ↔
          ∃ x ∈ rest, 10000 ≤ ulongSub (x.clock % ULONG_RANGE) start := by
        simp [hnot]
      rw [hex]
      split
      · split
        · exact ih _
        · split
          · exact ⟨(fun _ h => by cases h), (fun h => by cases h)⟩
          · exact ih _
      · exact ih _
    · rw [if_neg hwin]
      exact ⟨(fun _ h => by cases h), (fun _ => ⟨s, List.mem_cons_self _ _, by omega⟩)⟩

/-- C23: over passes whose clock values are non-zero and do not decrease,
`checkButtonPress()` returns true if and only if some pass taken less than 10000 ms after
the start reads LOW and ends a run of consecutive LOW passes whose first pass is at least
3000 ms earlier (a HIGH pass in between ends the run, so the measurement starts again).
When some pass is taken 10000 ms or more after the start and there is no such run, it
returns false; and it returns false only when a pass is taken 10000 ms or more after the
start. -/
theorem checkButtonPress_iff_held (start : Nat) (samples : List ButtonSample)
    (hclock : ClockOrdered start samples) :
    (checkButtonPress start samples = some true ↔ HeldRun start samples) ∧
    ((∃ s ∈ samples, start + 10000 ≤ s.clock) → ¬ HeldRun start samples →
      checkButtonPress start samples = some false) ∧
    (checkButtonPress start samples = some false → ∃ s ∈ samples, start + 10000 ≤ s.clock) := by
  obtain ⟨hstart, hall, hsorted⟩ := hclock
  have hmod : start % ULONG_RANGE = start := Nat.mod_eq_of_lt hstart
  have hiff : checkButtonPress start samples = some true ↔ HeldRun start samples := by
    unfold checkButtonPress
    rw [hmod, checkButtonLoop_true_iff start samples 0
      (fun s hs => ⟨(hall s hs).1, (hall s hs).2.1, (hall s hs).2.2, Nat.zero_le _⟩) hsorted]
    constructor
    · rintro (⟨h, _⟩ | h)
      · exact absurd rfl h
      · exact h
    · exact Or.inr
  have hsub : ∀ s ∈ samples, ulongSub (s.clock % ULONG_RANGE) start = s.clock - start := by
    intro s hs
    rw [Nat.mod_eq_of_lt (hall s hs).2.1]
    exact ulongSub_of_le _ _ (hall s hs).2.1 (hall s hs).2.2
  obtain ⟨hdec, hfalse⟩ := checkButtonLoop_decides start samples 0
  refine ⟨hiff, ?_, ?_⟩
  · rintro ⟨s, hs, hlate⟩ hno
    have hne : checkButtonPress start samples ≠ none := by
      unfold checkButtonPress
      rw [hmod]
      exact hdec ⟨s, hs, by rw [hsub s hs]; omega⟩
    cases hres : checkButtonPress start samples with
    | none => exact absurd hres hne
    | some b =>
      cases b with
      | false => rfl
      | true => exact absurd (hiff.mp hres) hno
  · intro h
    unfold checkButtonPress at h
    rw [hmod] at h
    obtain ⟨s, hs, hlate⟩ := hfalse h
    rw [hsub s hs] at hlate
    exact ⟨s, hs, by have := (hall s hs).2.2; omega⟩

/-- C23 at three runs of passes that start at clock 1000: a hold from 1100 to 4100 is
reported; a hold that a HIGH pass at 3000 interrupts is not, and the function returns false
at the pass taken at 11000; a hold from 9000 on is not reported, because its pass at 12000
is taken after the 10000 ms. -/
theorem checkButtonPress_iff_held_witness :
    checkButtonPress 1000
      [⟨1000, PinLevel.HIGH⟩, ⟨1100, PinLevel.LOW⟩, ⟨2000, PinLevel.LOW⟩,
        ⟨4100, PinLevel.LOW⟩] = some true ∧
    HeldRun 1000
      [⟨1000, PinLevel.HIGH⟩, ⟨1100, PinLevel.LOW⟩, ⟨2000, PinLevel.LOW⟩,
        ⟨4100, PinLevel.LOW⟩] ∧
    checkButtonPress 1000
      [⟨1100, PinLevel.LOW⟩, ⟨3000, PinLevel.HIGH⟩, ⟨4200, PinLevel.LOW⟩,
        ⟨11000, PinLevel.LOW⟩] = some false ∧
    ¬ HeldRun 1000
      [⟨1100, PinLevel.LOW⟩, ⟨3000, PinLevel.HIGH⟩, ⟨4200, PinLevel.LOW⟩,
        ⟨11000, PinLevel.LOW⟩] ∧
    ¬ HeldRun 1000 [⟨9000, PinLevel.LOW⟩, ⟨12000, PinLevel.LOW⟩] := by
  have hord : ∀ l : List ButtonSample,
      ((∀ s ∈ l, 0 < s.clock ∧ s.clock < ULONG_RANGE ∧ 1000 ≤ s.clock) ∧
        l.Pairwise (fun a b => a.clock ≤ b.clock)) → ClockOrdered 1000 l :=
    fun l h => ⟨by decide, h.1, h.2⟩
  have h1 := checkButtonPress_iff_held 1000
    [⟨1000, PinLevel.HIGH⟩, ⟨1100, PinLevel.LOW⟩, ⟨2000, PinLevel.LOW⟩, ⟨4100, PinLevel.LOW⟩]
    (hord _ (by decide))
  have h2 := checkButtonPress_iff_held 1000
    [⟨1100, PinLevel.LOW⟩, ⟨3000, PinLevel.HIGH⟩, ⟨4200, PinLevel.LOW⟩, ⟨11000, PinLevel.LOW⟩]
    (hord _ (by decide))
  have h3 := checkButtonPress_iff_held 1000 [⟨9000, PinLevel.LOW⟩, ⟨12000, PinLevel.LOW⟩]
    (hord _ (by decide))
  have e1 : checkButtonPress 1000
      [⟨1000, PinLevel.HIGH⟩, ⟨1100, PinLevel.LOW⟩, ⟨2000, PinLevel.LOW⟩,
        ⟨4100, PinLevel.LOW⟩] = some true := by decide
  have e2 : checkButtonPress 1000
      [⟨1100, PinLevel.LOW⟩, ⟨3000, PinLevel.HIGH⟩, ⟨4200, PinLevel.LOW⟩,
        ⟨11000, PinLevel.LOW⟩] = some false := by decide
  have e3 : checkButtonPress 1000 [⟨9000, PinLevel.LOW⟩, ⟨12000, PinLevel.LOW⟩] = some false := by
    decide
  refine ⟨e1, h1.1.mp e1, e2, ?_, ?_⟩
  · intro h
    have := h2.1.mpr h
    rw [e2] at this
    cases this
  · intro h
    have := h3.1.mpr h
    rw [e3] at this
    cases this

/-! ## Intake of upload chunks: claim C24 -/

namespace OTADash

/-- The state of the `Update` object when `handleUpload` tests the error flag: after the
call of `begin` for the first chunk, as it was for every other chunk. -/
theorem handleUpload_calls (lib : Updater) (freeSketchSpace : Nat) (c : Chunk)
    (s : UpdateClass × List UpdateCall) (u : UpdateClass)
    (hu : u = if c.index = 0 then (lib.begin (maxSketchSpace freeSketchSpace) s.1).2 else s.1) :
    (handleUpload lib freeSketchSpace c s).2 =
      s.2 ++ (if c.index = 0 then [UpdateCall.begin (maxSketchSpace freeSketchSpace)] else [])
        ++ (if u.hasError then [] else [UpdateCall.write c.data])
        ++ (if c.final then [UpdateCall.finish true] else []) := by
  subst hu
  unfold handleUpload
  by_cases h0 : c.index = 0
  · cases he : (lib.begin (maxSketchSpace freeSketchSpace) s.1).2.hasError <;>
      cases hf : c.final <;> simp [h0, hf, he]
  · cases he : s.1.hasError <;> cases hf : c.final <;> simp [h0, hf, he]

/-- A chunk that is neither the first nor the last, handled while the error flag is set,
leaves the `Update` object as it is and makes no call on it. -/
theorem handleUpload_discards (lib : Updater) (freeSketchSpace : Nat) (c : Chunk)
    (s : UpdateClass × List UpdateCall) (h0 : c.index ≠ 0) (hf : c.final = false)
    (herr : s.1.hasError = true) : handleUpload lib freeSketchSpace c s = s := by
  unfold handleUpload
  simp [h0, hf, herr]

theorem handleUploads_discards (lib : Updater) (freeSketchSpace : Nat) (cs : List Chunk) :
    ∀ s : UpdateClass × List UpdateCall,
      (∀ c ∈ cs, c.index ≠ 0 ∧ c.final = false) → s.1.hasError = true →
      handleUploads lib freeSketchSpace cs s = s := by
  induction cs with
  | nil => intro s _ _; rfl
  | cons c cs ih =>
    intro s hall herr
    unfold handleUploads
    rw [List.foldl_cons, handleUpload_discards lib freeSketchSpace c s
      (hall c (List.mem_cons_self _ _)).1 (hall c (List.mem_cons_self _ _)).2 herr]
    exact ih s (fun x hx => hall x (List.mem_cons_of_mem _ hx)) herr

end OTADash

namespace OTADash

/-- C24, as it fails: an upload of three chunks on which the write of the first chunk
raises the error flag.  The second chunk is discarded without a call, and on the terminating
chunk `handleUpload` calls `Update.end(true)` although the error flag is set: the handler
does not test the flag before it finalizes. -/
theorem handleUpload_finishes_failed_stream :
    ((handleUploads (sampleUpdater (true, false, true)) 1048576
      [⟨0, [1, 2], false⟩] (⟨false, false, []⟩, [])).1.hasError = true) ∧
    (handleUploads (sampleUpdater (true, false, true)) 1048576
      [⟨0, [1, 2], false⟩, ⟨2, [3, 4], false⟩, ⟨4, [5], true⟩] (⟨false, false, []⟩, [])).2 =
      [UpdateCall.begin 1044480, UpdateCall.write [1, 2], UpdateCall.finish true] ∧
    (handleUpload (sampleUpdater (true, true, true)) 1048576 ⟨4, [5], true⟩
      (⟨true, true, [1, 2]⟩, [])).2 = [UpdateCall.finish true] := by
  decide

/-- C24, amended: for every behaviour of the `Update` object, every chunk and every state.
`handleUpload` calls `Update.write` with the bytes of the chunk (once) if and only if the
error flag is clear when it tests it, which is after the call of `Update.begin` for the
first chunk; it calls `Update.end(true)` if and only if the chunk is the terminating one,
whether or not the error flag is set.  While the error flag is set, chunks that are neither
the first nor the last are taken without any call and without a change of the state, however
many arrive, and the terminating chunk then makes the single call `Update.end(true)`. -/
theorem handleUpload_writes_iff_clear (lib : Updater) (freeSketchSpace : Nat) (c : Chunk)
    (s : UpdateClass × List UpdateCall) :
    (UpdateCall.write c.data ∈ (handleUpload lib freeSketchSpace c s).2.drop s.2.length ↔
      (if c.index = 0 then (lib.begin (maxSketchSpace freeSketchSpace) s.1).2
        else s.1).hasError = false) ∧
    (((handleUpload lib freeSketchSpace c s).2.drop s.2.length).countP UpdateCall.isWrite =
      if (if c.index = 0 then (lib.begin (maxSketchSpace freeSketchSpace) s.1).2
        else s.1).hasError then 0 else 1) ∧
    (UpdateCall.finish true ∈ (handleUpload lib freeSketchSpace c s).2.drop s.2.length ↔
      c.final = true) ∧
    (∀ cs : List Chunk, (∀ x ∈ cs, x.index ≠ 0 ∧ x.final = false) → s.1.hasError = true →
      handleUploads lib freeSketchSpace cs s = s) ∧
    (c.index ≠ 0 → c.final = true → s.1.hasError = true →
      handleUpload lib freeSketchSpace c s =
        ((lib.finish true s.1).2, s.2 ++ [UpdateCall.finish true])) := by
  have h := handleUpload_calls lib freeSketchSpace c s _ rfl
  have hdrop : (handleUpload lib freeSketchSpace c s).2.drop s.2.length =
      (if c.index = 0 then [UpdateCall.begin (maxSketchSpace freeSketchSpace)] else [])
        ++ (if (if c.index = 0 then (lib.begin (maxSketchSpace freeSketchSpace) s.1).2
              else s.1).hasError then [] else [UpdateCall.write c.data])
        ++ (if c.final then [UpdateCall.finish true] else []) := by
    rw [h, List.append_assoc, List.append_assoc, List.drop_left]
    simp
  refine ⟨?_, ?_, ?_, ?_, ?_⟩
  · rw [hdrop]
    by_cases h0 : c.index = 0 <;> cases hf : c.final <;>
      cases he : (if c.index = 0 then (lib.begin (maxSketchSpace freeSketchSpace) s.1).2
        else s.1).hasError <;> simp [h0]
  · rw [hdrop]
    by_cases h0 : c.index = 0 <;> cases hf : c.final <;>
      cases he : (if c.index = 0 then (lib.begin (maxSketchSpace freeSketchSpace) s.1).2
        else s.1).hasError <;> simp [h0, UpdateCall.isWrite]
  · rw [hdrop]
    by_cases h0 : c.index = 0 <;> cases hf : c.final <;>
      cases he : (if c.index = 0 then (lib.begin (maxSketchSpace freeSketchSpace) s.1).2
        else s.1).hasError <;> simp [h0]
  · intro cs hall herr
    exact handleUploads_discards lib freeSketchSpace cs s hall herr
  · intro h0 hf herr
    unfold handleUpload
    simp [h0, hf, herr]

/-- C24 amended, at an upload whose first write fails: the first chunk is written, the two
chunks that follow are discarded, and the terminating chunk is finalized. -/
theorem handleUpload_writes_iff_clear_witness :
    (handleUploads (sampleUpdater (true, false, true)) 1048576
        [⟨2, [3, 4], false⟩, ⟨4, [5, 6], false⟩]
        (⟨true, true, []⟩, [UpdateCall.begin 1044480, UpdateCall.write [1, 2]]) =
      (⟨true, true, []⟩, [UpdateCall.begin 1044480, UpdateCall.write [1, 2]])) ∧
    (UpdateCall.write [1, 2] ∈
      (handleUpload (sampleUpdater (true, false, true)) 1048576 ⟨0, [1, 2], false⟩
        (⟨false, false, []⟩, [])).2) := by
  have h1 := (handleUpload_writes_iff_clear (sampleUpdater (true, false, true)) 1048576
    ⟨2, [3, 4], false⟩
    (⟨true, true, []⟩, [UpdateCall.begin 1044480, UpdateCall.write [1, 2]])).2.2.2.1
    [⟨2, [3, 4], false⟩, ⟨4, [5, 6], false⟩] (by decide) rfl
  have h2 := (handleUpload_writes_iff_clear (sampleUpdater (true, false, true)) 1048576
    ⟨0, [1, 2], false⟩ (⟨false, false, []⟩, [])).1.mpr (by decide)
  exact ⟨h1, by simpa using h2⟩

end OTADash

/-! ## Start of the heartbeat period: claim C25 -/

namespace MQTTRelay

/-- The two members that the statements of C25 and C28 follow. -/
theorem onClient_keeps (f : PubSubClient → PubSubClient) (d : MQTTRelay) :
    (d.onClient f).autoReconnect = d.autoReconnect ∧
      (d.onClient f).lastHeartbeat = d.lastHeartbeat := by
  rcases d with ⟨_, _, _, _, _, _, _, _, _, _, _, _, mc, _⟩
  cases mc <;> exact ⟨rfl, rfl⟩

theorem sendStatus_keeps (env : Platform) (status : String) (retained : Bool) (d : MQTTRelay) :
    (sendStatus env status retained d).autoReconnect = d.autoReconnect ∧
      (sendStatus env status retained d).lastHeartbeat = d.lastHeartbeat := by
  unfold sendStatus
  split
  · exact ⟨rfl, rfl⟩
  · exact onClient_keeps _ _

theorem sendHeartbeat_keeps (env : Platform) (d : MQTTRelay) :
    (sendHeartbeat env d).autoReconnect = d.autoReconnect ∧
      (sendHeartbeat env d).lastHeartbeat = d.lastHeartbeat := by
  unfold sendHeartbeat
  split
  · exact ⟨rfl, rfl⟩
  · exact onClient_keeps _ _

theorem connect_keeps (env : Platform) (d : MQTTRelay) :
    (connect env d).2.autoReconnect = d.autoReconnect ∧
      (connect env d).2.lastHeartbeat = d.lastHeartbeat := by
  cases hc : d.mqttClient with
  | none =>
    unfold connect
    rw [hc]
    exact ⟨rfl, rfl⟩
  | some c =>
    cases hd : c.connected with
    | true =>
      unfold connect
      rw [hc]
      simp [hd]
    | false =>
      cases ha : env.accept with
      | true => rw [connect_accepted env d c hc hd ha]; exact ⟨rfl, rfl⟩
      | false => rw [connect_refused env d c hc hd ha]; exact ⟨rfl, rfl⟩

theorem disconnect_keeps (env : Platform) (d : MQTTRelay) :
    (disconnect env d).autoReconnect = d.autoReconnect ∧
      (disconnect env d).lastHeartbeat = d.lastHeartbeat := by
  unfold disconnect
  split
  · obtain ⟨h1, h2⟩ := onClient_keeps PubSubClient.disconnect (sendStatus env "offline" true d)
    obtain ⟨h3, h4⟩ := sendStatus_keeps env "offline" true d
    exact ⟨by rw [h1, h3], by rw [h2, h4]⟩
  · exact ⟨rfl, rfl⟩

theorem setBrokerConfig_keeps (env : Platform) (host : String) (port : Int) (useSSL : Bool)
    (d : MQTTRelay) :
    (setBrokerConfig env host port useSSL d).autoReconnect = d.autoReconnect ∧
      (setBrokerConfig env host port useSSL d).lastHeartbeat = d.lastHeartbeat := by
  unfold setBrokerConfig saveConfig
  exact ⟨rfl, rfl⟩

/-- A pass of `loop()` publishes a heartbeat exactly when its heartbeat test succeeds. -/
theorem emitsHeartbeat_iff (deserializeJson : Deserializer) (t : Tick) (d : MQTTRelay)
    (hs : d.mqttClient.isSome = true) :
    emitsHeartbeat deserializeJson t d = heartbeatDue t d ∧
      (loop deserializeJson t d).lastHeartbeat =
        if heartbeatDue t d then millis t.env else d.lastHeartbeat := by
  have h := observed_loop deserializeJson t d hs
  simp only [observed, Prod.mk.injEq] at h
  obtain ⟨_, _, _, e4, _, _, _, e8⟩ := h
  refine ⟨?_, e4⟩
  unfold emitsHeartbeat
  rw [e8]
  cases heartbeatDue t d <;> simp

end MQTTRelay

namespace MQTTRelay

/-- C25, as it fails: `connect()` does not touch `lastHeartbeat`, so the first heartbeat of
a session is not held back by the connect time.  On the object after `begin()` a pass of
`loop()` at 40000 ms establishes the session and publishes a heartbeat in the same pass; a
session established at 6000 ms publishes its first heartbeat at 31000 ms, and after the link
is lost the session re-established at 62000 ms publishes a heartbeat in that pass. -/
theorem heartbeat_in_pass_of_connect :
    sampleBegun.isConnected = false ∧ sampleBegun.lastHeartbeat = 0 ∧
    (loop sampleParser (sampleTick 40000 true) sampleBegun).isConnected = true ∧
    (loop sampleParser (sampleTick 40000 true) sampleBegun).attempts = sampleBegun.attempts + 1 ∧
    heartbeatTimes sampleParser [sampleTick 40000 true] sampleBegun = [40000] ∧
    (loop sampleParser (sampleTick 6000 true) sampleBegun).isConnected = true ∧
    heartbeatTimes sampleParser
      [sampleTick 6000 true, sampleTick 31000 true, sampleTickLinkDown 50000 false,
        sampleTick 62000 true] sampleBegun = [31000, 62000] := by
  decide

/-- C25, amended: the heartbeat period is measured from the last heartbeat only, and from
clock 0 before the first one.  `connect()` leaves `lastHeartbeat` as it is.  On an object
with a client, a pass of `loop()` publishes a heartbeat if and only if the session is up
when the pass reaches the heartbeat test (also when the pass itself has just established
it) and more than HEARTBEAT_INTERVAL has elapsed since `lastHeartbeat` in `unsigned long`
arithmetic; such a pass sets `lastHeartbeat` to its clock, any other pass keeps it. -/
theorem heartbeat_measured_from_last (deserializeJson : Deserializer) (t : Tick)
    (d : MQTTRelay) (hs : d.mqttClient.isSome = true) :
    (emitsHeartbeat deserializeJson t d = true ↔
      (sessionAtHeartbeat t d = true ∧
        HEARTBEAT_INTERVAL < ulongSub (millis t.env) d.lastHeartbeat)) ∧
    ((loop deserializeJson t d).lastHeartbeat =
      if emitsHeartbeat deserializeJson t d then millis t.env else d.lastHeartbeat) ∧
    (∀ env : Platform, (connect env d).2.lastHeartbeat = d.lastHeartbeat) := by
  obtain ⟨h1, h2⟩ := emitsHeartbeat_iff deserializeJson t d hs
  refine ⟨?_, ?_, fun env => (connect_keeps env d).2⟩
  · rw [h1]
    unfold heartbeatDue
    simp
  · rw [h1]
    exact h2

/-- C25 amended, at the object after `begin()` and a pass at 40000 ms: the pass establishes
the session and publishes a heartbeat. -/
theorem heartbeat_measured_from_last_witness :
    emitsHeartbeat sampleParser (sampleTick 40000 true) sampleBegun = true ∧
    (loop sampleParser (sampleTick 40000 true) sampleBegun).lastHeartbeat = 40000 := by
  have h := heartbeat_measured_from_last sampleParser (sampleTick 40000 true) sampleBegun
    (by decide)
  have he : emitsHeartbeat sampleParser (sampleTick 40000 true) sampleBegun = true :=
    h.1.mpr (by decide)
  refine ⟨he, ?_⟩
  rw [h.2.1, he]
  decide

end MQTTRelay

/-! ## Region of the broker client in the persistent store: claim C26 -/

namespace MQTTRelay

/-- C26 (fails on the code): the broker client opens MQTT_EEPROM_SIZE = 100 bytes and
accesses offset MQTT_EEPROM_ADDR = 200 (configuration, 168 bytes) and offset 368 (relay
flag), both outside the region.  Every read there returns nothing and every write there is
dropped, whatever the store holds.  So a broker host set with `setBrokerConfig` is in the
object, but an object constructed over the same board after a restart has the default host
again after `begin()`. -/
theorem store_accesses_out_of_range :
    MQTT_EEPROM_SIZE < MQTT_EEPROM_ADDR + SIZEOF_MQTTConfig ∧
    MQTT_EEPROM_SIZE < MQTT_EEPROM_ADDR + SIZEOF_MQTTConfig + 1 ∧
    (∀ (e : EEPROMClass) (len : Nat),
      (e.begin MQTT_EEPROM_SIZE).read MQTT_EEPROM_ADDR len = none ∧
      (e.begin MQTT_EEPROM_SIZE).read (MQTT_EEPROM_ADDR + SIZEOF_MQTTConfig) len = none) ∧
    (∀ (e : EEPROMClass) (bytes : List Nat),
      (e.begin MQTT_EEPROM_SIZE).write MQTT_EEPROM_ADDR bytes = e.begin MQTT_EEPROM_SIZE ∧
      (e.begin MQTT_EEPROM_SIZE).write (MQTT_EEPROM_ADDR + SIZEOF_MQTTConfig) bytes =
        e.begin MQTT_EEPROM_SIZE) ∧
    cString (setBrokerConfig sampleEnv "broker.local" 1883 false sampleBegun).config.brokerHost
      = "broker.local".toList ∧
    cString (begin sampleEnv (MQTTRelay.new 2 "WASA-AABBCCDDEEFF" "WASA_Relay_DDEEFF" sampleUninit
      (setBrokerConfig sampleEnv "broker.local" 1883 false sampleBegun).board)).2.config.brokerHost
      = MQTT_BROKER_HOST.toList := by
  refine ⟨by decide, by decide, ?_, ?_, by decide, by decide⟩
  · intro e len
    simp [EEPROMClass.read, EEPROMClass.begin, MQTT_EEPROM_SIZE, MQTT_EEPROM_ADDR,
      SIZEOF_MQTTConfig]
    constructor <;> omega
  · intro e bytes
    simp [EEPROMClass.write, EEPROMClass.begin, MQTT_EEPROM_SIZE, MQTT_EEPROM_ADDR,
      SIZEOF_MQTTConfig]
    constructor <;> (intro h; omega)

end MQTTRelay

/-! ## Credentials of the station link: claim C27 -/

namespace OTADash

theorem filter_isWifiBegin_delays (k : Nat) :
    (List.replicate k (PortalEvent.delay 500)).filter PortalEvent.isWifiBegin = [] := by
  induction k with
  | zero => rfl
  | succ k ih => simp [List.replicate_succ, PortalEvent.isWifiBegin, ih]

/-- C27 (fails on the code): over a store that holds the record for network "HomeNet" with
passphrase "secret123", the portal constructed with the name "Wasa_Controller" and an empty
passphrase connects with the record in `startStation`, but `startDualMode` and the
`reconnectWifi` of the health check call `WiFi.begin` with the constructor's name and
passphrase. -/
theorem station_link_uses_portal_name :
    (storedCredentials sampleStore).ssid = "HomeNet".toList ∧
    (storedCredentials sampleStore).password = "secret123".toList ∧
    sampleStation.currentMode = NetworkMode.STATION ∧
    sampleStation.log.filter PortalEvent.isWifiBegin =
      [PortalEvent.wifiBegin "HomeNet" "secret123"] ∧
    sampleDual.currentMode = NetworkMode.DUAL ∧
    sampleDual.log.filter PortalEvent.isWifiBegin =
      [PortalEvent.wifiBegin "Wasa_Controller" ""] ∧
    ((handleClientTick (linkDownAt 5000) sampleStation).log.drop sampleStation.log.length).filter
      PortalEvent.isWifiBegin = [PortalEvent.wifiBegin "Wasa_Controller" ""] ∧
    (∀ (env : PortalEnv) (d : OTADash),
      ((reconnectWifi env d).log.drop d.log.length).filter PortalEvent.isWifiBegin =
        if d.currentMode = NetworkMode.ACCESS_POINT then []
        else [PortalEvent.wifiBegin d.ssid d.password]) ∧
    (∀ (env : PortalEnv) (d : OTADash),
      ((startDualMode env d).2.log.drop d.log.length).filter PortalEvent.isWifiBegin =
        if d.currentMode = NetworkMode.ACCESS_POINT then []
        else [PortalEvent.wifiBegin d.ssid d.password]) := by
  refine ⟨by decide, by decide, by decide, by decide, by decide, by decide, by decide, ?_, ?_⟩
  · intro env d
    unfold reconnectWifi
    obtain ⟨k, hk⟩ := connectToWifi_spec env d.ssid d.password 5000 (disconnectWifi d)
    rw [hk]
    unfold disconnectWifi
    cases hm : d.currentMode <;>
      simp [hm, note, PortalEvent.isWifiBegin, List.drop_left, List.filter,
        filter_isWifiBegin_delays]
  · intro env d
    unfold startDualMode
    simp only
    obtain ⟨k, hk⟩ := connectToWifi_spec env d.ssid d.password 20000
      (note (PortalEvent.softAP (d.ssid ++ "_AP") d.password)
        (note (PortalEvent.wifiMode WifiMode.WIFI_AP_STA) d))
    have hlog : (startDualMode env d).2.log =
        (connectToWifi env d.ssid d.password 20000
          (note (PortalEvent.softAP (d.ssid ++ "_AP") d.password)
            (note (PortalEvent.wifiMode WifiMode.WIFI_AP_STA) d))).2.log := by
      unfold startDualMode
      simp only
      split <;> rfl
    unfold startDualMode at hlog
    simp only at hlog
    rw [hlog, hk]
    cases hm : d.currentMode <;>
      simp [hm, note, PortalEvent.isWifiBegin, List.drop_left, List.filter,
        filter_isWifiBegin_delays]

/-! ## Restart after an upload: claim C29 -/

/-- C29: `handleUpdate` (ESP8266 branch) makes the same two steps after its answer for every
state of the `Update` object: `delay(2000)`, then the restart.  After a failed update the
answer has status 500 and the text "FAIL", after a succeeded one status 200 and the text
"OK"; in both cases the restart happens at the clock of the answer plus 2000 ms (plus the
`slack` that the delay takes beyond its 2000 ms). -/
theorem handleUpdate_restarts_regardless (update : UpdateClass) (d : OTADash)
    (slack t0 : Nat) :
    (handleUpdate update d).log.drop (d.log.length + 1) =
      [PortalEvent.delay 2000, PortalEvent.restart] ∧
    firstTime PortalEvent.isRestart
      (timeline slack t0 ((handleUpdate update d).log.drop d.log.length)) =
        some (t0 + 2000 + slack) ∧
    (handleUpdate { update with error := true } d).log = d.log ++
      [PortalEvent.send 500 "text/plain" "FAIL" [("Connection", "close")],
        PortalEvent.delay 2000, PortalEvent.restart] ∧
    (handleUpdate { update with error := false } d).log = d.log ++
      [PortalEvent.send 200 "text/plain" "OK" [("Connection", "close")],
        PortalEvent.delay 2000, PortalEvent.restart] := by
  have hlog : ∀ u : UpdateClass, (handleUpdate u d).log = d.log ++
      [PortalEvent.send (if u.hasError then 500 else 200) "text/plain"
          (if u.hasError then "FAIL" else "OK") [("Connection", "close")],
        PortalEvent.delay 2000, PortalEvent.restart] := by
    intro u
    simp only [handleUpdate, note, List.append_assoc, List.singleton_append]
    rfl
  refine ⟨?_, ?_, ?_, ?_⟩
  · rw [hlog update, ← List.drop_drop, List.drop_left]
    rfl
  · rw [hlog update, List.drop_left]
    simp [timeline, firstTime, PortalEvent.isRestart]
  · rw [hlog]
    rfl
  · rw [hlog]
    rfl

end OTADash

/-! ## Auto-reconnect stays off: claim C28 -/

namespace MQTTRelay

theorem apply_autoReconnect_off (deserializeJson : Deserializer) (op : RelayOp) (d : MQTTRelay)
    (hoff : d.autoReconnect = false) : (apply deserializeJson op d).autoReconnect = false := by
  cases op with
  | begin env =>
    have h := (observed_begin env d).2
    simp only [observed, Prod.mk.injEq] at h
    exact h.2.1.trans hoff
  | loop t => exact (loop_autoReconnect_off deserializeJson t d hoff).1
  | connect env => exact (connect_keeps env d).1.trans hoff
  | disconnect env => exact (disconnect_keeps env d).1.trans hoff
  | setBrokerConfig env host port useSSL =>
    exact (setBrokerConfig_keeps env host port useSSL d).1.trans hoff
  | setRelayState env state saveToEEPROM =>
    have h := observed_setRelayState env state saveToEEPROM d
    simp only [observed, Prod.mk.injEq] at h
    exact h.2.1.trans hoff
  | sendHeartbeat env => exact (sendHeartbeat_keeps env d).1.trans hoff
  | sendStatus env status retained => exact (sendStatus_keeps env status retained d).1.trans hoff
  | handleMessage env topic payload =>
    have h := observed_handleMessage deserializeJson env topic payload d
    simp only [observed, Prod.mk.injEq] at h
    exact h.2.1.trans hoff

theorem applyAll_autoReconnect_off (deserializeJson : Deserializer) (ops : List RelayOp) :
    ∀ d : MQTTRelay, d.autoReconnect = false →
      (applyAll deserializeJson ops d).autoReconnect = false := by
  induction ops with
  | nil => intro d h; exact h
  | cons op ops ih =>
    intro d h
    unfold applyAll
    rw [List.foldl_cons]
    exact ih _ (apply_autoReconnect_off deserializeJson op d h)

/-- C28: once `autoReconnect` is false, it is false after every sequence of operations on
the object (`begin`, `loop`, `connect`, `disconnect`, `setBrokerConfig`, `setRelayState`,
`sendHeartbeat`, `sendStatus` and the message callback), and every pass of `loop()` after
such a sequence issues no connection request, whatever `reconnectAttempts` has become in
between. -/
theorem autoReconnect_off_absorbing (deserializeJson : Deserializer) (ops : List RelayOp)
    (d : MQTTRelay) (hoff : d.autoReconnect = false) :
    (applyAll deserializeJson ops d).autoReconnect = false ∧
    ∀ t : Tick,
      (loop deserializeJson t (applyAll deserializeJson ops d)).attempts =
        (applyAll deserializeJson ops d).attempts ∧
      (loop deserializeJson t (applyAll deserializeJson ops d)).autoReconnect = false := by
  have h := applyAll_autoReconnect_off deserializeJson ops d hoff
  exact ⟨h, fun t => ⟨(loop_autoReconnect_off deserializeJson t _ h).2,
    (loop_autoReconnect_off deserializeJson t _ h).1⟩⟩

/-- C28 at the object on which ten refused attempts have switched auto-reconnect off: a
direct `connect()` succeeds and sets `reconnectAttempts` back to 0, the link is lost, and a
pass of `loop()` 60 s later, with the session down, issues no connection request. -/
theorem autoReconnect_off_absorbing_witness :
    sampleCapped.autoReconnect = false ∧ sampleCapped.reconnectAttempts = 10 ∧
    (applyAll sampleParser [RelayOp.connect sampleEnv] sampleCapped).reconnectAttempts = 0 ∧
    (applyAll sampleParser [RelayOp.connect sampleEnv] sampleCapped).isConnected = true ∧
    (applyAll sampleParser [RelayOp.connect sampleEnv, RelayOp.loop (sampleTickLinkDown 70000 true)]
      sampleCapped).isConnected = false ∧
    (loop sampleParser (sampleTick 130000 true)
      (applyAll sampleParser
        [RelayOp.connect sampleEnv, RelayOp.loop (sampleTickLinkDown 70000 true)]
        sampleCapped)).attempts =
      (applyAll sampleParser
        [RelayOp.connect sampleEnv, RelayOp.loop (sampleTickLinkDown 70000 true)]
        sampleCapped).attempts := by
  have hoff : sampleCapped.autoReconnect = false := by decide
  have h := autoReconnect_off_absorbing sampleParser
    [RelayOp.connect sampleEnv, RelayOp.loop (sampleTickLinkDown 70000 true)] sampleCapped hoff
  exact ⟨hoff, by decide, by decide, by decide, by decide, (h.2 (sampleTick 130000 true)).1⟩

end MQTTRelay

/-! ## Payload of the scan result: claim C30 -/

namespace OTADash

/-- C30 (fails on the code): the handler escapes the quotes of an SSID first and the
backslashes second, so the backslash that the first step puts before a quote is doubled by
the second.  For the SSID `a"b` the escaped text is `a\\"b`: a standard reader of the
JSON string takes `\\` as one backslash and ends the string at the quote, so the `ssid`
field reads `a\` and the payload goes on with `b"`, which is not well-formed JSON.  An SSID
with a backslash and no quote is read back as it was, and a scan without results gives the
payload `[]`. -/
theorem scan_payload_breaks_on_quote :
    ssidEscaped "a\"b" = "a\\\\\"b" ∧
    readJsonString ((ssidEscaped "a\"b").toList ++ ['"']) = some ("a\\".toList, ['b', '"']) ∧
    (handleWifiScanResult { samplePortalEnv with scan := sampleScanQuote } 1 sampleStation).log.drop
        sampleStation.log.length =
      [PortalEvent.textAll
          "[\x7b\"ssid\":\"a\\\\\"b\",\"rssi\":-50,\"channel\":6,\"encryption\":\"WPA2\"\x7d]",
        PortalEvent.scanDelete, PortalEvent.scanDelete] ∧
    readJsonString
        ("[\x7b\"ssid\":\"a\\\\\"b\",\"rssi\":-50,\"channel\":6,\"encryption\":\"WPA2\"\x7d]".toList.drop
          10) =
      some ("a\\".toList,
        "b\",\"rssi\":-50,\"channel\":6,\"encryption\":\"WPA2\"\x7d]".toList) ∧
    readJsonString ((ssidEscaped "a\\b").toList ++ ['"']) = some ("a\\b".toList, []) ∧
    (handleWifiScanResult { samplePortalEnv with scan := sampleScanBackslash } 1
        sampleStation).log.drop sampleStation.log.length =
      [PortalEvent.textAll
          "[\x7b\"ssid\":\"a\\\\b\",\"rssi\":-50,\"channel\":6,\"encryption\":\"WPA2\"\x7d]",
        PortalEvent.scanDelete, PortalEvent.scanDelete] ∧
    (handleWifiScanResult { samplePortalEnv with scan := ScanState.done [] } 0 sampleStation).log.drop
        sampleStation.log.length = [PortalEvent.textAll "[]"] := by
  refine ⟨by decide, by decide, by decide, by decide, by decide, by decide, by decide⟩

end OTADash
